import Mathlib

/-!
# Quartermaster booking engine: a shallow embedding

This file embeds the booking admission / capacity engine of the
`quartermaster-api` backend (FastAPI + SQLModel) as pure Lean functions over an
explicit database state (`World`), and proves properties of the embedded
operations.

Conventions of the embedding:

* primary keys are `Nat`; money amounts, quantities and capacities are `Int`
  (Python integers are unbounded and signed, and several code paths subtract);
* the SQLAlchemy session is replaced by explicit state passing: an endpoint
  becomes `World → ... → World × Option Err`, where the returned `World` is the
  state actually persisted when the call returns or raises (an `Err` mirrors an
  `HTTPException`);
* `_create_booking_impl` performs several `session.commit()` calls; its
  embedding returns the state persisted by the commits that did run, so the
  non-atomic commit structure of the source is preserved;
* the repository ships only part of its `crud` package; the functions from the
  missing modules (`crud/effective_pricing.py`, `crud/booking_items.py`,
  `crud/jurisdictions.py`, `api/routes/booking_utils.py`) are modelled from the
  spec, each with a doc comment saying so.
-/

namespace Quartermaster

/-- Booking lifecycle status (`models.BookingStatus`). -/
inductive BookingStatus
  | draft
  | confirmed
  | checked_in
  | completed
  | cancelled
deriving DecidableEq, Repr

/-- Payment status axis (`models.PaymentStatus`). -/
inductive PaymentStatus
  | pending_payment
  | paid
  | free
  | failed
  | refunded
  | partially_refunded
deriving DecidableEq, Repr

/-- Status of one booking line (`models.BookingItemStatus`). -/
inductive ItemStatus
  | active
  | refunded
  | fulfilled
deriving DecidableEq, Repr

/-- `models.Boat`: the default capacity is a ceiling used when a trip-boat
association has no `max_capacity` override. -/
structure Boat where
  id : Nat
  capacity : Int
deriving DecidableEq, Repr

/-- `models.Mission`. -/
structure Mission where
  id : Nat
  active : Bool
  launch_id : Nat
deriving DecidableEq, Repr

/-- `models.Trip`.  `mode` is the trip's effective booking mode at the
evaluation instant: the source computes it from `booking_mode`,
`sales_open_at` and the ambient clock (`services/date_validator.py`, not under
`src/`); since every claim here is about a single instant, the already-shifted
mode is stored as data. -/
structure Trip where
  id : Nat
  mission_id : Nat
  active : Bool
  mode : String
deriving DecidableEq, Repr

/-- `models.TripBoat`: associates a trip and a boat; `max_capacity = none`
inherits `Boat.capacity`. -/
structure TripBoat where
  id : Nat
  trip_id : Nat
  boat_id : Nat
  max_capacity : Option Int
  use_only_trip_pricing : Bool
deriving DecidableEq, Repr

/-- `models.BoatPricing`: per-(boat, ticket type) default price and capacity;
capacity `0` means unrestricted for that type. -/
structure BoatPricing where
  boat_id : Nat
  ticket_type : String
  price : Int
  capacity : Int
deriving DecidableEq, Repr

/-- `models.TripBoatPricing`: per-(trip-boat, ticket type) override;
`capacity = none` inherits the boat-level capacity for the type. -/
structure TripBoatPricing where
  trip_boat_id : Nat
  ticket_type : String
  price : Int
  capacity : Option Int
deriving DecidableEq, Repr

/-- `models.Launch` (only the location link matters here). -/
structure Launch where
  id : Nat
  location_id : Nat
deriving DecidableEq, Repr

/-- `models.Jurisdiction` (sales tax rate per location). -/
structure Jurisdiction where
  location_id : Nat
  sales_tax_rate : Rat
deriving DecidableEq, Repr

/-- `models.Merchandise` (catalog item). -/
structure Merchandise where
  id : Nat
  price : Int
deriving DecidableEq, Repr

/-- `models.MerchandiseVariation`: per-variant inventory counters. -/
structure MerchVariation where
  id : Nat
  merchandise_id : Nat
  variant_value : String
  quantity_total : Int
  quantity_sold : Int
  quantity_fulfilled : Int
deriving DecidableEq, Repr

/-- `models.TripMerchandise`: links a trip to a catalog item with optional
price / quantity overrides. -/
structure TripMerchandise where
  id : Nat
  trip_id : Nat
  merchandise_id : Nat
  quantity_available_override : Option Int
  price_override : Option Int
deriving DecidableEq, Repr

/-- `models.DiscountCode` (only the access-code fields used by admission). -/
structure DiscountCode where
  id : Nat
  is_access_code : Bool
  is_active : Bool
  access_code_mission_id : Option Nat
deriving DecidableEq, Repr

/-- `models.BookingItem`: one line of a booking.  A ticket has
`trip_merchandise_id = none`; merchandise has it set. -/
structure BookingItem where
  id : Nat
  booking_id : Nat
  trip_id : Nat
  boat_id : Nat
  trip_merchandise_id : Option Nat
  merchandise_variation_id : Option Nat
  item_type : String
  quantity : Int
  price_per_unit : Int
  status : ItemStatus
deriving DecidableEq, Repr

/-- `models.Booking` (the fields the embedded operations read or write).
`has_payment_intent` abstracts `payment_intent_id is not None`. -/
structure Booking where
  id : Nat
  confirmation_code : String
  booking_status : BookingStatus
  payment_status : Option PaymentStatus
  subtotal : Int
  discount_amount : Int
  tax_amount : Int
  tip_amount : Int
  total_amount : Int
  refunded_amount_cents : Int
  has_payment_intent : Bool
deriving DecidableEq, Repr

/-- The persisted database state. -/
structure World where
  missions : List Mission
  trips : List Trip
  boats : List Boat
  tripBoats : List TripBoat
  boatPricings : List BoatPricing
  tripBoatPricings : List TripBoatPricing
  merch : List Merchandise
  variations : List MerchVariation
  tripMerch : List TripMerchandise
  discountCodes : List DiscountCode
  launches : List Launch
  jurisdictions : List Jurisdiction
  bookings : List Booking
  items : List BookingItem
deriving DecidableEq, Repr

/-- `session.get(Trip, id)`. -/
def World.getTrip (w : World) (id : Nat) : Option Trip :=
  w.trips.find? (fun t => t.id == id)

/-- `session.get(Mission, id)`. -/
def World.getMission (w : World) (id : Nat) : Option Mission :=
  w.missions.find? (fun m => m.id == id)

/-- `session.get(Boat, id)`. -/
def World.getBoat (w : World) (id : Nat) : Option Boat :=
  w.boats.find? (fun b => b.id == id)

/-- `session.get(Launch, id)`. -/
def World.getLaunch (w : World) (id : Nat) : Option Launch :=
  w.launches.find? (fun l => l.id == id)

/-- `session.get(TripMerchandise, id)`. -/
def World.getTripMerch (w : World) (id : Nat) : Option TripMerchandise :=
  w.tripMerch.find? (fun tm => tm.id == id)

/-- `session.get(Merchandise, id)`. -/
def World.getMerch (w : World) (id : Nat) : Option Merchandise :=
  w.merch.find? (fun m => m.id == id)

/-- `session.get(MerchandiseVariation, id)`. -/
def World.getVariation (w : World) (id : Nat) : Option MerchVariation :=
  w.variations.find? (fun v => v.id == id)

/-- `session.get(DiscountCode, id)`. -/
def World.getDiscountCode (w : World) (id : Nat) : Option DiscountCode :=
  w.discountCodes.find? (fun d => d.id == id)

/-- `session.get(Booking, id)`. -/
def World.getBooking (w : World) (id : Nat) : Option Booking :=
  w.bookings.find? (fun b => b.id == id)

/-- `session.get(BookingItem, id)`. -/
def World.getItem (w : World) (id : Nat) : Option BookingItem :=
  w.items.find? (fun i => i.id == id)

/-- The `select(TripBoat).where(trip_id == t, boat_id == b)` lookup. -/
def World.getTripBoatFor (w : World) (t b : Nat) : Option TripBoat :=
  w.tripBoats.find? (fun tb => tb.trip_id == t && tb.boat_id == b)

/-- `crud.get_trip_boat` by primary key. -/
def World.getTripBoat (w : World) (id : Nat) : Option TripBoat :=
  w.tripBoats.find? (fun tb => tb.id == id)

/-- `crud.get_trip_boats_by_trip`. -/
def World.tripBoatsByTrip (w : World) (t : Nat) : List TripBoat :=
  w.tripBoats.filter (fun tb => tb.trip_id == t)

/-- `crud.get_trip_boats_by_boat`. -/
def World.tripBoatsByBoat (w : World) (b : Nat) : List TripBoat :=
  w.tripBoats.filter (fun tb => tb.boat_id == b)

/-- `crud.list_merchandise_variations_by_merchandise`. -/
def World.variationsByMerch (w : World) (m : Nat) : List MerchVariation :=
  w.variations.filter (fun v => v.merchandise_id == m)

/-- `crud.get_merchandise_variation_by_merchandise_and_value`. -/
def World.variationByMerchAndValue (w : World) (m : Nat) (value : String) :
    Option MerchVariation :=
  w.variations.find? (fun v => v.merchandise_id == m && v.variant_value == value)

/-- Booking lookup by confirmation code
(`select(Booking).where(confirmation_code == code)`). -/
def World.bookingByCode (w : World) (code : String) : Option Booking :=
  w.bookings.find? (fun b => b.confirmation_code == code)

/-- `select(BookingItem).where(booking_id == id)` in stored order. -/
def World.itemsOfBooking (w : World) (id : Nat) : List BookingItem :=
  w.items.filter (fun i => i.booking_id == id)

/-! ## Inventory ledger for tickets

`crud/booking_items.py` is not under `src/`; the two paid-count queries are
modelled from the spec (section 4.2): a booking is *paid* when its
`booking_status` is confirmed, checked_in or completed and its
`payment_status` is not refunded; draft and cancelled bookings never consume
capacity.  The counts are grouped by the exact `(boat_id, item_type)` key of
each ticket item (the callers in `src/` that need the case-insensitive or
`_ticket`-suffix matching described by the spec perform it themselves on the
returned buckets, e.g. `_create_booking_impl`). -/

/-- Whether a booking counts against capacity. -/
def isPaidBooking (b : Booking) : Bool :=
  (b.booking_status == .confirmed || b.booking_status == .checked_in
      || b.booking_status == .completed)
    && b.payment_status != some .refunded

/-- The booking an item belongs to. -/
def World.bookingOf (w : World) (i : BookingItem) : Option Booking :=
  w.bookings.find? (fun b => b.id == i.booking_id)

/-- The capacity the item consumes: its quantity when it is a ticket of a paid
booking, otherwise 0. -/
def paidContrib (bs : List Booking) (i : BookingItem) : Int :=
  if i.trip_merchandise_id == none
      && ((bs.find? (fun b => b.id == i.booking_id)).map isPaidBooking).getD false then
    i.quantity
  else 0

/-- Modelled from the spec:
`crud.get_paid_ticket_count_per_boat_per_item_type_for_trip`, read at one
exact `(boat_id, item_type)` bucket.  Sums the quantities of the trip's ticket
items in that bucket whose parent booking is paid. -/
def paidCountByBoatType (w : World) (trip_id boat_id : Nat) (ty : String) : Int :=
  (w.items.map (fun i =>
    if i.trip_id == trip_id && i.boat_id == boat_id && i.item_type == ty then
      paidContrib w.bookings i
    else 0)).sum

/-- Modelled from the spec:
`crud.get_paid_ticket_count_per_boat_for_trip`, read at one boat.  Sums the
quantities of the trip's ticket items on that boat whose parent booking is
paid. -/
def paidCountByBoat (w : World) (trip_id boat_id : Nat) : Int :=
  (w.items.map (fun i =>
    if i.trip_id == trip_id && i.boat_id == boat_id then
      paidContrib w.bookings i
    else 0)).sum

/-! String primitives of the Python code (`str.strip`, `str.lower`,
`str.replace("_ticket", "")`), written by structural recursion over the
character list so that concrete instances evaluate. -/

/-- ASCII whitespace, as stripped by Python `str.strip()` on this data. -/
def isSpaceChar (c : Char) : Bool :=
  c == ' ' || c == '\t' || c == '\n' || c == '\r'

/-- Drop leading whitespace characters. -/
def dropLeadingSpaces : List Char → List Char
  | [] => []
  | c :: cs => if isSpaceChar c then dropLeadingSpaces cs else c :: cs

/-- Python `str.strip()`: drop whitespace from both ends. -/
def strTrim (s : String) : String :=
  ⟨(dropLeadingSpaces ((dropLeadingSpaces s.data).reverse)).reverse⟩

/-- Python `str.lower()` on the ASCII ticket-type strings used by the API. -/
def charLower (c : Char) : Char :=
  if 65 ≤ c.toNat && c.toNat ≤ 90 then Char.ofNat (c.toNat + 32) else c

/-- Python `str.lower()` applied character-wise. -/
def strLower (s : String) : String := ⟨s.data.map charLower⟩

/-- Python `s.replace("_ticket", "")`, left to right, with a length fuel for
structural termination. -/
def replaceTicketAux : Nat → List Char → List Char
  | 0, _ => []
  | _ + 1, [] => []
  | fuel + 1, c :: cs =>
    match c, cs with
    | '_', 't' :: 'i' :: 'c' :: 'k' :: 'e' :: 't' :: rest => replaceTicketAux fuel rest
    | _, _ => c :: replaceTicketAux fuel cs

/-- Python `s.replace("_ticket", "")`. -/
def strReplaceTicket (s : String) : String :=
  ⟨replaceTicketAux s.data.length s.data⟩

/-- The case-insensitive read of the per-type ledger performed by
`_create_booking_impl` (it sums every bucket of the boat whose type key
lower-cases to the requested type's lower case). -/
def paidCountByBoatTypeCI (w : World) (trip_id boat_id : Nat) (ty : String) : Int :=
  (w.items.map (fun i =>
    if i.trip_id == trip_id && i.boat_id == boat_id
        && strLower i.item_type == strLower ty then
      paidContrib w.bookings i
    else 0)).sum

/-! ## Capacity / pricing resolver

`crud/effective_pricing.py` is not under `src/`; `get_effective_pricing` and
`get_effective_capacity_per_ticket_type` are modelled from the spec (sections
3 and 4.1): start from the `BoatPricing` rows of the boat (skipped entirely
when the trip-boat has `use_only_trip_pricing`), then override or insert with
the `TripBoatPricing` rows of the trip-boat, matched by exact ticket type.  An
effective capacity of 0 means unrestricted and is represented as `none`; a
`TripBoatPricing` with `capacity = none` inherits the boat-level capacity for
its type. -/

/-- One merged pricing entry: `capacity = none` means unrestricted. -/
structure EffectiveEntry where
  ticket_type : String
  price : Int
  capacity : Option Int
deriving DecidableEq, Repr

/-- Map a stored capacity value to the effective one (0 = unrestricted). -/
def capOfInt (c : Int) : Option Int :=
  if c == 0 then none else some c

/-- Modelled from the spec: `crud.get_effective_pricing` merge of boat-level
defaults and trip-boat overrides. -/
def getEffectivePricing (w : World) (trip_id boat_id : Nat) : List EffectiveEntry :=
  let tb? := w.getTripBoatFor trip_id boat_id
  let useOnly := match tb? with
    | some tb => tb.use_only_trip_pricing
    | none => false
  let base : List EffectiveEntry :=
    if useOnly then []
    else (w.boatPricings.filter (fun bp => bp.boat_id == boat_id)).map fun bp =>
      { ticket_type := bp.ticket_type, price := bp.price,
        capacity := capOfInt bp.capacity }
  let ovs : List TripBoatPricing := match tb? with
    | some tb => w.tripBoatPricings.filter (fun p => p.trip_boat_id == tb.id)
    | none => []
  ovs.foldl (fun acc ov =>
    let ovCap : Option Int := match ov.capacity with
      | some c => capOfInt c
      | none =>
        match w.boatPricings.find?
            (fun bp => bp.boat_id == boat_id && bp.ticket_type == ov.ticket_type) with
        | some bp => capOfInt bp.capacity
        | none => none
    if acc.any (fun e => e.ticket_type == ov.ticket_type) then
      acc.map (fun e =>
        if e.ticket_type == ov.ticket_type then
          { e with price := ov.price, capacity := ovCap }
        else e)
    else acc ++ [{ ticket_type := ov.ticket_type, price := ov.price,
                   capacity := ovCap }]) base

/-- The `capacities.get(item_type)` read of
`crud.get_effective_capacity_per_ticket_type`:
`none` = type absent from the merged set (not sellable);
`some none` = type present with unrestricted capacity;
`some (some c)` = type present with capacity `c`. -/
def effCapEntry (w : World) (trip_id boat_id : Nat) (ty : String) :
    Option (Option Int) :=
  ((getEffectivePricing w trip_id boat_id).find?
    (fun e => e.ticket_type == ty)).map (fun e => e.capacity)

/-- The `by_type.get(item_type)` price read used by `_create_booking_impl`. -/
def priceByType (w : World) (trip_id boat_id : Nat) (ty : String) : Option Int :=
  ((getEffectivePricing w trip_id boat_id).find?
    (fun e => e.ticket_type == ty)).map (fun e => e.price)

/-- The price-resolution expression of `_create_booking_impl`:
`by_type.get(item_type) or by_type.get(item_type.replace("_ticket", ""))`.
Python's `or` treats both `None` and `0` as falsy, so an exact-type price of 0
falls through to the suffix-stripped lookup. -/
def resolveTicketPrice (w : World) (trip_id boat_id : Nat) (ty : String) :
    Option Int :=
  match priceByType w trip_id boat_id ty with
  | some p =>
      if p != 0 then some p
      else priceByType w trip_id boat_id (strReplaceTicket ty)
  | none => priceByType w trip_id boat_id (strReplaceTicket ty)

/-- The effective total capacity of a (trip, boat):
`trip_boat.max_capacity` when set, else the boat's capacity (0 when the boat
row is missing), as computed inline by `_create_booking_impl` and
`reschedule_booking`. -/
def effectiveMaxCapacity (w : World) (tb : TripBoat) : Int :=
  match tb.max_capacity with
  | some c => c
  | none =>
    match w.getBoat tb.boat_id with
    | some b => b.capacity
    | none => 0

/-! ## Totals calculator and tax resolution -/

/-- Modelled from the spec: `booking_utils.compute_booking_totals` (not under
`src/`).  `tax = round(subtotal_after_discount * tax_rate)` and
`total = subtotal - discount + tax + tip`; the rounding rule is fixed as
round-half-up (`round` on `Rat`). -/
def computeBookingTotals (subtotal discount : Int) (rate : Rat) (tip : Int) :
    Int × Int :=
  let tax : Int := round (((subtotal - discount : Int) : Rat) * rate)
  (tax, subtotal - discount + tax + tip)

/-- The trip → mission → launch → location → jurisdiction tax-rate walk of
`update_booking` (first jurisdiction of the launch's location;
`crud.get_jurisdictions_by_location` with limit 1 is modelled from the spec as
the first matching row). -/
def taxRateForTrip (w : World) (trip_id : Nat) : Option Rat :=
  match w.getTrip trip_id with
  | none => none
  | some t =>
    match w.getMission t.mission_id with
    | none => none
    | some m =>
      match w.getLaunch m.launch_id with
      | none => none
      | some l =>
        (w.jurisdictions.find? (fun j => j.location_id == l.location_id)).map
          (fun j => j.sales_tax_rate)

/-! ## Errors

Each constructor mirrors one `HTTPException` site of the embedded routes. -/

inductive Err
  | validationError
  | emptyItems
  | tripNotFound
  | tripInactive
  | missionNotFound
  | missionInactive
  | crossMission
  | forbiddenPrivate
  | accessCodeRequired
  | invalidAccessCode
  | accessCodeNotAccess
  | accessCodeInactive
  | accessCodeWrongMission
  | boatNotFound
  | boatNotOnTrip
  | noPricingForType
  | ticketPriceMismatch
  | invalidMerchRef
  | merchNotFound
  | variantRequired
  | variationNotFound
  | insufficientInventory
  | merchPriceMismatch
  | noCapacityForType
  | typeCapacityExceeded
  | totalCapacityExceeded
  | confirmationCodeExists
  | inventoryCommitFailed
  | emptyUpdate
  | bookingNotFound
  | checkedInLocked
  | itemNotInBooking
  | invalidTransition
  | negativeTip
  | refundBadStatus
  | noRemainingRefund
  | refundTooLarge
  | refundNotPositive
  | gatewayFailure
  | checkInBadStatus
  | checkInNoMatchingItem
  | noTicketItems
  | itemTripNotFound
  | differentMission
  | noBoats
  | boatRequired
  | boatNotOnTargetTrip
  | capacityBelowBooked
deriving DecidableEq, Repr

/-- The first error produced by `f` over `l`, in order (a short-circuiting
validation loop). -/
def firstErr (l : List α) (f : α → Option Err) : Option Err :=
  l.foldl (fun acc a => acc <|> f a) none

/-- Largest element of a list of naturals (0 for the empty list); used to mint
fresh primary keys. -/
def maxNat (l : List Nat) : Nat :=
  l.foldr max 0

/-- First-occurrence deduplication, preserving order (the key iteration order
of a Python `defaultdict` built by insertion). -/
def dedupKeys [BEq α] (l : List α) : List α :=
  l.foldl (fun acc a => if acc.contains a then acc else acc ++ [a]) []

/-! ## Booking creation (`_create_booking_impl`) -/

/-- `models.BookingItemCreate`: one requested line. -/
structure ItemInput where
  trip_id : Nat
  boat_id : Nat
  trip_merchandise_id : Option Nat
  item_type : String
  quantity : Int
  price_per_unit : Int
  variant_option : Option String
deriving DecidableEq, Repr

/-- `models.BookingCreate`: the request payload of booking creation. -/
structure BookingInput where
  confirmation_code : String
  subtotal : Int
  discount_amount : Int
  tax_amount : Int
  tip_amount : Int
  total_amount : Int
  discount_code_id : Option Nat
  items : List ItemInput
deriving DecidableEq, Repr

/-- The Pydantic field constraints of `BookingCreate` / `BookingItemCreate`
(`quantity ge 1`, `price_per_unit ge 0`, money fields `ge 0`), enforced at
parse time before the endpoint body runs. -/
def bookingInputValid (inp : BookingInput) : Bool :=
  0 ≤ inp.subtotal && 0 ≤ inp.discount_amount && 0 ≤ inp.tax_amount
    && 0 ≤ inp.tip_amount && 0 ≤ inp.total_amount
    && inp.items.all (fun i => 1 ≤ i.quantity && 0 ≤ i.price_per_unit)

/-- Trip-existence / activity / same-mission loop of `_create_booking_impl`,
threading the first trip's mission id. -/
def checkTripsAndMission (w : World) (items : List ItemInput) :
    Except Err Nat := do
  let mid ← items.foldlM (fun (mid? : Option Nat) it => do
    match w.getTrip it.trip_id with
    | none => throw Err.tripNotFound
    | some t =>
      if !t.active then throw Err.tripInactive
      else match mid? with
        | none => pure (some t.mission_id)
        | some m =>
          if t.mission_id != m then throw Err.crossMission else pure (some m))
    none
  match mid with
  | some m => pure m
  | none => throw Err.emptyItems

/-- Access-control step of `_create_booking_impl` (effective booking modes,
early-bird access codes; superusers bypass it). -/
def checkAccess (w : World) (inp : BookingInput) (mission_id : Nat)
    (is_superuser : Bool) : Option Err :=
  let trips := (dedupKeys (inp.items.map (fun i => i.trip_id))).filterMap w.getTrip
  let any_private := trips.any (fun t => t.mode == "private")
  let any_early_bird := trips.any (fun t => t.mode == "early_bird")
  if is_superuser then none
  else if any_private then some Err.forbiddenPrivate
  else if any_early_bird then
    match inp.discount_code_id with
    | none => some Err.accessCodeRequired
    | some cid =>
      match w.getDiscountCode cid with
      | none => some Err.invalidAccessCode
      | some dc =>
        if !dc.is_access_code then some Err.accessCodeNotAccess
        else if !dc.is_active then some Err.accessCodeInactive
        else match dc.access_code_mission_id with
          | some m => if m != mission_id then some Err.accessCodeWrongMission else none
          | none => none
  else none

/-- Boat-existence / trip-association loop of `_create_booking_impl`. -/
def checkBoats (w : World) (items : List ItemInput) : Option Err :=
  firstErr items fun it =>
    match w.getBoat it.boat_id with
    | none => some Err.boatNotFound
    | some _ =>
      match w.getTripBoatFor it.trip_id it.boat_id with
      | none => some Err.boatNotOnTrip
      | some _ => none

/-- Ticket-price validation of `_create_booking_impl` for one ticket item:
the server-resolved price (with Python's falsy-`or` fallback) must exist and
equal the client-submitted `price_per_unit` exactly. -/
def ticketPriceCheck (w : World) (it : ItemInput) : Option Err :=
  match resolveTicketPrice w it.trip_id it.boat_id it.item_type with
  | none => some Err.noPricingForType
  | some p => if p != it.price_per_unit then some Err.ticketPriceMismatch else none

/-- Merchandise validation of `_create_booking_impl` for one merchandise item
(trip link, catalog row, variant resolution, inventory, exact price). -/
def merchItemCheck (w : World) (it : ItemInput) (tmid : Nat) : Option Err :=
  match w.getTripMerch tmid with
  | none => some Err.invalidMerchRef
  | some tm =>
    if tm.trip_id != it.trip_id then some Err.invalidMerchRef
    else match w.getMerch tm.merchandise_id with
    | none => some Err.merchNotFound
    | some m =>
      let variations := w.variationsByMerch m.id
      let allowed := (variations.filter (fun v => strTrim v.variant_value != "")).map
        (fun v => v.variant_value)
      if allowed != [] &&
          (it.variant_option == none
            || !allowed.contains (it.variant_option.getD "")) then
        some Err.variantRequired
      else
        let variant_value := strTrim (it.variant_option.getD "")
        match w.variationByMerchAndValue tm.merchandise_id variant_value with
        | none => some Err.variationNotFound
        | some v =>
          let available0 := v.quantity_total - v.quantity_sold
          let available := match tm.quantity_available_override with
            | some o => min available0 o
            | none => available0
          let effective_price := match tm.price_override with
            | some p => p
            | none => m.price
          if available < it.quantity then some Err.insufficientInventory
          else if effective_price != it.price_per_unit then
            some Err.merchPriceMismatch
          else none

/-- Per-item pricing / inventory loop of `_create_booking_impl`. -/
def checkPricingAndInventory (w : World) (items : List ItemInput) : Option Err :=
  firstErr items fun it =>
    match it.trip_merchandise_id with
    | none => ticketPriceCheck w it
    | some tmid => merchItemCheck w it tmid

/-- Requested ticket quantity of one `(trip, boat, type)` bucket. -/
def requestedQtyByType (items : List ItemInput) (k : Nat × Nat × String) : Int :=
  (items.map (fun it =>
    if it.trip_merchandise_id == none && it.trip_id == k.1 && it.boat_id == k.2.1
        && it.item_type == k.2.2 then it.quantity else 0)).sum

/-- Requested ticket quantity of one `(trip, boat)` pair. -/
def requestedQtyByBoat (items : List ItemInput) (k : Nat × Nat) : Int :=
  (items.map (fun it =>
    if it.trip_merchandise_id == none && it.trip_id == k.1 && it.boat_id == k.2 then
      it.quantity else 0)).sum

/-- Per-ticket-type capacity step of `_create_booking_impl`: for each
requested `(trip, boat, type)` bucket, the type must be present in the merged
pricing set, and when its effective capacity is restricted the paid count
(case-insensitive bucket match) plus the requested quantity must fit. -/
def checkTypeCapacity (w : World) (items : List ItemInput) : Option Err :=
  let keys := dedupKeys ((items.filter (fun i => i.trip_merchandise_id == none)).map
    (fun i => (i.trip_id, i.boat_id, i.item_type)))
  firstErr keys fun k =>
    match effCapEntry w k.1 k.2.1 k.2.2 with
    | none => some Err.noCapacityForType
    | some none => none
    | some (some cap) =>
      let paid := paidCountByBoatTypeCI w k.1 k.2.1 k.2.2
      if paid + requestedQtyByType items k > cap then
        some Err.typeCapacityExceeded
      else none

/-- Total-capacity step of `_create_booking_impl`: for each requested
`(trip, boat)` pair with an association row, the paid total plus the requested
total must fit in the effective max capacity. -/
def checkTotalCapacity (w : World) (items : List ItemInput) : Option Err :=
  let keys := dedupKeys ((items.filter (fun i => i.trip_merchandise_id == none)).map
    (fun i => (i.trip_id, i.boat_id)))
  firstErr keys fun k =>
    match w.getTripBoatFor k.1 k.2 with
    | none => none
    | some tb =>
      let paid_total := paidCountByBoat w k.1 k.2
      if paid_total + requestedQtyByBoat items k > effectiveMaxCapacity w tb then
        some Err.totalCapacityExceeded
      else none

/-- Variation resolved for a new item at insert time (sets
`merchandise_variation_id`). -/
def resolveVariationId (w : World) (it : ItemInput) : Option Nat :=
  match it.trip_merchandise_id with
  | none => none
  | some tmid =>
    match w.getTripMerch tmid with
    | none => none
    | some tm =>
      (w.variationByMerchAndValue tm.merchandise_id
        (strTrim (it.variant_option.getD ""))).map (fun v => v.id)

/-- The `BookingItem` rows inserted for the request's items, with sequential
fresh ids starting at `base`. -/
def buildItems (w : World) (bid base : Nat) : List ItemInput → List BookingItem
  | [] => []
  | it :: rest =>
    { id := base, booking_id := bid,
      trip_id := it.trip_id, boat_id := it.boat_id,
      trip_merchandise_id := it.trip_merchandise_id,
      merchandise_variation_id := resolveVariationId w it,
      item_type := it.item_type, quantity := it.quantity,
      price_per_unit := it.price_per_unit, status := .active } ::
      buildItems w bid (base + 1) rest

/-- `_create_booking_impl`.  `is_superuser` is the caller's privilege;
`inventory_commit_ok` abstracts whether the second commit (the merchandise
`quantity_sold` increments) succeeds.  Returns the state actually persisted
together with the raised error, if any: validation failures happen before any
commit, but a failing inventory commit happens after the booking and its items
were already committed, so that partial state is returned with the error. -/
def createBooking (w : World) (inp : BookingInput) (is_superuser : Bool)
    (inventory_commit_ok : Bool) : World × Option Err :=
  if !bookingInputValid inp then (w, some Err.validationError)
  else match checkTripsAndMission w inp.items with
  | .error e => (w, some e)
  | .ok mission_id =>
    match w.getMission mission_id with
    | none => (w, some Err.missionNotFound)
    | some mission =>
      if !mission.active then (w, some Err.missionInactive)
      else match checkAccess w inp mission_id is_superuser with
      | some e => (w, some e)
      | none =>
        match checkBoats w inp.items with
        | some e => (w, some e)
        | none =>
          match checkPricingAndInventory w inp.items with
          | some e => (w, some e)
          | none =>
            match checkTypeCapacity w inp.items with
            | some e => (w, some e)
            | none =>
              match checkTotalCapacity w inp.items with
              | some e => (w, some e)
              | none =>
                if w.bookings.any
                    (fun b => b.confirmation_code == inp.confirmation_code) then
                  (w, some Err.confirmationCodeExists)
                else
                  let bid := maxNat (w.bookings.map (fun b => b.id)) + 1
                  let ibase := maxNat (w.items.map (fun i => i.id)) + 1
                  let newBooking : Booking :=
                    { id := bid, confirmation_code := inp.confirmation_code,
                      booking_status := .draft, payment_status := none,
                      subtotal := inp.subtotal,
                      discount_amount := inp.discount_amount,
                      tax_amount := inp.tax_amount,
                      tip_amount := inp.tip_amount,
                      total_amount := inp.total_amount,
                      refunded_amount_cents := 0, has_payment_intent := false }
                  let newItems : List BookingItem := buildItems w bid ibase inp.items
                  let w1 : World :=
                    { w with bookings := w.bookings ++ [newBooking],
                             items := w.items ++ newItems }
                  if inventory_commit_ok then
                    let vars2 := newItems.foldl (fun vs it =>
                      match it.merchandise_variation_id with
                      | none => vs
                      | some vid => vs.map fun v =>
                          if v.id == vid then
                            { v with quantity_sold := v.quantity_sold + it.quantity }
                          else v) w1.variations
                    ({ w1 with variations := vars2 }, none)
                  else
                    (w1, some Err.inventoryCommitFailed)

/-! ## Booking update (`update_booking`) -/

/-- `models.BookingItemQuantityUpdate`. -/
structure QtyUpd where
  id : Nat
  quantity : Int
deriving DecidableEq, Repr

/-- `models.BookingUpdate`, restricted to the fields the embedded behaviors
read (`exclude_unset` semantics: `none` means the field was not sent). -/
structure UpdatePayload where
  booking_status : Option BookingStatus := none
  payment_status : Option PaymentStatus := none
  tip_amount : Option Int := none
  item_quantity_updates : Option (List QtyUpd) := none
deriving DecidableEq, Repr

/-- `update_data` emptiness (`model_dump(exclude_unset=True)` empty). -/
def UpdatePayload.isEmpty (p : UpdatePayload) : Bool :=
  p.booking_status == none && p.payment_status == none && p.tip_amount == none
    && p.item_quantity_updates == none

/-- The `qty_by_id` dict of `update_booking`
(`{u.id: u.quantity for u in item_quantity_updates}`; on duplicate ids the
last entry wins). -/
def qtyById (us : List QtyUpd) (i : Nat) : Option Int :=
  (us.reverse.find? (fun u => u.id == i)).map (fun u => u.quantity)

/-- The booking's own current ticket count per `(boat_id, item_type)`
(`current_this_booking` of `update_booking`; note the key carries no trip id). -/
def currentThisBooking (bookingItems : List BookingItem) (boat_id : Nat)
    (ty : String) : Int :=
  (bookingItems.map (fun i =>
    if i.trip_merchandise_id == none && i.boat_id == boat_id
        && i.item_type == ty then i.quantity else 0)).sum

/-- The proposed ticket total of one `(trip, boat, type)` bucket
(`ticket_totals` of `update_booking`): every ticket item of the booking with
its proposed (or, absent an update, current) quantity. -/
def proposedQtyByType (bookingItems : List BookingItem) (us : List QtyUpd)
    (k : Nat × Nat × String) : Int :=
  (bookingItems.map (fun i =>
    if i.trip_merchandise_id == none && i.trip_id == k.1 && i.boat_id == k.2.1
        && i.item_type == k.2.2 then (qtyById us i.id).getD i.quantity
    else 0)).sum

/-- Per-type capacity validation of the quantity-update sub-operation: for
each bucket the booking's ticket items touch, the paid count minus this
booking's own current contribution plus the proposed quantity must fit
(when the type's effective capacity is restricted). -/
def checkQtyUpdateCapacity (w : World) (bookingItems : List BookingItem)
    (us : List QtyUpd) : Option Err :=
  let keys := dedupKeys
    ((bookingItems.filter (fun i => i.trip_merchandise_id == none)).map
      (fun i => (i.trip_id, i.boat_id, i.item_type)))
  firstErr keys fun k =>
    match effCapEntry w k.1 k.2.1 k.2.2 with
    | none => some Err.noCapacityForType
    | some none => none
    | some (some cap) =>
      let paid := paidCountByBoatType w k.1 k.2.1 k.2.2
      let paid_excluding := paid - currentThisBooking bookingItems k.2.1 k.2.2
      if paid_excluding + proposedQtyByType bookingItems us k > cap then
        some Err.typeCapacityExceeded
      else none

/-- The merchandise-inventory adjustment of one quantity update
(`quantity_sold` increases require available inventory; decreases are clamped
at zero). -/
def qtyUpdateVarsStep (vars : List MerchVariation) (item : BookingItem)
    (new_qty : Int) : Except Err (List MerchVariation) :=
  match item.merchandise_variation_id with
  | none => pure vars
  | some vid =>
    match vars.find? (fun v => v.id == vid) with
    | none => pure vars
    | some v =>
      let delta := new_qty - item.quantity
      if delta > 0 then
        if v.quantity_total - v.quantity_sold < delta then
          throw Err.insufficientInventory
        else
          pure (vars.map fun x =>
            if x.id == vid then
              { x with quantity_sold := x.quantity_sold + delta }
            else x)
      else
        pure (vars.map fun x =>
          if x.id == vid then
            let sold := max 0 (x.quantity_sold - (item.quantity - new_qty))
            { x with quantity_sold := sold }
          else x)

/-- One iteration of the quantity-update application loop: look the item up,
skip unchanged quantities, adjust inventory, then delete (new quantity 0) or
rewrite the item. -/
def applyOneQtyUpdate (st : List BookingItem × List MerchVariation)
    (u : QtyUpd) : Except Err (List BookingItem × List MerchVariation) :=
  let (its, vars) := st
  match its.find? (fun i => i.id == u.id) with
  | none => pure (its, vars)
  | some item =>
    if u.quantity == item.quantity then pure (its, vars)
    else do
      let vars2 ← qtyUpdateVarsStep vars item u.quantity
      if u.quantity == 0 then
        pure (its.filter (fun i => i.id != u.id), vars2)
      else
        pure (its.map (fun i =>
          if i.id == u.id then { i with quantity := u.quantity } else i),
          vars2)

/-- Application loop of the quantity updates over the full item list and the
variation counters: a new quantity of 0 deletes the item; merchandise deltas
adjust `quantity_sold` (increases require available inventory, decreases are
clamped at zero). -/
def applyQtyUpdates (us : List QtyUpd)
    (st : List BookingItem × List MerchVariation) :
    Except Err (List BookingItem × List MerchVariation) :=
  us.foldlM applyOneQtyUpdate st

/-- The recomputed subtotal
(`sum(qty_by_id.get(item.id, item.quantity) * item.price_per_unit)` over the
pre-application snapshot of the booking's items). -/
def newSubtotalOf (bookingItems : List BookingItem) (us : List QtyUpd) : Int :=
  (bookingItems.map (fun i =>
    ((qtyById us i.id).getD i.quantity) * i.price_per_unit)).sum

/-- Outcome of the tax/total recomputation in the quantity-update branch:
`none` when neither field is touched (a jurisdiction tax rate did not
resolve), `some (tax, total)` otherwise. -/
def qtyUpdateTaxTotal (w : World) (b : Booking)
    (bookingItems : List BookingItem) (us : List QtyUpd) (new_subtotal : Int) :
    Option (Int × Int) :=
  match bookingItems.find? (fun i => (qtyById us i.id).getD i.quantity > 0) with
  | none => some (0, 0)
  | some i =>
    match w.getTrip i.trip_id with
    | none => some (0, 0)
    | some _ =>
      match taxRateForTrip w i.trip_id with
      | none => none
      | some rate =>
        some (computeBookingTotals new_subtotal b.discount_amount rate
          b.tip_amount)

/-- The booking-status transition table of `update_booking`. -/
def allowedTransition (oldS newS : BookingStatus) : Bool :=
  match oldS with
  | .draft => newS == .confirmed || newS == .cancelled
  | .confirmed => newS == .checked_in || newS == .cancelled
  | .checked_in => newS == .completed || newS == .cancelled
  | .completed => newS == .cancelled
  | .cancelled => false

/-- `update_booking` (PATCH by id).  Everything runs in one transaction whose
single commit happens after all steps, so an error leaves the world
unchanged. -/
def updateBooking (w : World) (booking_id : Nat) (p : UpdatePayload) :
    World × Option Err :=
  if p.isEmpty then (w, some Err.emptyUpdate)
  else match w.getBooking booking_id with
  | none => (w, some Err.bookingNotFound)
  | some b =>
    if b.booking_status == .checked_in then (w, some Err.checkedInLocked)
    else
      -- quantity-update sub-operation
      let qtyStep : Except Err (List BookingItem × List MerchVariation ×
          Option Int × Option (Int × Int)) :=
        match p.item_quantity_updates with
        | none => .ok (w.items, w.variations, none, none)
        | some us =>
          if !us.all (fun u => 0 ≤ u.quantity) then .error Err.validationError
          else
            let bookingItems := w.itemsOfBooking b.id
            if us.any (fun u =>
                match w.getItem u.id with
                | none => true
                | some i => i.booking_id != b.id) then
              .error Err.itemNotInBooking
            else match checkQtyUpdateCapacity w bookingItems us with
            | some e => .error e
            | none =>
              match applyQtyUpdates us (w.items, w.variations) with
              | .error e => .error e
              | .ok (its, vars) =>
                let new_subtotal := newSubtotalOf bookingItems us
                .ok (its, vars, some new_subtotal,
                  match qtyUpdateTaxTotal w b bookingItems us new_subtotal with
                  | none => none
                  | some tt => some tt)
      match qtyStep with
      | .error e => (w, some e)
      | .ok (its, vars, subtotal?, taxTotal?) =>
        -- status transition validation and payment-status default fill
        let transStep : Except Err (Option PaymentStatus) :=
          match p.booking_status with
          | none => .ok p.payment_status
          | some ns =>
            if ns == b.booking_status then .ok p.payment_status
            else if !allowedTransition b.booking_status ns then
              .error Err.invalidTransition
            else if ns == .cancelled && p.payment_status == none then
              .ok (some .failed)
            else .ok p.payment_status
        match transStep with
        | .error e => (w, some e)
        | .ok payment_payload =>
          if (match p.tip_amount with | some t => decide (t < 0) | none => false) then
            (w, some Err.negativeTip)
          else
            -- item status sync when the payload sets cancelled
            let its2 :=
              if p.booking_status == some BookingStatus.cancelled then
                let resultingP := match payment_payload with
                  | some v => some v
                  | none => b.payment_status
                let newStatus : ItemStatus :=
                  if resultingP == some PaymentStatus.refunded
                      || resultingP == some PaymentStatus.partially_refunded then
                    .refunded
                  else .active
                its.map (fun i =>
                  if i.booking_id == b.id then { i with status := newStatus }
                  else i)
              else its
            let b2 : Booking :=
              { b with
                subtotal := subtotal?.getD b.subtotal,
                tax_amount := (taxTotal?.map Prod.fst).getD b.tax_amount,
                total_amount := (taxTotal?.map Prod.snd).getD b.total_amount,
                booking_status := p.booking_status.getD b.booking_status,
                payment_status := match payment_payload with
                  | some v => some v
                  | none => b.payment_status,
                tip_amount := p.tip_amount.getD b.tip_amount }
            ({ w with
                bookings := w.bookings.map (fun x => if x.id == b.id then b2 else x),
                items := its2, variations := vars }, none)

/-! ## Refunds (`process_refund`) -/

/-- Release of one refunded item's merchandise inventory
(`quantity_sold` always, `quantity_fulfilled` when the item had been
fulfilled; both clamped at zero). -/
def releaseItemInventory (vars : List MerchVariation) (i : BookingItem) :
    List MerchVariation :=
  match i.merchandise_variation_id with
  | none => vars
  | some vid =>
    vars.map fun v =>
      if v.id == vid then
        let sold := max 0 (v.quantity_sold - i.quantity)
        let fulfilled :=
          if i.status == ItemStatus.fulfilled then
            max 0 (v.quantity_fulfilled - i.quantity)
          else v.quantity_fulfilled
        { v with quantity_sold := sold, quantity_fulfilled := fulfilled }
      else v

/-- `process_refund` (POST by confirmation code).  `amount?` is the optional
`refund_amount_cents` (defaulting to the remaining refundable amount);
`gateway_ok` abstracts the Stripe call, which only runs when the booking has a
payment intent and whose failure aborts the refund before any mutation. -/
def processRefund (w : World) (code : String) (amount? : Option Int)
    (gateway_ok : Bool) : World × Option Err :=
  match w.bookingByCode code with
  | none => (w, some Err.bookingNotFound)
  | some b =>
    if !(b.booking_status == .confirmed || b.booking_status == .checked_in
        || b.booking_status == .completed) then
      (w, some Err.refundBadStatus)
    else
      let refunded_so_far := b.refunded_amount_cents
      let remaining := b.total_amount - refunded_so_far
      if remaining ≤ 0 then (w, some Err.noRemainingRefund)
      else
        let amount := amount?.getD remaining
        if amount > remaining then (w, some Err.refundTooLarge)
        else if amount ≤ 0 then (w, some Err.refundNotPositive)
        else if b.has_payment_intent && !gateway_ok then
          (w, some Err.gatewayFailure)
        else
          let new_refunded := refunded_so_far + amount
          let bookingItems := w.itemsOfBooking b.id
          if new_refunded ≥ b.total_amount then
            let b2 := { b with refunded_amount_cents := new_refunded,
                               booking_status := .cancelled,
                               payment_status := some .refunded }
            let vars2 := bookingItems.foldl releaseItemInventory w.variations
            let its2 := w.items.map fun i =>
              if i.booking_id == b.id then { i with status := .refunded } else i
            ({ w with
                bookings := w.bookings.map (fun x => if x.id == b.id then b2 else x),
                items := its2, variations := vars2 }, none)
          else
            let b2 := { b with refunded_amount_cents := new_refunded,
                               payment_status := some .partially_refunded }
            ({ w with
                bookings := w.bookings.map
                  (fun x => if x.id == b.id then b2 else x) }, none)

/-! ## Check-in (`check_in_booking`) -/

/-- `check_in_booking` (POST by confirmation code, optional trip/boat
context).  Requires status confirmed or checked_in; sets the booking to
checked_in, every item to fulfilled, and increments `quantity_fulfilled` on
every referenced variation. -/
def checkInBooking (w : World) (code : String) (ctx : Option (Nat × Nat)) :
    World × Option Err :=
  match w.bookingByCode code with
  | none => (w, some Err.bookingNotFound)
  | some b =>
    if !(b.booking_status == .confirmed || b.booking_status == .checked_in) then
      (w, some Err.checkInBadStatus)
    else
      let ctxOk := match ctx with
        | none => true
        | some (t, bt) =>
          w.items.any (fun i =>
            i.booking_id == b.id && i.trip_id == t && i.boat_id == bt)
      if !ctxOk then (w, some Err.checkInNoMatchingItem)
      else
        let b2 := { b with booking_status := BookingStatus.checked_in }
        let bookingItems := w.itemsOfBooking b.id
        let vars2 := bookingItems.foldl (fun vs i =>
          match i.merchandise_variation_id with
          | none => vs
          | some vid => vs.map fun v =>
              if v.id == vid then
                { v with quantity_fulfilled := v.quantity_fulfilled + i.quantity }
              else v) w.variations
        let its2 := w.items.map fun i =>
          if i.booking_id == b.id then { i with status := .fulfilled } else i
        ({ w with
            bookings := w.bookings.map (fun x => if x.id == b.id then b2 else x),
            items := its2, variations := vars2 }, none)

/-! ## Reschedule (`reschedule_booking`) -/

/-- Strict display order among ticket items
(`get_booking_items_in_display_order`: tickets sort by item type, then id). -/
def ltTicket (a b : BookingItem) : Bool :=
  a.item_type < b.item_type || (a.item_type == b.item_type && a.id < b.id)

/-- The first ticket item in display order (`ticket_items[0]`): the first
minimal element under `ltTicket`. -/
def firstDisplayTicket (l : List BookingItem) : Option BookingItem :=
  l.foldl (fun acc i =>
    match acc with
    | none => some i
    | some j => if ltTicket i j then some i else acc) none

/-- The booking's ticket quantity of one type summed across all its ticket
items (`this_booking_by_type` of `reschedule_booking`). -/
def bookingQtyByType (ticketItems : List BookingItem) (ty : String) : Int :=
  (ticketItems.map (fun i => if i.item_type == ty then i.quantity else 0)).sum

/-- Destination per-type capacity loop of `reschedule_booking`. -/
def checkRescheduleTypeCapacity (w : World) (ticketItems : List BookingItem)
    (target_trip target_boat : Nat) : Option Err :=
  let keys := dedupKeys (ticketItems.map (fun i => i.item_type))
  firstErr keys fun ty =>
    match effCapEntry w target_trip target_boat ty with
    | none => some Err.noCapacityForType
    | some none => none
    | some (some cap) =>
      let existing := paidCountByBoatType w target_trip target_boat ty
      if existing + bookingQtyByType ticketItems ty > cap then
        some Err.typeCapacityExceeded
      else none

/-- Target-boat choice of `reschedule_booking`: automatic when the target
trip has exactly one boat, else the explicit `boat_id` must be one of the
target trip's boats. -/
def chooseTargetBoat (tbs : List TripBoat) (boat? : Option Nat) :
    Except Err Nat :=
  match tbs with
  | [] => .error Err.noBoats
  | [tb] => .ok tb.boat_id
  | _ =>
    match boat? with
    | none => .error Err.boatRequired
    | some bid =>
      if tbs.any (fun tb => tb.boat_id == bid) then .ok bid
      else .error Err.boatNotOnTargetTrip

/-- A chosen target boat always has an association row on the target trip. -/
theorem chooseTargetBoat_find (tbs : List TripBoat) (boat? : Option Nat)
    (bid : Nat) (h : chooseTargetBoat tbs boat? = .ok bid) :
    ∃ tbF, tbs.find? (fun tb => tb.boat_id == bid) = some tbF := by
  unfold chooseTargetBoat at h
  cases tbs with
  | nil => simp at h
  | cons tb0 rest =>
    cases rest with
    | nil =>
      simp only [Except.ok.injEq] at h
      refine ⟨tb0, ?_⟩
      rw [List.find?_cons_of_pos]
      simp [h]
    | cons tb1 rest2 =>
      cases boat? with
      | none => simp at h
      | some bid2 =>
        simp only at h
        by_cases hany : ((tb0 :: tb1 :: rest2).any
            (fun tb => tb.boat_id == bid2)) = true
        · rw [if_pos hany] at h
          simp only [Except.ok.injEq] at h
          rcases List.any_eq_true.mp hany with ⟨tb2, htb2, hpb⟩
          cases hres : (tb0 :: tb1 :: rest2).find?
              (fun tb => tb.boat_id == bid) with
          | some tbF => exact ⟨tbF, rfl⟩
          | none =>
            rw [List.find?_eq_none] at hres
            rw [h] at hpb
            exact absurd hpb (hres tb2 htb2)
        · rw [if_neg hany] at h
          simp at h

/-- `reschedule_booking` (POST by id): move every ticket item to the target
trip (boat chosen automatically when the target trip has exactly one boat),
re-validating destination capacity; merchandise items and all money fields are
untouched. -/
def rescheduleBooking (w : World) (booking_id : Nat) (target_trip : Nat)
    (boat? : Option Nat) : World × Option Err :=
  match w.getBooking booking_id with
  | none => (w, some Err.bookingNotFound)
  | some b =>
    if b.booking_status == .checked_in then (w, some Err.checkedInLocked)
    else
      let bookingItems := w.itemsOfBooking b.id
      let ticketItems := bookingItems.filter (fun i => i.trip_merchandise_id == none)
      match firstDisplayTicket ticketItems with
      | none => (w, some Err.noTicketItems)
      | some first =>
        match w.getTrip target_trip with
        | none => (w, some Err.tripNotFound)
        | some tt =>
          if !tt.active then (w, some Err.tripInactive)
          else match w.getTrip first.trip_id with
          | none => (w, some Err.itemTripNotFound)
          | some firstTrip =>
            if tt.mission_id != firstTrip.mission_id then
              (w, some Err.differentMission)
            else
              let tbs := w.tripBoatsByTrip target_trip
              match chooseTargetBoat tbs boat? with
              | .error e => (w, some e)
              | .ok target_boat =>
                match checkRescheduleTypeCapacity w ticketItems target_trip
                    target_boat with
                | some e => (w, some e)
                | none =>
                  let paid_total := paidCountByBoat w target_trip target_boat
                  let this_total :=
                    (ticketItems.map (fun i => i.quantity)).sum
                  let totalStep : Option Err :=
                    match tbs.find? (fun tb => tb.boat_id == target_boat) with
                    | none => none
                    | some tb =>
                      if paid_total + this_total > effectiveMaxCapacity w tb then
                        some Err.totalCapacityExceeded
                      else none
                  match totalStep with
                  | some e => (w, some e)
                  | none =>
                    let its2 := w.items.map fun i =>
                      if i.booking_id == b.id && i.trip_merchandise_id == none then
                        { i with trip_id := target_trip, boat_id := target_boat }
                      else i
                    ({ w with items := its2 }, none)

/-! ## Administrative capacity mutations
(`create_trip_boat`, `update_trip_boat`, `update_boat`) -/

/-- `create_trip_boat`: a custom capacity must not be below the paid ticket
count already booked for the (trip, boat). -/
def createTripBoat (w : World) (trip_id boat_id : Nat)
    (max_capacity : Option Int) (use_only_trip_pricing : Bool) :
    World × Option Err :=
  match w.getTrip trip_id with
  | none => (w, some Err.tripNotFound)
  | some _ =>
    match w.getBoat boat_id with
    | none => (w, some Err.boatNotFound)
    | some _ =>
      let capStep : Option Err :=
        match max_capacity with
        | none => none
        | some c =>
          if c < paidCountByBoat w trip_id boat_id then
            some Err.capacityBelowBooked
          else none
      match capStep with
      | some e => (w, some e)
      | none =>
        let tbid := maxNat (w.tripBoats.map (fun tb => tb.id)) + 1
        ({ w with tripBoats := w.tripBoats ++
            [{ id := tbid, trip_id := trip_id, boat_id := boat_id,
               max_capacity := max_capacity,
               use_only_trip_pricing := use_only_trip_pricing }] }, none)

/-- `models.TripBoatUpdate` (`exclude_unset` semantics). -/
structure TripBoatUpdatePayload where
  trip_id : Option Nat := none
  boat_id : Option Nat := none
  max_capacity : Option Int := none
  use_only_trip_pricing : Option Bool := none
deriving DecidableEq, Repr

/-- `update_trip_boat`: when the payload sets a custom capacity, it must not
be below the paid ticket count for the (possibly redirected) trip and boat. -/
def updateTripBoat (w : World) (trip_boat_id : Nat)
    (p : TripBoatUpdatePayload) : World × Option Err :=
  match w.getTripBoat trip_boat_id with
  | none => (w, some Err.bookingNotFound)
  | some tb =>
    let tripStep : Option Err :=
      match p.trip_id with
      | none => none
      | some t => if w.getTrip t == none then some Err.tripNotFound else none
    match tripStep with
    | some e => (w, some e)
    | none =>
      let boatStep : Option Err :=
        match p.boat_id with
        | none => none
        | some bid =>
          if w.getBoat bid == none then some Err.boatNotFound else none
      match boatStep with
      | some e => (w, some e)
      | none =>
        let capStep : Option Err :=
          match p.max_capacity with
          | none => none
          | some c =>
            let t := p.trip_id.getD tb.trip_id
            let bid := p.boat_id.getD tb.boat_id
            if c < paidCountByBoat w t bid then some Err.capacityBelowBooked
            else none
        match capStep with
        | some e => (w, some e)
        | none =>
          let tb2 : TripBoat :=
            { tb with
              trip_id := p.trip_id.getD tb.trip_id,
              boat_id := p.boat_id.getD tb.boat_id,
              max_capacity := match p.max_capacity with
                | some c => some c
                | none => tb.max_capacity,
              use_only_trip_pricing :=
                p.use_only_trip_pricing.getD tb.use_only_trip_pricing }
          let tbs2 := w.tripBoats.map (fun x => if x.id == tb.id then tb2 else x)
          ({ w with tripBoats := tbs2 }, none)

/-- `update_boat` restricted to the capacity field (`BoatUpdate.capacity`,
Pydantic `ge 1`): rejected when any trip-boat of the boat inherits the default
capacity and has more paid passengers than the new value. -/
def updateBoatCapacity (w : World) (boat_id : Nat) (capacity? : Option Int) :
    World × Option Err :=
  match w.getBoat boat_id with
  | none => (w, some Err.boatNotFound)
  | some boat =>
    match capacity? with
    | none => (w, none)
    | some c =>
      if c < 1 then (w, some Err.validationError)
      else
        let tbs := w.tripBoatsByBoat boat_id
        let floorStep : Option Err :=
          firstErr tbs fun tb =>
            match tb.max_capacity with
            | some _ => none
            | none =>
              if paidCountByBoat w tb.trip_id boat_id > c then
                some Err.capacityBelowBooked
              else none
        match floorStep with
        | some e => (w, some e)
        | none =>
          let b2 := { boat with capacity := c }
          let boats2 := w.boats.map (fun x => if x.id == boat.id then b2 else x)
          ({ w with boats := boats2 }, none)

/-! ## Proof toolkit: sums over lists and id-directed lookups -/

theorem sum_map_le_sum_map {α : Type} (l : List α) (f g : α → Int)
    (h : ∀ a ∈ l, f a ≤ g a) : (l.map f).sum ≤ (l.map g).sum := by
  induction l with
  | nil => simp
  | cons a t ih =>
    simp only [List.map_cons, List.sum_cons]
    have h1 := h a (List.mem_cons_self a t)
    have h2 := ih (fun x hx => h x (List.mem_cons_of_mem a hx))
    omega

theorem sum_map_add {α : Type} (l : List α) (f g : α → Int) :
    (l.map (fun a => f a + g a)).sum = (l.map f).sum + (l.map g).sum := by
  induction l with
  | nil => simp
  | cons a t ih =>
    simp only [List.map_cons, List.sum_cons, ih]
    ring

theorem sum_map_eq_sum_map {α : Type} (l : List α) (f g : α → Int)
    (h : ∀ a ∈ l, f a = g a) : (l.map f).sum = (l.map g).sum := by
  induction l with
  | nil => simp
  | cons a t ih =>
    simp only [List.map_cons, List.sum_cons]
    rw [h a (List.mem_cons_self a t), ih (fun x hx => h x (List.mem_cons_of_mem a hx))]

theorem sum_map_filter {α : Type} (l : List α) (p : α → Bool) (f : α → Int) :
    ((l.filter p).map f).sum = (l.map (fun a => if p a then f a else 0)).sum := by
  induction l with
  | nil => simp
  | cons a t ih =>
    by_cases hp : p a
    · simp [List.filter_cons, hp, ih]
    · simp [List.filter_cons, hp, ih]

theorem sum_map_nonneg {α : Type} (l : List α) (f : α → Int)
    (h : ∀ a ∈ l, 0 ≤ f a) : 0 ≤ (l.map f).sum := by
  induction l with
  | nil => simp
  | cons a t ih =>
    simp only [List.map_cons, List.sum_cons]
    have h1 := h a (List.mem_cons_self a t)
    have h2 := ih (fun x hx => h x (List.mem_cons_of_mem a hx))
    omega

/-- `find?` over a map by an id-preserving function commutes with the map when
the predicate only reads preserved fields. -/
theorem find?_map_pres {α : Type} (l : List α) (f : α → α) (p : α → Bool)
    (h : ∀ a, p (f a) = p a) : (l.map f).find? p = (l.find? p).map f := by
  rw [List.find?_map]
  have : (p ∘ f) = p := funext h
  rw [this]

theorem find?_append_first {α : Type} (l1 l2 : List α) (p : α → Bool) (a : α)
    (h : l1.find? p = some a) : (l1 ++ l2).find? p = some a := by
  rw [List.find?_append, h]
  rfl

theorem find?_append_none {α : Type} (l1 l2 : List α) (p : α → Bool)
    (h : l1.find? p = none) : (l1 ++ l2).find? p = l2.find? p := by
  rw [List.find?_append, h]
  rfl

/-- In a list with `Nodup` ids, a member found by its id is the member
itself. -/
theorem mem_nodup_id_unique {α : Type} (l : List α) (idOf : α → Nat)
    (hnd : (l.map idOf).Nodup) (a b : α) (ha : a ∈ l) (hb : b ∈ l)
    (hid : idOf a = idOf b) : a = b := by
  induction l with
  | nil => simp at ha
  | cons x t ih =>
    simp only [List.map_cons, List.nodup_cons] at hnd
    rcases List.mem_cons.mp ha with rfl | ha2
    · rcases List.mem_cons.mp hb with rfl | hb2
      · rfl
      · exact absurd (hid ▸ List.mem_map_of_mem idOf hb2) hnd.1
    · rcases List.mem_cons.mp hb with rfl | hb2
      · exact absurd (hid ▸ List.mem_map_of_mem idOf ha2) hnd.1
      · exact ih hnd.2 ha2 hb2

theorem foldl_orElse_some {α : Type} (t : List α) (f : α → Option Err) (e : Err) :
    t.foldl (fun acc a => acc <|> f a) (some e) = some e := by
  induction t with
  | nil => rfl
  | cons a tt ih => simpa using ih

theorem firstErr_cons {α : Type} (a : α) (t : List α) (f : α → Option Err) :
    firstErr (a :: t) f = match f a with
      | some e => some e
      | none => firstErr t f := by
  unfold firstErr
  cases hfa : f a with
  | some e =>
    simp only [List.foldl_cons]
    simpa [hfa] using foldl_orElse_some t f e
  | none => simp [List.foldl_cons, hfa]

theorem firstErr_eq_none_iff {α : Type} (l : List α) (f : α → Option Err) :
    firstErr l f = none ↔ ∀ a ∈ l, f a = none := by
  induction l with
  | nil => simp [firstErr]
  | cons a t ih =>
    rw [firstErr_cons]
    cases hfa : f a with
    | some e => simp [hfa]
    | none => simp [hfa, ih]

theorem firstErr_some_exists {α : Type} (l : List α) (f : α → Option Err) (e : Err)
    (h : firstErr l f = some e) : ∃ a ∈ l, f a = some e := by
  induction l with
  | nil => simp [firstErr] at h
  | cons a t ih =>
    rw [firstErr_cons] at h
    cases hfa : f a with
    | some x =>
      rw [hfa] at h
      exact ⟨a, List.mem_cons_self a t, by simpa [hfa] using h⟩
    | none =>
      rw [hfa] at h
      obtain ⟨x, hx, hfx⟩ := ih h
      exact ⟨x, List.mem_cons_of_mem a hx, hfx⟩

/-! ## The capacity invariant and well-formedness -/

/-- Per-(trip, boat) half of the capacity conservation invariant: on every
associated boat, the paid ticket total fits in the effective max capacity. -/
def perBoatInv (w : World) : Prop :=
  ∀ tb ∈ w.tripBoats,
    paidCountByBoat w tb.trip_id tb.boat_id ≤ effectiveMaxCapacity w tb

/-- Per-ticket-type half of the capacity conservation invariant: for every
ticket type whose effective capacity is present and restricted (non-zero), the
paid count of that type fits. -/
def perTypeInv (w : World) : Prop :=
  ∀ tb ∈ w.tripBoats, ∀ ty : String, ∀ c : Int,
    effCapEntry w tb.trip_id tb.boat_id ty = some (some c) →
    paidCountByBoatType w tb.trip_id tb.boat_id ty ≤ c

/-- The full capacity conservation invariant of the claim. -/
def capacityInv (w : World) : Prop :=
  perBoatInv w ∧ perTypeInv w

/-- Database well-formedness used by the preservation proofs: item quantities
are non-negative (the models validate `ge 1` at creation), booking ids are
unique (primary keys), a booking whose payment is fully refunded is cancelled
(the refund path is the only writer of `refunded`), and at most one trip-boat
association exists per (trip, boat) pair. -/
def WFState (w : World) : Prop :=
  (∀ i ∈ w.items, 0 ≤ i.quantity) ∧
  (w.bookings.map (fun b => b.id)).Nodup ∧
  (∀ b ∈ w.bookings, b.payment_status = some PaymentStatus.refunded →
    b.booking_status = BookingStatus.cancelled) ∧
  w.tripBoats.Pairwise
    (fun a b => ¬(a.trip_id = b.trip_id ∧ a.boat_id = b.boat_id))

/-- The operations of the claim other than the quantity-update sub-operation:
booking creation, administrative cancellation (a status update to cancelled),
refund, and reschedule. -/
inductive SafeOp
  | create (inp : BookingInput) (is_superuser inventory_commit_ok : Bool)
  | cancel (booking_id : Nat)
  | refund (code : String) (amount? : Option Int) (gateway_ok : Bool)
  | reschedule (booking_id : Nat) (target_trip : Nat) (boat? : Option Nat)

/-- The administrative-cancellation payload. -/
def cancelPayload : UpdatePayload :=
  { booking_status := some BookingStatus.cancelled }

/-- Run one operation, keeping the persisted state whether or not the
operation was rejected. -/
def applySafeOp (w : World) : SafeOp → World
  | .create inp su ok => (createBooking w inp su ok).1
  | .cancel bid => (updateBooking w bid cancelPayload).1
  | .refund code amt gw => (processRefund w code amt gw).1
  | .reschedule bid target boat? => (rescheduleBooking w bid target boat?).1

/-- Run a sequence of operations. -/
def applySafeOps (w : World) (ops : List SafeOp) : World :=
  ops.foldl applySafeOp w

/-! ## Ledger lemmas -/

/-- A generic paid-ledger bucket: the sum of paid contributions of the items
satisfying `P`. -/
def bucketSum (bs : List Booking) (its : List BookingItem)
    (P : BookingItem → Bool) : Int :=
  (its.map (fun i => if P i then paidContrib bs i else 0)).sum

theorem paidCountByBoat_eq_bucketSum (w : World) (t b : Nat) :
    paidCountByBoat w t b =
      bucketSum w.bookings w.items (fun i => i.trip_id == t && i.boat_id == b) :=
  rfl

theorem paidCountByBoatType_eq_bucketSum (w : World) (t b : Nat) (ty : String) :
    paidCountByBoatType w t b ty =
      bucketSum w.bookings w.items
        (fun i => i.trip_id == t && i.boat_id == b && i.item_type == ty) :=
  rfl

theorem paidContrib_nonneg (bs : List Booking) (i : BookingItem)
    (hq : 0 ≤ i.quantity) : 0 ≤ paidContrib bs i := by
  unfold paidContrib
  split <;> simp [hq]

theorem paidContrib_le_quantity (bs : List Booking) (i : BookingItem)
    (hq : 0 ≤ i.quantity) : paidContrib bs i ≤ i.quantity := by
  unfold paidContrib
  split <;> simp [hq]

/-- `paidContrib` only reads `trip_merchandise_id`, `booking_id` and
`quantity`. -/
theorem paidContrib_congr (bs : List Booking) (i j : BookingItem)
    (htm : j.trip_merchandise_id = i.trip_merchandise_id)
    (hb : j.booking_id = i.booking_id) (hq : j.quantity = i.quantity) :
    paidContrib bs j = paidContrib bs i := by
  unfold paidContrib
  rw [htm, hb, hq]

/-- The replace-one-booking map preserves the id-lookup predicate. -/
theorem replace_pred_pres (bid : Nat) (b2 : Booking) (hb2 : b2.id = bid)
    (y : Nat) (a : Booking) :
    ((if a.id == bid then b2 else a).id == y) = (a.id == y) := by
  by_cases h : a.id == bid
  · have : a.id = bid := by simpa using h
    simp [h, hb2, this]
  · simp [h]

theorem paidContrib_replace_le (bs : List Booking) (bid : Nat) (b2 : Booking)
    (hb2 : b2.id = bid) (hnp : isPaidBooking b2 = false) (i : BookingItem)
    (hq : 0 ≤ i.quantity) :
    paidContrib (bs.map (fun x => if x.id == bid then b2 else x)) i ≤
      paidContrib bs i := by
  unfold paidContrib
  rw [find?_map_pres bs _ _ (replace_pred_pres bid b2 hb2 i.booking_id)]
  cases hfind : bs.find? (fun x => x.id == i.booking_id) with
  | none => simp
  | some bk =>
    simp only [Option.map_some', Option.getD_some]
    by_cases hid : (bk.id == bid) = true
    · simp only [hid, if_true, hnp]
      simp only [Bool.and_false, Bool.false_eq_true, if_false]
      split <;> simp [hq]
    · simp only [hid, if_false]
      exact le_refl _

theorem paidContrib_replace_eq (bs : List Booking) (bid : Nat) (b2 : Booking)
    (hb2 : b2.id = bid)
    (hpp : ∀ bk ∈ bs, bk.id = bid → isPaidBooking b2 = isPaidBooking bk)
    (i : BookingItem) :
    paidContrib (bs.map (fun x => if x.id == bid then b2 else x)) i =
      paidContrib bs i := by
  unfold paidContrib
  rw [find?_map_pres bs _ _ (replace_pred_pres bid b2 hb2 i.booking_id)]
  cases hfind : bs.find? (fun x => x.id == i.booking_id) with
  | none => simp
  | some bk =>
    simp only [Option.map_some', Option.getD_some]
    by_cases hid : (bk.id == bid) = true
    · have hmem : bk ∈ bs := List.mem_of_find?_eq_some hfind
      have heq : isPaidBooking b2 = isPaidBooking bk :=
        hpp bk hmem (by simpa using hid)
      simp only [hid, if_true, heq]
    · simp [hid]

theorem paidContrib_append_unpaid (bs : List Booking) (nb : Booking)
    (hnp : isPaidBooking nb = false) (i : BookingItem) :
    paidContrib (bs ++ [nb]) i = paidContrib bs i := by
  unfold paidContrib
  cases hfind : bs.find? (fun x => x.id == i.booking_id) with
  | none =>
    rw [find?_append_none bs [nb] _ hfind]
    cases hnb : (nb.id == i.booking_id) with
    | true => simp [List.find?_cons, hnb, hnp]
    | false => simp [List.find?_cons, hnb]
  | some bk =>
    rw [find?_append_first bs [nb] _ bk hfind]

theorem paidContrib_fresh_item (bs : List Booking) (nb : Booking)
    (hnp : isPaidBooking nb = false) (i : BookingItem)
    (hbid : i.booking_id = nb.id) (hfresh : ∀ bk ∈ bs, bk.id ≠ nb.id) :
    paidContrib (bs ++ [nb]) i = 0 := by
  unfold paidContrib
  have hnone : bs.find? (fun x => x.id == i.booking_id) = none := by
    rw [List.find?_eq_none]
    intro bk hbk
    simp [hbid, hfresh bk hbk]
  rw [find?_append_none bs [nb] _ hnone]
  simp [List.find?_cons, hbid, hnp]

/-- Replacing one booking by an unpaid one and mapping the items by a
function that preserves the ledger-relevant fields can only shrink any
bucket. -/
theorem bucketSum_replace_le (bs : List Booking) (bid : Nat) (b2 : Booking)
    (hb2 : b2.id = bid) (hnp : isPaidBooking b2 = false)
    (its : List BookingItem) (g : BookingItem → BookingItem)
    (hg : ∀ i, (g i).trip_merchandise_id = i.trip_merchandise_id ∧
      (g i).booking_id = i.booking_id ∧ (g i).quantity = i.quantity)
    (P : BookingItem → Bool) (hP : ∀ i, P (g i) = P i)
    (hq : ∀ i ∈ its, 0 ≤ i.quantity) :
    bucketSum (bs.map (fun x => if x.id == bid then b2 else x)) (its.map g) P ≤
      bucketSum bs its P := by
  unfold bucketSum
  rw [List.map_map]
  apply sum_map_le_sum_map
  intro i hi
  simp only [Function.comp_apply, hP i]
  by_cases hPi : P i = true
  · simp only [hPi, if_true]
    have h1 : paidContrib (bs.map (fun x => if x.id == bid then b2 else x)) (g i) =
        paidContrib (bs.map (fun x => if x.id == bid then b2 else x)) i :=
      paidContrib_congr _ _ _ (hg i).1 (hg i).2.1 (hg i).2.2
    rw [h1]
    exact paidContrib_replace_le bs bid b2 hb2 hnp i (hq i hi)
  · simp [hPi]

/-- Replacing one booking by one with the same paid-flag leaves every bucket
unchanged (the items are untouched). -/
theorem bucketSum_replace_eq (bs : List Booking) (bid : Nat) (b2 : Booking)
    (hb2 : b2.id = bid)
    (hpp : ∀ bk ∈ bs, bk.id = bid → isPaidBooking b2 = isPaidBooking bk)
    (its : List BookingItem) (P : BookingItem → Bool) :
    bucketSum (bs.map (fun x => if x.id == bid then b2 else x)) its P =
      bucketSum bs its P := by
  unfold bucketSum
  apply sum_map_eq_sum_map
  intro i _
  rw [paidContrib_replace_eq bs bid b2 hb2 hpp i]

/-- Appending an unpaid booking together with its items leaves every bucket
unchanged. -/
theorem bucketSum_append_unpaid (bs : List Booking) (nb : Booking)
    (hnp : isPaidBooking nb = false) (hfresh : ∀ bk ∈ bs, bk.id ≠ nb.id)
    (its newIts : List BookingItem)
    (hni : ∀ ni ∈ newIts, ni.booking_id = nb.id) (P : BookingItem → Bool) :
    bucketSum (bs ++ [nb]) (its ++ newIts) P = bucketSum bs its P := by
  unfold bucketSum
  rw [List.map_append, List.sum_append]
  have hOld : ((its.map (fun i => if P i then paidContrib (bs ++ [nb]) i else 0))).sum =
      ((its.map (fun i => if P i then paidContrib bs i else 0))).sum := by
    apply sum_map_eq_sum_map
    intro i _
    rw [paidContrib_append_unpaid bs nb hnp i]
  have hNew : ((newIts.map (fun i => if P i then paidContrib (bs ++ [nb]) i else 0))).sum
      = 0 := by
    have : ∀ i ∈ newIts, (if P i then paidContrib (bs ++ [nb]) i else 0) =
        (fun _ : BookingItem => (0 : Int)) i := by
      intro i hi
      have hz : paidContrib (bs ++ [nb]) i = 0 :=
        paidContrib_fresh_item bs nb hnp i (hni i hi) hfresh
      simp [hz]
    rw [sum_map_eq_sum_map _ _ _ this]
    simp
  rw [hOld, hNew, add_zero]

/-! ## Shape lemmas: what each operation does to the persisted state -/

/-- `update_booking` invoked with only `booking_status = cancelled` either
rejects (leaving the state unchanged) or replaces the booking with a cancelled
one and re-statuses its items. -/
theorem updateBooking_cancel_shape (w : World) (bid : Nat) :
    ((updateBooking w bid cancelPayload).1 = w) ∨
    (∃ b ps st, w.getBooking bid = some b ∧
      (updateBooking w bid cancelPayload).1 =
        { w with
          bookings := w.bookings.map (fun x =>
            if x.id == b.id then
              { b with booking_status := BookingStatus.cancelled,
                       payment_status := ps }
            else x),
          items := w.items.map (fun i =>
            if i.booking_id == b.id then { i with status := st } else i) }) := by
  cases hb : w.getBooking bid with
  | none =>
    left
    simp [updateBooking, cancelPayload, UpdatePayload.isEmpty, hb]
  | some b =>
    cases hbs : b.booking_status with
    | checked_in =>
      left
      simp [updateBooking, cancelPayload, UpdatePayload.isEmpty, hb, hbs]
    | cancelled =>
      right
      refine ⟨b, b.payment_status,
        (if b.payment_status == some PaymentStatus.refunded
            || b.payment_status == some PaymentStatus.partially_refunded then
          ItemStatus.refunded else ItemStatus.active), rfl, ?_⟩
      simp [updateBooking, cancelPayload, UpdatePayload.isEmpty, hb, hbs]
    | draft =>
      right
      refine ⟨b, some PaymentStatus.failed,
        ItemStatus.active, rfl, ?_⟩
      simp [updateBooking, cancelPayload, UpdatePayload.isEmpty, hb, hbs,
        allowedTransition]
    | confirmed =>
      right
      refine ⟨b, some PaymentStatus.failed,
        ItemStatus.active, rfl, ?_⟩
      simp [updateBooking, cancelPayload, UpdatePayload.isEmpty, hb, hbs,
        allowedTransition]
    | completed =>
      right
      refine ⟨b, some PaymentStatus.failed,
        ItemStatus.active, rfl, ?_⟩
      simp [updateBooking, cancelPayload, UpdatePayload.isEmpty, hb, hbs,
        allowedTransition]

theorem le_maxNat (l : List Nat) : ∀ n ∈ l, n ≤ maxNat l := by
  induction l with
  | nil => simp
  | cons a t ih =>
    intro n hn
    unfold maxNat
    rcases List.mem_cons.mp hn with rfl | hn2
    · simp [List.foldr_cons]
    · simp only [List.foldr_cons]
      have := ih n hn2
      unfold maxNat at this
      omega

theorem buildItems_mem (w : World) (bid base : Nat) (l : List ItemInput) :
    ∀ ni ∈ buildItems w bid base l,
      ni.booking_id = bid ∧ ∃ it ∈ l, ni.quantity = it.quantity := by
  induction l generalizing base with
  | nil => simp [buildItems]
  | cons it rest ih =>
    intro ni hni
    rcases List.mem_cons.mp hni with rfl | hni2
    · exact ⟨rfl, it, List.mem_cons_self it rest, rfl⟩
    · obtain ⟨h1, it2, hit2, h2⟩ := ih (base + 1) ni hni2
      exact ⟨h1, it2, List.mem_cons_of_mem it hit2, h2⟩

/-- `_create_booking_impl` either rejects before any commit (state unchanged)
or appends one fresh draft (hence unpaid) booking together with its items,
touching at most the variation counters besides. -/
theorem createBooking_shape (w : World) (inp : BookingInput)
    (su ok : Bool) :
    ((createBooking w inp su ok).1 = w) ∨
    (∃ nb newIts vs,
      isPaidBooking nb = false ∧
      nb.payment_status = none ∧
      (∀ bk ∈ w.bookings, bk.id ≠ nb.id) ∧
      (∀ ni ∈ newIts, ni.booking_id = nb.id ∧ 0 ≤ ni.quantity) ∧
      (createBooking w inp su ok).1 =
        { w with bookings := w.bookings ++ [nb],
                 items := w.items ++ newIts,
                 variations := vs }) := by
  unfold createBooking
  by_cases hv : bookingInputValid inp = true
  case neg => left; simp [hv]
  simp only [hv, Bool.not_true, Bool.false_eq_true, if_false]
  cases hm : checkTripsAndMission w inp.items with
  | error e => left; simp [hm]
  | ok mid =>
    simp only [hm]
    cases hmm : w.getMission mid with
    | none => left; simp [hmm]
    | some mission =>
      simp only [hmm]
      by_cases hma : mission.active = true
      case neg => left; simp [hma]
      simp only [hma, Bool.not_true, Bool.false_eq_true, if_false]
      cases hacc : checkAccess w inp mid su with
      | some e => left; simp [hacc]
      | none =>
        simp only [hacc]
        cases hboats : checkBoats w inp.items with
        | some e => left; simp [hboats]
        | none =>
          simp only [hboats]
          cases hpi : checkPricingAndInventory w inp.items with
          | some e => left; simp [hpi]
          | none =>
            simp only [hpi]
            cases htc : checkTypeCapacity w inp.items with
            | some e => left; simp [htc]
            | none =>
              simp only [htc]
              cases htot : checkTotalCapacity w inp.items with
              | some e => left; simp [htot]
              | none =>
                simp only [htot]
                by_cases hcc : (w.bookings.any
                    (fun b => b.confirmation_code == inp.confirmation_code)) = true
                case pos => left; simp [hcc]
                simp only [hcc, Bool.false_eq_true, if_false]
                right
                set bid := maxNat (w.bookings.map (fun b => b.id)) + 1 with hbid
                set ibase := maxNat (w.items.map (fun i => i.id)) + 1 with hibase
                set nb : Booking :=
                  { id := bid, confirmation_code := inp.confirmation_code,
                    booking_status := .draft, payment_status := none,
                    subtotal := inp.subtotal,
                    discount_amount := inp.discount_amount,
                    tax_amount := inp.tax_amount,
                    tip_amount := inp.tip_amount,
                    total_amount := inp.total_amount,
                    refunded_amount_cents := 0,
                    has_payment_intent := false } with hnb
                have hfresh : ∀ bk ∈ w.bookings, bk.id ≠ nb.id := by
                  intro bk hbk
                  have := le_maxNat (w.bookings.map (fun b => b.id)) bk.id
                    (List.mem_map_of_mem _ hbk)
                  simp only [hnb, hbid]
                  omega
                have hval : ∀ it ∈ inp.items, 1 ≤ it.quantity := by
                  unfold bookingInputValid at hv
                  simp only [Bool.and_eq_true, List.all_eq_true,
                    decide_eq_true_eq] at hv
                  intro it hit
                  exact (hv.2 it hit).1
                have hni : ∀ ni ∈ buildItems w bid ibase inp.items,
                    ni.booking_id = nb.id ∧ 0 ≤ ni.quantity := by
                  intro ni hnim
                  obtain ⟨h1, it, hit, h2⟩ := buildItems_mem w bid ibase inp.items ni hnim
                  refine ⟨by simp [hnb, h1], ?_⟩
                  rw [h2]
                  have := hval it hit
                  omega
                by_cases hok : ok = true
                · refine ⟨nb, buildItems w bid ibase inp.items,
                    (buildItems w bid ibase inp.items).foldl (fun vs it =>
                      match it.merchandise_variation_id with
                      | none => vs
                      | some vid => vs.map fun v =>
                          if v.id == vid then
                            { v with quantity_sold := v.quantity_sold + it.quantity }
                          else v) w.variations,
                    by simp [hnb, isPaidBooking], by simp [hnb], hfresh, hni, ?_⟩
                  simp [hok]
                · refine ⟨nb, buildItems w bid ibase inp.items, w.variations,
                    by simp [hnb, isPaidBooking], by simp [hnb], hfresh, hni, ?_⟩
                  simp [hok]

/-- `process_refund` either rejects (state unchanged), applies a partial
refund (only the booking's payment bookkeeping changes, and the booking was
in a paid status), or applies a full refund (the booking becomes cancelled
and refunded, its items refunded, some variation counters released). -/
theorem processRefund_shape (w : World) (code : String) (amt : Option Int)
    (gw : Bool) :
    ((processRefund w code amt gw).1 = w) ∨
    (∃ b ra, w.bookingByCode code = some b ∧
      (b.booking_status = BookingStatus.confirmed ∨
        b.booking_status = BookingStatus.checked_in ∨
        b.booking_status = BookingStatus.completed) ∧
      (processRefund w code amt gw).1 =
        { w with bookings := w.bookings.map (fun x =>
            if x.id == b.id then
              { b with refunded_amount_cents := ra,
                       payment_status := some PaymentStatus.partially_refunded }
            else x) }) ∨
    (∃ b ra vs, w.bookingByCode code = some b ∧
      (processRefund w code amt gw).1 =
        { w with
          bookings := w.bookings.map (fun x =>
            if x.id == b.id then
              { b with refunded_amount_cents := ra,
                       booking_status := BookingStatus.cancelled,
                       payment_status := some PaymentStatus.refunded }
            else x),
          items := w.items.map (fun i =>
            if i.booking_id == b.id then { i with status := ItemStatus.refunded }
            else i),
          variations := vs }) := by
  unfold processRefund
  cases hb : w.bookingByCode code with
  | none => left; simp
  | some b =>
    by_cases hst : (b.booking_status == BookingStatus.confirmed
        || b.booking_status == BookingStatus.checked_in
        || b.booking_status == BookingStatus.completed) = true
    case neg => left; simp [hst]
    simp only [hst, Bool.not_true, Bool.false_eq_true, if_false]
    by_cases hrem : b.total_amount - b.refunded_amount_cents ≤ 0
    case pos => left; simp [hrem]
    simp only [if_neg hrem]
    by_cases hbig : amt.getD (b.total_amount - b.refunded_amount_cents) >
        b.total_amount - b.refunded_amount_cents
    case pos => left; simp [hbig]
    simp only [if_neg hbig]
    by_cases hpos : amt.getD (b.total_amount - b.refunded_amount_cents) ≤ 0
    case pos => left; simp [hpos]
    simp only [if_neg hpos]
    by_cases hgw : (b.has_payment_intent && !gw) = true
    case pos => left; simp [hgw]
    simp only [hgw, Bool.false_eq_true, if_false]
    by_cases hfull : b.refunded_amount_cents +
        amt.getD (b.total_amount - b.refunded_amount_cents) ≥ b.total_amount
    · right; right
      refine ⟨b, b.refunded_amount_cents +
          amt.getD (b.total_amount - b.refunded_amount_cents),
        (w.itemsOfBooking b.id).foldl releaseItemInventory w.variations,
        rfl, ?_⟩
      simp only [if_pos hfull]
    · right; left
      have hstd : b.booking_status = BookingStatus.confirmed ∨
          b.booking_status = BookingStatus.checked_in ∨
          b.booking_status = BookingStatus.completed := by
        simp only [Bool.or_eq_true, beq_iff_eq] at hst
        tauto
      refine ⟨b, b.refunded_amount_cents +
          amt.getD (b.total_amount - b.refunded_amount_cents), rfl, hstd, ?_⟩
      simp only [if_neg hfull]

/-- `reschedule_booking` either rejects (state unchanged) or retargets
exactly the booking's ticket items to the chosen destination after its
capacity checks passed. -/
theorem rescheduleBooking_shape (w : World) (bid tt : Nat) (bt? : Option Nat) :
    ((rescheduleBooking w bid tt bt?).1 = w) ∨
    (∃ b target_boat tbF,
      w.getBooking bid = some b ∧
      (w.tripBoatsByTrip tt).find? (fun tb => tb.boat_id == target_boat) =
        some tbF ∧
      checkRescheduleTypeCapacity w
        ((w.itemsOfBooking b.id).filter (fun i => i.trip_merchandise_id == none))
        tt target_boat = none ∧
      paidCountByBoat w tt target_boat +
        (((w.itemsOfBooking b.id).filter
          (fun i => i.trip_merchandise_id == none)).map (fun i => i.quantity)).sum
        ≤ effectiveMaxCapacity w tbF ∧
      (rescheduleBooking w bid tt bt?).1 =
        { w with items := w.items.map (fun i =>
            if i.booking_id == b.id && i.trip_merchandise_id == none then
              { i with trip_id := tt, boat_id := target_boat }
            else i) }) := by
  unfold rescheduleBooking
  cases hb : w.getBooking bid with
  | none => left; simp
  | some b =>
    by_cases hst : (b.booking_status == BookingStatus.checked_in) = true
    case pos => left; simp [hst]
    simp only [hst, Bool.false_eq_true, if_false]
    cases hfirst : firstDisplayTicket
        ((w.itemsOfBooking b.id).filter (fun i => i.trip_merchandise_id == none)) with
    | none => left; simp [hfirst]
    | some first =>
      simp only [hfirst]
      cases htt : w.getTrip tt with
      | none => left; simp
      | some target =>
        by_cases hact : target.active = true
        case neg => left; simp [hact]
        simp only [hact, Bool.not_true, Bool.false_eq_true, if_false]
        cases hft : w.getTrip first.trip_id with
        | none => left; simp
        | some firstTrip =>
          by_cases hmis : (target.mission_id != firstTrip.mission_id) = true
          case pos => left; simp [hmis]
          simp only [hmis, Bool.false_eq_true, if_false]
          cases hstep : chooseTargetBoat (w.tripBoatsByTrip tt) bt? with
          | error e => left; simp [hstep]
          | ok target_boat =>
            simp only [hstep]
            obtain ⟨tbF, htbF⟩ :=
              chooseTargetBoat_find (w.tripBoatsByTrip tt) bt? target_boat hstep
            cases hcap : checkRescheduleTypeCapacity w
                ((w.itemsOfBooking b.id).filter
                  (fun i => i.trip_merchandise_id == none)) tt target_boat with
            | some e => left; simp [hcap]
            | none =>
              simp only [hcap, htbF]
              by_cases hover : (paidCountByBoat w tt target_boat +
                  (((w.itemsOfBooking b.id).filter
                    (fun i => i.trip_merchandise_id == none)).map
                      (fun i => i.quantity)).sum >
                  effectiveMaxCapacity w tbF)
              · left
                rw [if_pos hover]
              · right
                refine ⟨b, target_boat, tbF, rfl, htbF, hcap, by omega, ?_⟩
                rw [if_neg hover]

theorem sum_map_zero {α : Type} (l : List α) (f : α → Int)
    (h : ∀ a ∈ l, f a = 0) : (l.map f).sum = 0 := by
  induction l with
  | nil => simp
  | cons a t ih =>
    simp only [List.map_cons, List.sum_cons]
    rw [h a (List.mem_cons_self a t), ih (fun x hx => h x (List.mem_cons_of_mem a hx))]
    simp

theorem mem_pairwise_unique {α : Type} (l : List α) (R : α → α → Prop)
    (hR : l.Pairwise R) (a b : α) (ha : a ∈ l) (hb : b ∈ l)
    (hab : ¬R a b) (hba : ¬R b a) : a = b := by
  induction l with
  | nil => simp at ha
  | cons x t ih =>
    rcases List.pairwise_cons.mp hR with ⟨hx, ht⟩
    rcases List.mem_cons.mp ha with rfl | ha2
    · rcases List.mem_cons.mp hb with rfl | hb2
      · rfl
      · exact absurd (hx b hb2) hab
    · rcases List.mem_cons.mp hb with rfl | hb2
      · exact absurd (hx a ha2) hba
      · exact ih ht ha2 hb2

theorem mem_foldl_dedup {α : Type} [BEq α] [LawfulBEq α] (l : List α)
    (a : α) : ∀ acc : List α,
    (a ∈ l.foldl (fun acc x => if acc.contains x then acc else acc ++ [x]) acc ↔
      a ∈ acc ∨ a ∈ l) := by
  induction l with
  | nil => intro acc; simp
  | cons x t ih =>
    intro acc
    simp only [List.foldl_cons]
    rw [ih]
    by_cases hc : acc.contains x = true
    · rw [if_pos hc]
      constructor
      · intro h
        rcases h with h1 | h2
        · exact Or.inl h1
        · exact Or.inr (List.mem_cons_of_mem x h2)
      · intro h
        rcases h with h1 | h2
        · exact Or.inl h1
        · rcases List.mem_cons.mp h2 with rfl | h3
          · exact Or.inl (List.mem_of_elem_eq_true hc)
          · exact Or.inr h3
    · rw [if_neg hc]
      simp only [List.mem_append, List.mem_singleton, List.mem_cons]
      tauto

theorem mem_dedupKeys {α : Type} [BEq α] [LawfulBEq α] (l : List α) (a : α) :
    a ∈ dedupKeys l ↔ a ∈ l := by
  unfold dedupKeys
  rw [mem_foldl_dedup]
  simp

/-- Replacing one booking by an unpaid one while mapping the items by a
bucket- and ledger-field-preserving function shrinks every ledger count. -/
theorem paidCounts_replace_le (w : World) (bid : Nat) (b2 : Booking)
    (vs : List MerchVariation) (hb2 : b2.id = bid)
    (hnp : isPaidBooking b2 = false) (g : BookingItem → BookingItem)
    (hg : ∀ i, (g i).trip_merchandise_id = i.trip_merchandise_id ∧
      (g i).booking_id = i.booking_id ∧ (g i).quantity = i.quantity ∧
      (g i).trip_id = i.trip_id ∧ (g i).boat_id = i.boat_id ∧
      (g i).item_type = i.item_type)
    (hq : ∀ i ∈ w.items, 0 ≤ i.quantity) :
    (∀ t b, paidCountByBoat
        { w with bookings := w.bookings.map (fun x => if x.id == bid then b2 else x),
                 items := w.items.map g, variations := vs } t b ≤
      paidCountByBoat w t b) ∧
    (∀ t b ty, paidCountByBoatType
        { w with bookings := w.bookings.map (fun x => if x.id == bid then b2 else x),
                 items := w.items.map g, variations := vs } t b ty ≤
      paidCountByBoatType w t b ty) := by
  constructor
  · intro t b
    rw [paidCountByBoat_eq_bucketSum, paidCountByBoat_eq_bucketSum]
    exact bucketSum_replace_le w.bookings bid b2 hb2 hnp w.items g
      (fun i => ⟨(hg i).1, (hg i).2.1, (hg i).2.2.1⟩) _
      (fun i => by
        have h := hg i
        simp only [h.2.2.2.1, h.2.2.2.2.1]) hq
  · intro t b ty
    rw [paidCountByBoatType_eq_bucketSum, paidCountByBoatType_eq_bucketSum]
    exact bucketSum_replace_le w.bookings bid b2 hb2 hnp w.items g
      (fun i => ⟨(hg i).1, (hg i).2.1, (hg i).2.2.1⟩) _
      (fun i => by
        have h := hg i
        simp only [h.2.2.2.1, h.2.2.2.2.1, h.2.2.2.2.2]) hq

/-- Replacing one booking by one with the same paid-flag (items untouched)
leaves every ledger count unchanged. -/
theorem paidCounts_replace_eq (w : World) (bid : Nat) (b2 : Booking)
    (hb2 : b2.id = bid)
    (hpp : ∀ bk ∈ w.bookings, bk.id = bid → isPaidBooking b2 = isPaidBooking bk) :
    (∀ t b, paidCountByBoat
        { w with bookings := w.bookings.map (fun x => if x.id == bid then b2 else x) }
        t b = paidCountByBoat w t b) ∧
    (∀ t b ty, paidCountByBoatType
        { w with bookings := w.bookings.map (fun x => if x.id == bid then b2 else x) }
        t b ty = paidCountByBoatType w t b ty) := by
  constructor
  · intro t b
    rw [paidCountByBoat_eq_bucketSum, paidCountByBoat_eq_bucketSum]
    exact bucketSum_replace_eq w.bookings bid b2 hb2 hpp w.items _
  · intro t b ty
    rw [paidCountByBoatType_eq_bucketSum, paidCountByBoatType_eq_bucketSum]
    exact bucketSum_replace_eq w.bookings bid b2 hb2 hpp w.items _

/-- Booking creation preserves the capacity invariant: the new booking is a
draft, which never consumes capacity. -/
theorem inv_preserved_create (w : World) (inp : BookingInput) (su ok : Bool)
    (hinv : capacityInv w) : capacityInv (createBooking w inp su ok).1 := by
  rcases createBooking_shape w inp su ok with heq |
    ⟨nb, newIts, vs, hnp, _, hfresh, hni, heq⟩
  · rw [heq]; exact hinv
  · rw [heq]
    constructor
    · intro tb htb
      have hpaid : paidCountByBoat
          { w with bookings := w.bookings ++ [nb], items := w.items ++ newIts,
                   variations := vs } tb.trip_id tb.boat_id =
          paidCountByBoat w tb.trip_id tb.boat_id := by
        rw [paidCountByBoat_eq_bucketSum, paidCountByBoat_eq_bucketSum]
        exact bucketSum_append_unpaid w.bookings nb hnp hfresh w.items newIts
          (fun ni hnim => (hni ni hnim).1) _
      rw [hpaid]
      exact hinv.1 tb htb
    · intro tb htb ty c hcap
      have hpaid : paidCountByBoatType
          { w with bookings := w.bookings ++ [nb], items := w.items ++ newIts,
                   variations := vs } tb.trip_id tb.boat_id ty =
          paidCountByBoatType w tb.trip_id tb.boat_id ty := by
        rw [paidCountByBoatType_eq_bucketSum, paidCountByBoatType_eq_bucketSum]
        exact bucketSum_append_unpaid w.bookings nb hnp hfresh w.items newIts
          (fun ni hnim => (hni ni hnim).1) _
      rw [hpaid]
      exact hinv.2 tb htb ty c hcap

/-- Administrative cancellation preserves the capacity invariant: the booking
stops counting and nothing else grows. -/
theorem inv_preserved_cancel (w : World) (bid : Nat)
    (hq : ∀ i ∈ w.items, 0 ≤ i.quantity) (hinv : capacityInv w) :
    capacityInv (updateBooking w bid cancelPayload).1 := by
  rcases updateBooking_cancel_shape w bid with heq | ⟨b, ps, st, _, heq⟩
  · rw [heq]; exact hinv
  · rw [heq]
    have hg : ∀ i : BookingItem,
        ((if i.booking_id == b.id then { i with status := st } else i) :
          BookingItem).trip_merchandise_id = i.trip_merchandise_id ∧
        ((if i.booking_id == b.id then { i with status := st } else i) :
          BookingItem).booking_id = i.booking_id ∧
        ((if i.booking_id == b.id then { i with status := st } else i) :
          BookingItem).quantity = i.quantity ∧
        ((if i.booking_id == b.id then { i with status := st } else i) :
          BookingItem).trip_id = i.trip_id ∧
        ((if i.booking_id == b.id then { i with status := st } else i) :
          BookingItem).boat_id = i.boat_id ∧
        ((if i.booking_id == b.id then { i with status := st } else i) :
          BookingItem).item_type = i.item_type := by
      intro i
      by_cases h : (i.booking_id == b.id) = true <;> simp [h]
    have hnp : isPaidBooking
        { b with booking_status := BookingStatus.cancelled,
                 payment_status := ps } = false := by
      simp [isPaidBooking]
    have hle := paidCounts_replace_le w b.id
      { b with booking_status := BookingStatus.cancelled, payment_status := ps }
      w.variations rfl hnp
      (fun i => if i.booking_id == b.id then { i with status := st } else i)
      hg hq
    constructor
    · intro tb htb
      exact le_trans (hle.1 tb.trip_id tb.boat_id) (hinv.1 tb htb)
    · intro tb htb ty c hcap
      exact le_trans (hle.2 tb.trip_id tb.boat_id ty) (hinv.2 tb htb ty c hcap)

/-- Refunds preserve the capacity invariant: a partial refund keeps the
booking paid with unchanged items, a full refund cancels it. -/
theorem inv_preserved_refund (w : World) (code : String) (amt : Option Int)
    (gw : Bool) (hwf : WFState w) (hinv : capacityInv w) :
    capacityInv (processRefund w code amt gw).1 := by
  rcases processRefund_shape w code amt gw with heq |
    ⟨b, ra, hb, hstat, heq⟩ | ⟨b, ra, vs, hb, heq⟩
  · rw [heq]; exact hinv
  · -- partial refund: every ledger count is unchanged
    rw [heq]
    have hbmem : b ∈ w.bookings := List.mem_of_find?_eq_some hb
    have hpp : ∀ bk ∈ w.bookings, bk.id = b.id →
        isPaidBooking
          { b with refunded_amount_cents := ra,
                   payment_status := some PaymentStatus.partially_refunded } =
          isPaidBooking bk := by
      intro bk hbk hbkid
      have hbke : bk = b :=
        mem_nodup_id_unique w.bookings (fun x => x.id) hwf.2.1 bk b hbk hbmem hbkid
      subst hbke
      have hnr : bk.payment_status ≠ some PaymentStatus.refunded := by
        intro hr
        have := hwf.2.2.1 bk hbk hr
        rcases hstat with h | h | h <;> rw [this] at h <;> simp at h
      have h2 : (bk.payment_status != some PaymentStatus.refunded) = true := by
        simp [bne_iff_ne, hnr]
      unfold isPaidBooking
      simp only
      rcases hstat with h | h | h <;> simp [h, h2]
    have heqc := paidCounts_replace_eq w b.id
      { b with refunded_amount_cents := ra,
               payment_status := some PaymentStatus.partially_refunded } rfl hpp
    constructor
    · intro tb htb
      rw [heqc.1 tb.trip_id tb.boat_id]
      exact hinv.1 tb htb
    · intro tb htb ty c hcap
      rw [heqc.2 tb.trip_id tb.boat_id ty]
      exact hinv.2 tb htb ty c hcap
  · -- full refund: the booking stops counting
    rw [heq]
    have hg : ∀ i : BookingItem,
        ((if i.booking_id == b.id then { i with status := ItemStatus.refunded }
          else i) : BookingItem).trip_merchandise_id = i.trip_merchandise_id ∧
        ((if i.booking_id == b.id then { i with status := ItemStatus.refunded }
          else i) : BookingItem).booking_id = i.booking_id ∧
        ((if i.booking_id == b.id then { i with status := ItemStatus.refunded }
          else i) : BookingItem).quantity = i.quantity ∧
        ((if i.booking_id == b.id then { i with status := ItemStatus.refunded }
          else i) : BookingItem).trip_id = i.trip_id ∧
        ((if i.booking_id == b.id then { i with status := ItemStatus.refunded }
          else i) : BookingItem).boat_id = i.boat_id ∧
        ((if i.booking_id == b.id then { i with status := ItemStatus.refunded }
          else i) : BookingItem).item_type = i.item_type := by
      intro i
      by_cases h : (i.booking_id == b.id) = true <;> simp [h]
    have hnp : isPaidBooking
        { b with refunded_amount_cents := ra,
                 booking_status := BookingStatus.cancelled,
                 payment_status := some PaymentStatus.refunded } = false := by
      simp [isPaidBooking]
    have hle := paidCounts_replace_le w b.id
      { b with refunded_amount_cents := ra,
               booking_status := BookingStatus.cancelled,
               payment_status := some PaymentStatus.refunded }
      vs rfl hnp
      (fun i => if i.booking_id == b.id then { i with status := ItemStatus.refunded }
        else i)
      hg hwf.1
    constructor
    · intro tb htb
      exact le_trans (hle.1 tb.trip_id tb.boat_id) (hinv.1 tb htb)
    · intro tb htb ty c hcap
      exact le_trans (hle.2 tb.trip_id tb.boat_id ty) (hinv.2 tb htb ty c hcap)

/-- Rescheduling preserves the capacity invariant: destination buckets were
re-checked against the booking's full quantities, all other buckets only
shrink. -/
theorem inv_preserved_reschedule (w : World) (bid tt : Nat) (bt? : Option Nat)
    (hwf : WFState w) (hinv : capacityInv w) :
    capacityInv (rescheduleBooking w bid tt bt?).1 := by
  rcases rescheduleBooking_shape w bid tt bt? with heq |
    ⟨b, tboat, tbF, hb, htbF, hcap, htotal, heq⟩
  · rw [heq]; exact hinv
  · rw [heq]
    have hq := hwf.1
    -- facts about the destination association
    have htbFmem : tbF ∈ w.tripBoats ∧ tbF.trip_id = tt := by
      have hm := List.mem_of_find?_eq_some htbF
      rw [World.tripBoatsByTrip, List.mem_filter] at hm
      exact ⟨hm.1, by simpa using hm.2⟩
    have htbFboat : tbF.boat_id = tboat := by
      have := List.find?_some htbF
      simpa using this
    -- abbreviations
    have hmoved : ∀ f : BookingItem → Int,
        (w.items.map (fun i =>
          if (i.booking_id == b.id && i.trip_merchandise_id == none) = true then
            f i else 0)).sum =
        (((w.itemsOfBooking b.id).filter
          (fun i => i.trip_merchandise_id == none)).map f).sum := by
      intro f
      rw [World.itemsOfBooking]
      rw [sum_map_filter ((w.items.filter (fun i => i.booking_id == b.id)))
        (fun i => i.trip_merchandise_id == none) f]
      rw [sum_map_filter w.items (fun i => i.booking_id == b.id)
        (fun i => if (i.trip_merchandise_id == none) then f i else 0)]
      apply sum_map_eq_sum_map
      intro i _
      by_cases h1 : (i.booking_id == b.id) = true
      · by_cases h2 : (i.trip_merchandise_id == none) = true <;> simp [h1, h2]
      · simp [h1]
    -- the pointwise bound
    have hpoint : ∀ P Q : BookingItem → Bool,
        (∀ i : BookingItem,
          (i.booking_id == b.id && i.trip_merchandise_id == none) = true →
          P (if (i.booking_id == b.id && i.trip_merchandise_id == none) = true then
              { i with trip_id := tt, boat_id := tboat } else i) = Q i) →
        bucketSum w.bookings
          (w.items.map (fun i =>
            if (i.booking_id == b.id && i.trip_merchandise_id == none) = true then
              { i with trip_id := tt, boat_id := tboat } else i)) P ≤
        bucketSum w.bookings w.items P +
          (w.items.map (fun i =>
            if (i.booking_id == b.id && i.trip_merchandise_id == none) = true then
              (if Q i then i.quantity else 0) else 0)).sum := by
      intro P Q hPQ
      unfold bucketSum
      rw [List.map_map]
      refine le_trans (sum_map_le_sum_map w.items _
        (fun i => (if P i then paidContrib w.bookings i else 0) +
          (if (i.booking_id == b.id && i.trip_merchandise_id == none) = true then
            (if Q i then i.quantity else 0) else 0)) ?_)
        (le_of_eq (sum_map_add w.items _ _))
      intro i hi
      simp only [Function.comp_apply]
      by_cases hm : (i.booking_id == b.id && i.trip_merchandise_id == none) = true
      · have hgc : paidContrib w.bookings
            (if (i.booking_id == b.id && i.trip_merchandise_id == none) = true then
              { i with trip_id := tt, boat_id := tboat } else i) =
            paidContrib w.bookings i := by
          rw [if_pos hm]
          exact paidContrib_congr _ _ _ rfl rfl rfl
        rw [hPQ i hm, hgc]
        have h1 := paidContrib_le_quantity w.bookings i (hq i hi)
        have h2 := paidContrib_nonneg w.bookings i (hq i hi)
        by_cases hQ : Q i = true
        · simp only [hQ, if_true, hm]
          by_cases hP : P i = true <;> simp only [hP, if_true, if_false] <;> omega
        · simp only [hQ, if_false, hm]
          by_cases hP : P i = true <;>
            simp only [hP, if_true, if_false, Bool.false_eq_true] <;> omega
      · rw [if_neg hm, if_neg hm, add_zero]
    constructor
    · -- per-boat half
      intro tb htb
      have htbw : tb ∈ w.tripBoats := htb
      by_cases hdest : tb.trip_id = tt ∧ tb.boat_id = tboat
      · have htbeq : tb = tbF := by
          apply mem_pairwise_unique w.tripBoats _ hwf.2.2.2 tb tbF htbw htbFmem.1
          · intro hr
            exact hr ⟨by rw [hdest.1, htbFmem.2], by rw [hdest.2, htbFboat]⟩
          · intro hr
            exact hr ⟨by rw [hdest.1, htbFmem.2], by rw [hdest.2, htbFboat]⟩
        have hows := hpoint
          (fun i => i.trip_id == tb.trip_id && i.boat_id == tb.boat_id)
          (fun _ => true)
          (by
            intro i hm
            rw [if_pos hm]
            simp [hdest.1, hdest.2])
        rw [paidCountByBoat_eq_bucketSum]
        refine le_trans hows ?_
        rw [hmoved (fun i => if true then i.quantity else 0)]
        have hsum : (((w.itemsOfBooking b.id).filter
            (fun i => i.trip_merchandise_id == none)).map
              (fun i => if true then i.quantity else 0)).sum =
            (((w.itemsOfBooking b.id).filter
              (fun i => i.trip_merchandise_id == none)).map
                (fun i => i.quantity)).sum := by
          apply sum_map_eq_sum_map
          intro i _
          simp
        rw [hsum]
        rw [← paidCountByBoat_eq_bucketSum]
        have : paidCountByBoat w tb.trip_id tb.boat_id = paidCountByBoat w tt tboat := by
          rw [hdest.1, hdest.2]
        rw [this]
        calc paidCountByBoat w tt tboat + _ ≤ effectiveMaxCapacity w tbF := htotal
          _ = effectiveMaxCapacity w tb := by rw [htbeq]
      · -- not the destination bucket: it only shrinks
        have hows := hpoint
          (fun i => i.trip_id == tb.trip_id && i.boat_id == tb.boat_id)
          (fun _ => false)
          (by
            intro i hm
            rw [if_pos hm]
            simp only [Bool.and_eq_false_iff]
            rcases not_and_or.mp hdest with h | h
            · left; simpa using fun he => h he.symm
            · right; simpa using fun he => h he.symm)
        rw [paidCountByBoat_eq_bucketSum]
        refine le_trans hows ?_
        have hz : (w.items.map (fun i =>
            if (i.booking_id == b.id && i.trip_merchandise_id == none) = true then
              (if false then i.quantity else 0) else 0)).sum = 0 := by
          apply sum_map_zero
          intro i _
          split <;> simp
        rw [hz, add_zero, ← paidCountByBoat_eq_bucketSum]
        exact hinv.1 tb htb
    · -- per-type half
      intro tb htb ty c hce
      have htbw : tb ∈ w.tripBoats := htb
      by_cases hdest : tb.trip_id = tt ∧ tb.boat_id = tboat
      · have htbeq : tb = tbF := by
          apply mem_pairwise_unique w.tripBoats _ hwf.2.2.2 tb tbF htbw htbFmem.1
          · intro hr
            exact hr ⟨by rw [hdest.1, htbFmem.2], by rw [hdest.2, htbFboat]⟩
          · intro hr
            exact hr ⟨by rw [hdest.1, htbFmem.2], by rw [hdest.2, htbFboat]⟩
        have hows := hpoint
          (fun i => i.trip_id == tb.trip_id && i.boat_id == tb.boat_id
            && i.item_type == ty)
          (fun i => i.item_type == ty)
          (by
            intro i hm
            rw [if_pos hm]
            simp [hdest.1, hdest.2])
        rw [paidCountByBoatType_eq_bucketSum]
        refine le_trans hows ?_
        rw [hmoved (fun i => if i.item_type == ty then i.quantity else 0)]
        rw [← paidCountByBoatType_eq_bucketSum]
        have hpt : paidCountByBoatType w tb.trip_id tb.boat_id ty =
            paidCountByBoatType w tt tboat ty := by
          rw [hdest.1, hdest.2]
        rw [hpt]
        -- the moved quantity is the booking's quantity of this type
        have hbq : (((w.itemsOfBooking b.id).filter
            (fun i => i.trip_merchandise_id == none)).map
              (fun i => if i.item_type == ty then i.quantity else 0)).sum =
            bookingQtyByType ((w.itemsOfBooking b.id).filter
              (fun i => i.trip_merchandise_id == none)) ty := rfl
        rw [hbq]
        have hceW : effCapEntry w tt tboat ty = some (some c) := by
          have : effCapEntry w tb.trip_id tb.boat_id ty = some (some c) := hce
          rw [hdest.1, hdest.2] at this
          exact this
        by_cases hty : ty ∈ ((w.itemsOfBooking b.id).filter
            (fun i => i.trip_merchandise_id == none)).map (fun i => i.item_type)
        · -- the destination check ran for this type
          have hkey : ty ∈ dedupKeys (((w.itemsOfBooking b.id).filter
              (fun i => i.trip_merchandise_id == none)).map
                (fun i => i.item_type)) := (mem_dedupKeys _ _).mpr hty
          have hnone := (firstErr_eq_none_iff _ _).mp hcap ty hkey
          rw [hceW] at hnone
          simp only at hnone
          split at hnone
          · next hgt =>
            exact absurd hnone (by simp)
          · next hgt =>
            have := le_of_not_gt (by
              intro hc
              exact hgt hc)
            omega
        · -- the booking moves nothing of this type
          have hz : bookingQtyByType ((w.itemsOfBooking b.id).filter
              (fun i => i.trip_merchandise_id == none)) ty = 0 := by
            unfold bookingQtyByType
            apply sum_map_zero
            intro i hi
            have : ¬(i.item_type == ty) = true := by
              intro he
              exact hty (by
                rw [List.mem_map]
                exact ⟨i, hi, by simpa using he⟩)
            simp [this]
          rw [hz, add_zero]
          have := hinv.2 tbF htbFmem.1 ty c (by
            rw [htbFmem.2, htbFboat]
            exact hceW)
          rw [htbFmem.2, htbFboat] at this
          exact this
      · have hows := hpoint
          (fun i => i.trip_id == tb.trip_id && i.boat_id == tb.boat_id
            && i.item_type == ty)
          (fun _ => false)
          (by
            intro i hm
            rw [if_pos hm]
            simp only [Bool.and_eq_false_iff]
            left
            rcases not_and_or.mp hdest with h | h
            · left; simpa using fun he => h he.symm
            · right; simpa using fun he => h he.symm)
        rw [paidCountByBoatType_eq_bucketSum]
        refine le_trans hows ?_
        have hz : (w.items.map (fun i =>
            if (i.booking_id == b.id && i.trip_merchandise_id == none) = true then
              (if false then i.quantity else 0) else 0)).sum = 0 := by
          apply sum_map_zero
          intro i _
          split <;> simp
        rw [hz, add_zero, ← paidCountByBoatType_eq_bucketSum]
        exact hinv.2 tb htb ty c hce

theorem items_map_nonneg (its : List BookingItem) (g : BookingItem → BookingItem)
    (hq : ∀ i ∈ its, 0 ≤ i.quantity) (hgq : ∀ i, (g i).quantity = i.quantity) :
    ∀ i ∈ its.map g, 0 ≤ i.quantity := by
  intro i hi
  rcases List.mem_map.mp hi with ⟨j, hj, rfl⟩
  rw [hgq j]
  exact hq j hj

theorem map_id_replace (bs : List Booking) (bid : Nat) (b2 : Booking)
    (hb2 : b2.id = bid) :
    (bs.map (fun x => if x.id == bid then b2 else x)).map (fun b => b.id) =
      bs.map (fun b => b.id) := by
  rw [List.map_map]
  apply List.map_congr_left
  intro a _
  simp only [Function.comp_apply]
  by_cases h : (a.id == bid) = true
  · rw [if_pos h, hb2]
    have ha : a.id = bid := by simpa using h
    exact ha.symm
  · rw [if_neg h]

/-- Each of the four operations preserves database well-formedness. -/
theorem wf_preserved (w : World) (op : SafeOp) (hwf : WFState w) :
    WFState (applySafeOp w op) := by
  obtain ⟨hq, hnd, hrc, hpu⟩ := hwf
  cases op with
  | create inp su ok =>
    rcases createBooking_shape w inp su ok with heq |
      ⟨nb, newIts, vs, _, hpay, hfresh, hni, heq⟩
    · simp only [applySafeOp]; rw [heq]; exact ⟨hq, hnd, hrc, hpu⟩
    · simp only [applySafeOp]; rw [heq]
      refine ⟨?_, ?_, ?_, hpu⟩
      · intro i hi
        rcases List.mem_append.mp hi with h | h
        · exact hq i h
        · exact (hni i h).2
      · rw [List.map_append, List.nodup_append]
        refine ⟨hnd, by simp, ?_⟩
        intro x hx
        rcases List.mem_map.mp hx with ⟨bk, hbk, rfl⟩
        simp only [List.map_cons, List.map_nil, List.mem_singleton]
        exact hfresh bk hbk
      · intro bk hbk hr
        rcases List.mem_append.mp hbk with h | h
        · exact hrc bk h hr
        · rcases List.mem_singleton.mp h with rfl
          rw [hpay] at hr
          simp at hr
  | cancel bid =>
    rcases updateBooking_cancel_shape w bid with heq | ⟨b, ps, st, _, heq⟩
    · simp only [applySafeOp]; rw [heq]; exact ⟨hq, hnd, hrc, hpu⟩
    · simp only [applySafeOp]; rw [heq]
      refine ⟨?_, ?_, ?_, hpu⟩
      · apply items_map_nonneg _ _ hq
        intro i
        by_cases h : (i.booking_id == b.id) = true <;> simp [h]
      · rw [map_id_replace w.bookings b.id
          { b with booking_status := BookingStatus.cancelled,
                   payment_status := ps } rfl]
        exact hnd
      · intro bk hbk hr
        rcases List.mem_map.mp hbk with ⟨bk0, _, rfl⟩
        by_cases h : (bk0.id == b.id) = true
        · simp [h]
        · simp only [h, Bool.false_eq_true, if_false] at hr ⊢
          exact hrc bk0 (by assumption) hr
  | refund code amt gw =>
    rcases processRefund_shape w code amt gw with heq |
      ⟨b, ra, _, _, heq⟩ | ⟨b, ra, vs, _, heq⟩
    · simp only [applySafeOp]; rw [heq]; exact ⟨hq, hnd, hrc, hpu⟩
    · simp only [applySafeOp]; rw [heq]
      refine ⟨hq, ?_, ?_, hpu⟩
      · rw [map_id_replace w.bookings b.id
          { b with refunded_amount_cents := ra,
                   payment_status := some PaymentStatus.partially_refunded } rfl]
        exact hnd
      · intro bk hbk hr
        rcases List.mem_map.mp hbk with ⟨bk0, _, rfl⟩
        by_cases h : (bk0.id == b.id) = true
        · simp only [h, if_true] at hr
          simp at hr
        · simp only [h, Bool.false_eq_true, if_false] at hr ⊢
          exact hrc bk0 (by assumption) hr
    · simp only [applySafeOp]; rw [heq]
      refine ⟨?_, ?_, ?_, hpu⟩
      · apply items_map_nonneg _ _ hq
        intro i
        by_cases h : (i.booking_id == b.id) = true <;> simp [h]
      · rw [map_id_replace w.bookings b.id
          { b with refunded_amount_cents := ra,
                   booking_status := BookingStatus.cancelled,
                   payment_status := some PaymentStatus.refunded } rfl]
        exact hnd
      · intro bk hbk hr
        rcases List.mem_map.mp hbk with ⟨bk0, _, rfl⟩
        by_cases h : (bk0.id == b.id) = true
        · simp [h]
        · simp only [h, Bool.false_eq_true, if_false] at hr ⊢
          exact hrc bk0 (by assumption) hr
  | reschedule bid target boat? =>
    rcases rescheduleBooking_shape w bid target boat? with heq |
      ⟨b, tboat, tbF, _, _, _, _, heq⟩
    · simp only [applySafeOp]; rw [heq]; exact ⟨hq, hnd, hrc, hpu⟩
    · simp only [applySafeOp]; rw [heq]
      refine ⟨?_, hnd, hrc, hpu⟩
      apply items_map_nonneg _ _ hq
      intro i
      by_cases h : (i.booking_id == b.id && i.trip_merchandise_id == none) = true <;>
        simp [h]

/-- One safe operation preserves the capacity invariant. -/
theorem safeOp_preserves_inv (w : World) (op : SafeOp) (hwf : WFState w)
    (hinv : capacityInv w) : capacityInv (applySafeOp w op) := by
  cases op with
  | create inp su ok =>
    simp only [applySafeOp]
    exact inv_preserved_create w inp su ok hinv
  | cancel bid =>
    simp only [applySafeOp]
    exact inv_preserved_cancel w bid hwf.1 hinv
  | refund code amt gw =>
    simp only [applySafeOp]
    exact inv_preserved_refund w code amt gw hwf hinv
  | reschedule bid target boat? =>
    simp only [applySafeOp]
    exact inv_preserved_reschedule w bid target boat? hwf hinv

/-! ## Concrete scenarios for claim C1 -/

/-- A world with one trip/boat (total capacity 10), an unrestricted
(capacity 0) adult ticket type, and one confirmed paid booking of 10 adult
tickets. -/
def cw1a : World :=
  { missions := [{ id := 1, active := true, launch_id := 1 }],
    trips := [{ id := 1, mission_id := 1, active := true, mode := "public" }],
    boats := [{ id := 1, capacity := 10 }],
    tripBoats := [{ id := 1, trip_id := 1, boat_id := 1, max_capacity := none,
                    use_only_trip_pricing := false }],
    boatPricings := [{ boat_id := 1, ticket_type := "adult", price := 5000,
                       capacity := 0 }],
    tripBoatPricings := [], merch := [], variations := [], tripMerch := [],
    discountCodes := [], launches := [{ id := 1, location_id := 1 }],
    jurisdictions := [],
    bookings := [{ id := 1, confirmation_code := "C1A",
                   booking_status := .confirmed, payment_status := some .paid,
                   subtotal := 50000, discount_amount := 0, tax_amount := 0,
                   tip_amount := 0, total_amount := 50000,
                   refunded_amount_cents := 0, has_payment_intent := false }],
    items := [{ id := 1, booking_id := 1, trip_id := 1, boat_id := 1,
                trip_merchandise_id := none, merchandise_variation_id := none,
                item_type := "adult", quantity := 10, price_per_unit := 5000,
                status := .active }] }

/-- A world with two trips on one boat (total capacity 20), a restricted
adult type (capacity 6 per trip), and one confirmed booking holding 5 adult
tickets on each trip. -/
def cw1b : World :=
  { missions := [{ id := 1, active := true, launch_id := 1 }],
    trips := [{ id := 1, mission_id := 1, active := true, mode := "public" },
              { id := 2, mission_id := 1, active := true, mode := "public" }],
    boats := [{ id := 1, capacity := 20 }],
    tripBoats := [{ id := 1, trip_id := 1, boat_id := 1, max_capacity := none,
                    use_only_trip_pricing := false },
                  { id := 2, trip_id := 2, boat_id := 1, max_capacity := none,
                    use_only_trip_pricing := false }],
    boatPricings := [{ boat_id := 1, ticket_type := "adult", price := 5000,
                       capacity := 6 }],
    tripBoatPricings := [], merch := [], variations := [], tripMerch := [],
    discountCodes := [], launches := [{ id := 1, location_id := 1 }],
    jurisdictions := [],
    bookings := [{ id := 1, confirmation_code := "C1B",
                   booking_status := .confirmed, payment_status := some .paid,
                   subtotal := 50000, discount_amount := 0, tax_amount := 0,
                   tip_amount := 0, total_amount := 50000,
                   refunded_amount_cents := 0, has_payment_intent := false }],
    items := [{ id := 1, booking_id := 1, trip_id := 1, boat_id := 1,
                trip_merchandise_id := none, merchandise_variation_id := none,
                item_type := "adult", quantity := 5, price_per_unit := 5000,
                status := .active },
              { id := 2, booking_id := 1, trip_id := 2, boat_id := 1,
                trip_merchandise_id := none, merchandise_variation_id := none,
                item_type := "adult", quantity := 5, price_per_unit := 5000,
                status := .active }] }

/-- Raise the quantity of item 1 to `n`. -/
def qtyPayload (n : Int) : UpdatePayload :=
  { item_quantity_updates := some [{ id := 1, quantity := n }] }

theorem capacityInv_cw1a : capacityInv cw1a := by
  constructor
  · intro tb htb
    rcases List.mem_singleton.mp htb with rfl
    decide
  · intro tb htb ty c hce
    rcases List.mem_singleton.mp htb with rfl
    by_cases hty : ("adult" == ty) = true
    · have : effCapEntry cw1a 1 1 ty = some none := by
        simp [effCapEntry, getEffectivePricing, World.getTripBoatFor, capOfInt,
          cw1a, hty]
      rw [this] at hce
      simp at hce
    · have : effCapEntry cw1a 1 1 ty = none := by
        simp [effCapEntry, getEffectivePricing, World.getTripBoatFor, capOfInt,
          cw1a, hty]
      rw [this] at hce
      simp at hce

theorem capacityInv_cw1b : capacityInv cw1b := by
  constructor
  · intro tb htb
    rcases List.mem_cons.mp htb with rfl | htb2
    · decide
    · rcases List.mem_singleton.mp htb2 with rfl
      decide
  · intro tb htb ty c hce
    have hb1 : tb.boat_id = 1 ∧ (tb.trip_id = 1 ∨ tb.trip_id = 2) := by
      rcases List.mem_cons.mp htb with rfl | htb2
      · exact ⟨rfl, Or.inl rfl⟩
      · rcases List.mem_singleton.mp htb2 with rfl
        exact ⟨rfl, Or.inr rfl⟩
    by_cases hty : ("adult" == ty) = true
    · have htyeq : ty = "adult" := by
        have h := hty
        simp only [beq_iff_eq] at h
        exact h.symm
      subst htyeq
      rw [hb1.1] at hce ⊢
      rcases hb1.2 with h1 | h1 <;> rw [h1] at hce ⊢
      · have h6 : effCapEntry cw1b 1 1 "adult" = some (some 6) := by decide
        rw [h6] at hce
        have hc6 : c = 6 := by
          have h := hce
          simp only [Option.some.injEq] at h
          exact h.symm
        rw [hc6]
        decide
      · have h6 : effCapEntry cw1b 2 1 "adult" = some (some 6) := by decide
        rw [h6] at hce
        have hc6 : c = 6 := by
          have h := hce
          simp only [Option.some.injEq] at h
          exact h.symm
        rw [hc6]
        decide
    · exfalso
      rw [hb1.1] at hce
      rcases hb1.2 with h1 | h1 <;> rw [h1] at hce
      · have : effCapEntry cw1b 1 1 ty = none := by
          simp [effCapEntry, getEffectivePricing, World.getTripBoatFor, capOfInt,
            cw1b, hty]
        rw [this] at hce
        simp at hce
      · have : effCapEntry cw1b 2 1 ty = none := by
          simp [effCapEntry, getEffectivePricing, World.getTripBoatFor, capOfInt,
            cw1b, hty]
        rw [this] at hce
        simp at hce

theorem wf_cw1a : WFState cw1a := by
  refine ⟨?_, ?_, ?_, ?_⟩ <;> decide

theorem wf_cw1b : WFState cw1b := by
  refine ⟨?_, ?_, ?_, ?_⟩ <;> decide

/-- **C1** (amended).  The capacity conservation invariant — for every
associated (trip, boat), the paid ticket total fits in the effective max
capacity, and for every ticket type with a restricted (non-zero) effective
capacity the paid type count fits — is preserved by every sequence of
booking-creation, cancellation, refund and reschedule operations on a
well-formed state.  (The quantity-update sub-operation of `update_booking`
is excluded: it re-checks only per-type capacity, never the boat total, and
its self-exclusion subtracts the booking's contribution keyed by boat and
type across all its trips, so it can violate both bounds — see the
counterexample.) -/
theorem C1_capacity_invariant_amended (w : World) (ops : List SafeOp)
    (hwf : WFState w) (hinv : capacityInv w) :
    capacityInv (applySafeOps w ops) := by
  induction ops generalizing w with
  | nil => exact hinv
  | cons op rest ih =>
    exact ih (applySafeOp w op) (wf_preserved w op hwf)
      (safeOp_preserves_inv w op hwf hinv)

/-- **C1** witness: a concrete well-formed world satisfying the invariant,
pushed through a create-then-cancel-then-reschedule sequence. -/
theorem C1_capacity_invariant_amended_witness :
    WFState cw1a ∧ capacityInv cw1a ∧
    capacityInv (applySafeOps cw1a
      [SafeOp.cancel 1, SafeOp.refund "C1A" (some 100) true,
       SafeOp.reschedule 1 1 none]) :=
  ⟨wf_cw1a, capacityInv_cw1a,
    C1_capacity_invariant_amended cw1a
      [SafeOp.cancel 1, SafeOp.refund "C1A" (some 100) true,
       SafeOp.reschedule 1 1 none] wf_cw1a capacityInv_cw1a⟩

/-- **C1** counterexample: the claim as stated is false — the quantity-update
sub-operation can drive a well-formed, invariant-satisfying state into one
that violates the total bound (scenario A: boat total 10, per-type capacity
unrestricted, a confirmed booking of 10 raised to 15) and into one that
violates the per-type bound (scenario B: per-type capacity 6, a confirmed
two-trip booking of 5 + 5 whose first item is raised to 11; the self-exclusion
is keyed by boat and type only, so the check passes). -/
theorem C1_counterexample :
    ((WFState cw1a ∧ capacityInv cw1a) ∧
      (updateBooking cw1a 1 (qtyPayload 15)).2 = none ∧
      ({ id := 1, trip_id := 1, boat_id := 1, max_capacity := none,
         use_only_trip_pricing := false } : TripBoat) ∈
        (updateBooking cw1a 1 (qtyPayload 15)).1.tripBoats ∧
      ¬(paidCountByBoat (updateBooking cw1a 1 (qtyPayload 15)).1 1 1 ≤
        effectiveMaxCapacity (updateBooking cw1a 1 (qtyPayload 15)).1
          { id := 1, trip_id := 1, boat_id := 1, max_capacity := none,
            use_only_trip_pricing := false })) ∧
    ((WFState cw1b ∧ capacityInv cw1b) ∧
      (updateBooking cw1b 1 (qtyPayload 11)).2 = none ∧
      effCapEntry (updateBooking cw1b 1 (qtyPayload 11)).1 1 1 "adult" =
        some (some 6) ∧
      ¬(paidCountByBoatType (updateBooking cw1b 1 (qtyPayload 11)).1 1 1 "adult"
        ≤ 6)) :=
  ⟨⟨⟨wf_cw1a, capacityInv_cw1a⟩, by decide, by decide, by decide⟩,
   ⟨⟨wf_cw1b, capacityInv_cw1b⟩, by decide, by decide, by decide⟩⟩

/-! ## Concrete scenarios for claims C2 and C7 -/

/-- A world representing the state right after a first check-in: the booking
is checked_in, its merchandise item fulfilled, and the variation's
`quantity_fulfilled` already counts it once. -/
def cw7 : World :=
  { missions := [{ id := 1, active := true, launch_id := 1 }],
    trips := [{ id := 1, mission_id := 1, active := true, mode := "public" }],
    boats := [{ id := 1, capacity := 10 }],
    tripBoats := [{ id := 1, trip_id := 1, boat_id := 1, max_capacity := none,
                    use_only_trip_pricing := false }],
    boatPricings := [], tripBoatPricings := [],
    merch := [{ id := 1, price := 500 }],
    variations := [{ id := 1, merchandise_id := 1, variant_value := "M",
                     quantity_total := 5, quantity_sold := 1,
                     quantity_fulfilled := 1 }],
    tripMerch := [{ id := 1, trip_id := 1, merchandise_id := 1,
                    quantity_available_override := none, price_override := none }],
    discountCodes := [], launches := [{ id := 1, location_id := 1 }],
    jurisdictions := [],
    bookings := [{ id := 1, confirmation_code := "C7", booking_status := .checked_in,
                   payment_status := some .paid, subtotal := 500,
                   discount_amount := 0, tax_amount := 0, tip_amount := 0,
                   total_amount := 500, refunded_amount_cents := 0,
                   has_payment_intent := false }],
    items := [{ id := 1, booking_id := 1, trip_id := 1, boat_id := 1,
                trip_merchandise_id := some 1, merchandise_variation_id := some 1,
                item_type := "Tee", quantity := 1, price_per_unit := 500,
                status := .fulfilled }] }

/-- **C7**: re-checking-in an already-checked-in booking (same trip/boat
context) increments `quantity_fulfilled` a second time — the code accepts the
re-check-in but then unconditionally adds every item's quantity again, so
the counter goes from 1 to 2 instead of staying at 1. -/
theorem C7_double_checkin_increments :
    cw7.variations.map (fun v => v.quantity_fulfilled) = [1] ∧
    (checkInBooking cw7 "C7" (some (1, 1))).2 = none ∧
    (checkInBooking cw7 "C7" (some (1, 1))).1.variations.map
      (fun v => v.quantity_fulfilled) = [2] := by
  refine ⟨by decide, by decide, by decide⟩

/-- A world with merchandise inventory and no bookings, ready for a creation
request. -/
def cw2 : World :=
  { missions := [{ id := 1, active := true, launch_id := 1 }],
    trips := [{ id := 1, mission_id := 1, active := true, mode := "public" }],
    boats := [{ id := 1, capacity := 10 }],
    tripBoats := [{ id := 1, trip_id := 1, boat_id := 1, max_capacity := none,
                    use_only_trip_pricing := false }],
    boatPricings := [], tripBoatPricings := [],
    merch := [{ id := 1, price := 500 }],
    variations := [{ id := 1, merchandise_id := 1, variant_value := "M",
                     quantity_total := 5, quantity_sold := 0,
                     quantity_fulfilled := 0 }],
    tripMerch := [{ id := 1, trip_id := 1, merchandise_id := 1,
                    quantity_available_override := none, price_override := none }],
    discountCodes := [], launches := [{ id := 1, location_id := 1 }],
    jurisdictions := [], bookings := [], items := [] }

/-- A valid creation request with one merchandise item (variant M, qty 2). -/
def inp2 : BookingInput :=
  { confirmation_code := "NEW", subtotal := 1000, discount_amount := 0,
    tax_amount := 0, tip_amount := 0, total_amount := 1000,
    discount_code_id := none,
    items := [{ trip_id := 1, boat_id := 1, trip_merchandise_id := some 1,
                item_type := "Tee", quantity := 2, price_per_unit := 500,
                variant_option := some "M" }] }

/-- **C2**: booking creation is not atomic.  The booking and its items are
committed first; when the merchandise inventory commit then fails, the
creation raises but the booking and its item stay persisted with
`quantity_sold` unchanged — exactly the partial booking the claim rules out.
(The same input with a succeeding inventory commit reserves 2 units.) -/
theorem C2_partial_booking_persists :
    (createBooking cw2 inp2 false false).2 = some Err.inventoryCommitFailed ∧
    (createBooking cw2 inp2 false false).1.bookings.map
      (fun b => b.confirmation_code) = ["NEW"] ∧
    (createBooking cw2 inp2 false false).1.items.length = 1 ∧
    (createBooking cw2 inp2 false false).1.variations.map
      (fun v => v.quantity_sold) = [0] ∧
    (createBooking cw2 inp2 false true).1.variations.map
      (fun v => v.quantity_sold) = [2] := by
  refine ⟨by decide, by decide, by decide, by decide, by decide⟩

/-! ## Claim C3: the booking-status state machine over `update_booking` -/

/-- A pure status-update request (every other field unset). -/
def statusPayload (ns : BookingStatus) : UpdatePayload :=
  { booking_status := some ns }

/-- The booking of `cw1a`, spelled out for reuse in concrete instantiations. -/
def bk1a : Booking :=
  { id := 1, confirmation_code := "C1A",
    booking_status := .confirmed, payment_status := some .paid,
    subtotal := 50000, discount_amount := 0, tax_amount := 0,
    tip_amount := 0, total_amount := 50000,
    refunded_amount_cents := 0, has_payment_intent := false }

/-- An accepted pure status update rewrites the booking in place: the status
becomes the requested one and the payment status is the payload-derived
default; nothing outside the bookings and items lists changes. -/
theorem updateBooking_status_shape (w : World) (bid : Nat) (ns : BookingStatus)
    (b : Booking) (hb : w.getBooking bid = some b)
    (hnci : b.booking_status ≠ BookingStatus.checked_in)
    (hok : ns = b.booking_status ∨ allowedTransition b.booking_status ns = true) :
    ∃ ps its2, updateBooking w bid (statusPayload ns) =
      ({ w with
          bookings := w.bookings.map (fun x =>
            if x.id == b.id then
              { b with booking_status := ns, payment_status := ps } else x),
          items := its2 }, none) := by
  have hci2 : (b.booking_status == BookingStatus.checked_in) = false := by
    simp [hnci]
  by_cases hsame : (ns == b.booking_status) = true
  · have hns : ns = b.booking_status := by simpa using hsame
    subst hns
    by_cases hcanc : (b.booking_status == BookingStatus.cancelled) = true
    · refine ⟨b.payment_status,
        w.items.map (fun i =>
          if i.booking_id == b.id then
            { i with status :=
                if b.payment_status == some PaymentStatus.refunded
                    || b.payment_status == some PaymentStatus.partially_refunded
                then ItemStatus.refunded else ItemStatus.active }
          else i), ?_⟩
      simp [updateBooking, statusPayload, UpdatePayload.isEmpty, hb, hci2,
        hcanc]
    · refine ⟨b.payment_status, w.items, ?_⟩
      simp [updateBooking, statusPayload, UpdatePayload.isEmpty, hb, hci2,
        hcanc]
  · have hallow : allowedTransition b.booking_status ns = true := by
      rcases hok with hns | h
      · exact absurd (by simp [hns]) hsame
      · exact h
    by_cases hcanc : (ns == BookingStatus.cancelled) = true
    · refine ⟨some PaymentStatus.failed,
        w.items.map (fun i =>
          if i.booking_id == b.id then { i with status := ItemStatus.active }
          else i), ?_⟩
      simp [updateBooking, statusPayload, UpdatePayload.isEmpty, hb, hci2,
        hsame, hcanc, hallow]
    · refine ⟨b.payment_status, w.items, ?_⟩
      simp [updateBooking, statusPayload, UpdatePayload.isEmpty, hb, hci2,
        hsame, hcanc, hallow]

/-- **C3** (amended).  For a booking that is not checked_in, a pure
status-update request is rejected (state unchanged) exactly when it asks for a
proper transition outside the table draft→{confirmed, cancelled},
confirmed→{checked_in, cancelled}, checked_in→{completed, cancelled},
completed→{cancelled}; requesting the current status or an allowed transition
succeeds and the booking carries the requested status afterwards.  A
checked_in booking, however, rejects every update — including its two
table-permitted outgoing transitions, contrary to the claim. -/
theorem C3_status_transitions_amended (w : World) (bid : Nat)
    (ns : BookingStatus) (b : Booking) (hb : w.getBooking bid = some b) :
    (b.booking_status = BookingStatus.checked_in →
      updateBooking w bid (statusPayload ns) = (w, some Err.checkedInLocked)) ∧
    (b.booking_status ≠ BookingStatus.checked_in →
      (ns ≠ b.booking_status → allowedTransition b.booking_status ns = false →
        updateBooking w bid (statusPayload ns) =
          (w, some Err.invalidTransition)) ∧
      ((ns = b.booking_status ∨ allowedTransition b.booking_status ns = true) →
        (updateBooking w bid (statusPayload ns)).2 = none ∧
        ((updateBooking w bid (statusPayload ns)).1.getBooking bid).map
          (fun x => x.booking_status) = some ns)) := by
  have hb2 : w.bookings.find? (fun x => x.id == bid) = some b := hb
  have hpb := List.find?_some hb2
  have hbid : b.id = bid := by simpa using hpb
  constructor
  · intro hci
    simp [updateBooking, statusPayload, UpdatePayload.isEmpty, hb, hci]
  · intro hnci
    have hci2 : (b.booking_status == BookingStatus.checked_in) = false := by
      simp [hnci]
    constructor
    · intro hne hallow
      have hne2 : (ns == b.booking_status) = false := by simp [hne]
      simp [updateBooking, statusPayload, UpdatePayload.isEmpty, hb, hci2,
        hne2, hallow]
    · intro hacc
      obtain ⟨ps, its2, hrun⟩ :=
        updateBooking_status_shape w bid ns b hb hnci hacc
      rw [hrun]
      refine ⟨rfl, ?_⟩
      show ((w.bookings.map (fun x =>
        if x.id == b.id then
          { b with booking_status := ns, payment_status := ps } else x)).find?
        (fun x => x.id == bid)).map (fun x => x.booking_status) = some ns
      rw [find?_map_pres _ _ _ (by
        intro a
        by_cases ha : (a.id == b.id) = true
        · have ha2 : a.id = b.id := by simpa using ha
          simp [ha, ha2, hbid]
        · simp [ha])]
      have : w.bookings.find? (fun x => x.id == bid) = some b := hb
      rw [this]
      simp

/-- **C3** counterexample: the transition table itself permits
checked_in→completed and checked_in→cancelled, but `update_booking` rejects
any request on a checked_in booking before consulting the table, so neither
transition is reachable through it — contradicting the claim that a
checked_in booking "still admits its two permitted outgoing status
transitions". -/
theorem C3_counterexample :
    allowedTransition BookingStatus.checked_in BookingStatus.completed = true ∧
    allowedTransition BookingStatus.checked_in BookingStatus.cancelled = true ∧
    updateBooking cw7 1 (statusPayload BookingStatus.completed) =
      (cw7, some Err.checkedInLocked) ∧
    updateBooking cw7 1 (statusPayload BookingStatus.cancelled) =
      (cw7, some Err.checkedInLocked) :=
  ⟨by decide, by decide, by decide, by decide⟩

/-- **C3** witness: the amended theorem applied to the confirmed booking of
`cw1a`, requesting the allowed transition to cancelled. -/
theorem C3_status_transitions_amended_witness :
    (updateBooking cw1a 1 (statusPayload BookingStatus.cancelled)).2 = none ∧
    ((updateBooking cw1a 1
        (statusPayload BookingStatus.cancelled)).1.getBooking 1).map
      (fun x => x.booking_status) = some BookingStatus.cancelled :=
  ((C3_status_transitions_amended cw1a 1 BookingStatus.cancelled bk1a
      (by decide)).2 (by decide)).2 (Or.inr (by decide))

/-! ## Claim C8: payment-status sync on administrative cancellation -/

/-- **C8** (amended).  Administratively cancelling a booking (a payload that
sets cancelled and carries no payment_status) always succeeds on a
non-checked_in, non-cancelled booking and sets payment_status to failed
unconditionally — even when it was already refunded or partially_refunded —
and every item of the booking is set to active (the resulting payment status
being failed), other items untouched. -/
theorem C8_admin_cancel_amended (w : World) (bid : Nat) (b : Booking)
    (hb : w.getBooking bid = some b)
    (hnc : b.booking_status ≠ BookingStatus.checked_in)
    (hnx : b.booking_status ≠ BookingStatus.cancelled) :
    updateBooking w bid cancelPayload =
      ({ w with
          bookings := w.bookings.map (fun x =>
            if x.id == b.id then
              { b with booking_status := BookingStatus.cancelled,
                       payment_status := some PaymentStatus.failed }
            else x),
          items := w.items.map (fun i =>
            if i.booking_id == b.id then { i with status := ItemStatus.active }
            else i) }, none) := by
  cases hbs : b.booking_status with
  | checked_in => exact absurd hbs hnc
  | cancelled => exact absurd hbs hnx
  | draft =>
    simp [updateBooking, cancelPayload, UpdatePayload.isEmpty, hb, hbs,
      allowedTransition]
  | confirmed =>
    simp [updateBooking, cancelPayload, UpdatePayload.isEmpty, hb, hbs,
      allowedTransition]
  | completed =>
    simp [updateBooking, cancelPayload, UpdatePayload.isEmpty, hb, hbs,
      allowedTransition]

/-- A world whose confirmed booking is already partially refunded. -/
def cw8 : World :=
  { missions := [{ id := 1, active := true, launch_id := 1 }],
    trips := [{ id := 1, mission_id := 1, active := true, mode := "public" }],
    boats := [{ id := 1, capacity := 10 }],
    tripBoats := [{ id := 1, trip_id := 1, boat_id := 1, max_capacity := none,
                    use_only_trip_pricing := false }],
    boatPricings := [{ boat_id := 1, ticket_type := "adult", price := 5000,
                       capacity := 0 }],
    tripBoatPricings := [], merch := [], variations := [], tripMerch := [],
    discountCodes := [], launches := [{ id := 1, location_id := 1 }],
    jurisdictions := [],
    bookings := [{ id := 1, confirmation_code := "C8",
                   booking_status := .confirmed,
                   payment_status := some .partially_refunded,
                   subtotal := 5000, discount_amount := 0, tax_amount := 0,
                   tip_amount := 0, total_amount := 5000,
                   refunded_amount_cents := 1000, has_payment_intent := false }],
    items := [{ id := 1, booking_id := 1, trip_id := 1, boat_id := 1,
                trip_merchandise_id := none, merchandise_variation_id := none,
                item_type := "adult", quantity := 1, price_per_unit := 5000,
                status := .active }] }

/-- **C8** counterexample: cancelling an already partially_refunded booking
without a payment_status in the payload overwrites its payment_status with
failed (the claim says failed is set only when not already
refunded/partially_refunded) and marks its items active rather than refunded
(the claim keys the item status off the pre-existing partial refund). -/
theorem C8_counterexample :
    cw8.bookings.map (fun x => x.payment_status) =
      [some PaymentStatus.partially_refunded] ∧
    (updateBooking cw8 1 cancelPayload).2 = none ∧
    (updateBooking cw8 1 cancelPayload).1.bookings.map
      (fun x => x.payment_status) = [some PaymentStatus.failed] ∧
    (updateBooking cw8 1 cancelPayload).1.items.map (fun i => i.status) =
      [ItemStatus.active] :=
  ⟨by decide, by decide, by decide, by decide⟩

/-- **C8** witness: the amended theorem applied to the confirmed booking of
`cw1a`. -/
theorem C8_admin_cancel_amended_witness :
    updateBooking cw1a 1 cancelPayload =
      ({ cw1a with
          bookings := cw1a.bookings.map (fun x =>
            if x.id == bk1a.id then
              { bk1a with booking_status := BookingStatus.cancelled,
                          payment_status := some PaymentStatus.failed }
            else x),
          items := cw1a.items.map (fun i =>
            if i.booking_id == bk1a.id then
              { i with status := ItemStatus.active }
            else i) }, none) :=
  C8_admin_cancel_amended cw1a 1 bk1a (by decide) (by decide) (by decide)

/-! ## Claim C9: reschedule frame and preconditions -/

/-- **C9**.  A successful reschedule implies every precondition of the claim
— booking found and not checked_in, target trip exists, is active and shares
the booking's mission, a unique/validated target boat with an association row,
destination per-type capacity and total capacity accommodate the booking's
full ticket quantities on top of existing paid counts — and the effect is a
pure in-place retarget of the ticket items: only `items` changes, each ticket
item of the booking moves to the target (trip, boat), merchandise items are
untouched, and every item keeps its id, price_per_unit, quantity and status
(bookings — hence subtotal, tax, total — are not recomputed). -/
theorem C9_reschedule_frame (w : World) (bid tt : Nat) (bt? : Option Nat)
    (hsucc : (rescheduleBooking w bid tt bt?).2 = none) :
    ∃ b target target_boat tbF,
      w.getBooking bid = some b ∧
      b.booking_status ≠ BookingStatus.checked_in ∧
      w.getTrip tt = some target ∧
      target.active = true ∧
      (∃ first firstTrip,
        firstDisplayTicket ((w.itemsOfBooking b.id).filter
          (fun i => i.trip_merchandise_id == none)) = some first ∧
        w.getTrip first.trip_id = some firstTrip ∧
        target.mission_id = firstTrip.mission_id) ∧
      chooseTargetBoat (w.tripBoatsByTrip tt) bt? = .ok target_boat ∧
      (w.tripBoatsByTrip tt).find? (fun tb => tb.boat_id == target_boat) =
        some tbF ∧
      checkRescheduleTypeCapacity w ((w.itemsOfBooking b.id).filter
        (fun i => i.trip_merchandise_id == none)) tt target_boat = none ∧
      paidCountByBoat w tt target_boat +
        (((w.itemsOfBooking b.id).filter
          (fun i => i.trip_merchandise_id == none)).map
            (fun i => i.quantity)).sum ≤ effectiveMaxCapacity w tbF ∧
      (rescheduleBooking w bid tt bt?).1 =
        { w with items := w.items.map (fun i =>
            if i.booking_id == b.id && i.trip_merchandise_id == none then
              { i with trip_id := tt, boat_id := target_boat }
            else i) } ∧
      (rescheduleBooking w bid tt bt?).1.bookings = w.bookings ∧
      (∀ i ∈ w.items, i.trip_merchandise_id ≠ none →
        i ∈ (rescheduleBooking w bid tt bt?).1.items) ∧
      (rescheduleBooking w bid tt bt?).1.items.map
          (fun i => (i.id, i.price_per_unit, i.quantity, i.status)) =
        w.items.map (fun i => (i.id, i.price_per_unit, i.quantity, i.status)) := by
  cases hb : w.getBooking bid with
  | none => exfalso; revert hsucc; simp [rescheduleBooking, hb]
  | some b =>
    by_cases hst : (b.booking_status == BookingStatus.checked_in) = true
    · exfalso; revert hsucc; simp [rescheduleBooking, hb, hst]
    cases hfirst : firstDisplayTicket ((w.itemsOfBooking b.id).filter
        (fun i => i.trip_merchandise_id == none)) with
    | none =>
      exfalso; revert hsucc; simp [rescheduleBooking, hb, hst, hfirst]
    | some first =>
      cases htt : w.getTrip tt with
      | none =>
        exfalso; revert hsucc; simp [rescheduleBooking, hb, hst, hfirst, htt]
      | some target =>
        by_cases hact : target.active = true
        case neg =>
          exfalso; revert hsucc
          simp [rescheduleBooking, hb, hst, hfirst, htt, hact]
        cases hft : w.getTrip first.trip_id with
        | none =>
          exfalso; revert hsucc
          simp [rescheduleBooking, hb, hst, hfirst, htt, hact, hft]
        | some firstTrip =>
          by_cases hmis : (target.mission_id != firstTrip.mission_id) = true
          case pos =>
            exfalso; revert hsucc
            simp [rescheduleBooking, hb, hst, hfirst, htt, hact, hft, hmis]
          cases hstep : chooseTargetBoat (w.tripBoatsByTrip tt) bt? with
          | error e =>
            exfalso; revert hsucc
            simp [rescheduleBooking, hb, hst, hfirst, htt, hact, hft, hmis,
              hstep]
          | ok target_boat =>
            obtain ⟨tbF, htbF⟩ :=
              chooseTargetBoat_find (w.tripBoatsByTrip tt) bt? target_boat hstep
            cases hcap : checkRescheduleTypeCapacity w
                ((w.itemsOfBooking b.id).filter
                  (fun i => i.trip_merchandise_id == none)) tt target_boat with
            | some e =>
              exfalso; revert hsucc
              simp [rescheduleBooking, hb, hst, hfirst, htt, hact, hft, hmis,
                hstep, hcap]
            | none =>
              by_cases hover : (paidCountByBoat w tt target_boat +
                  (((w.itemsOfBooking b.id).filter
                    (fun i => i.trip_merchandise_id == none)).map
                      (fun i => i.quantity)).sum >
                  effectiveMaxCapacity w tbF)
              · exfalso; revert hsucc
                simp only [rescheduleBooking, hb, hst, Bool.false_eq_true,
                  if_false, hfirst, htt, hact, Bool.not_true, hft, hmis,
                  hstep, hcap, htbF]
                rw [if_pos hover]
                simp
              · have heq : rescheduleBooking w bid tt bt? =
                    ({ w with items := w.items.map (fun i =>
                        if i.booking_id == b.id
                            && i.trip_merchandise_id == none then
                          { i with trip_id := tt, boat_id := target_boat }
                        else i) }, none) := by
                  unfold rescheduleBooking
                  simp only [hb, hst, Bool.false_eq_true, if_false, hfirst,
                    htt, hact, Bool.not_true, hft, hmis, hstep, hcap, htbF]
                  rw [if_neg hover]
                have hmis2 : target.mission_id = firstTrip.mission_id := by
                  simpa using hmis
                have hitems : (rescheduleBooking w bid tt bt?).1.items =
                    w.items.map (fun i =>
                      if i.booking_id == b.id
                          && i.trip_merchandise_id == none then
                        { i with trip_id := tt, boat_id := target_boat }
                      else i) := by
                  rw [heq]
                refine ⟨b, target, target_boat, tbF, rfl, ?_, rfl, hact,
                  ⟨first, firstTrip, hfirst, hft, hmis2⟩, rfl, htbF, hcap,
                  by omega, by rw [heq], by rw [heq], ?_, ?_⟩
                · intro hcontra
                  exact hst (by simp [hcontra])
                · intro i hi hm
                  rw [hitems]
                  have hcond : (i.booking_id == b.id
                      && i.trip_merchandise_id == none) = false := by
                    simp [hm]
                  have h2 := List.mem_map_of_mem (fun i =>
                    if i.booking_id == b.id && i.trip_merchandise_id == none
                    then { i with trip_id := tt, boat_id := target_boat }
                    else i) hi
                  simp only [hcond, Bool.false_eq_true, if_false] at h2
                  exact h2
                · rw [hitems, List.map_map]
                  apply List.map_congr_left
                  intro i hi
                  by_cases hc : (i.booking_id == b.id
                      && i.trip_merchandise_id == none) = true
                  · simp [Function.comp, hc]
                  · simp [Function.comp, hc]

/-- A world with two same-mission trips on one boat, and a confirmed booking
with one ticket item on trip 1 and one merchandise item, ready to be
rescheduled to trip 2. -/
def cw9 : World :=
  { missions := [{ id := 1, active := true, launch_id := 1 }],
    trips := [{ id := 1, mission_id := 1, active := true, mode := "public" },
              { id := 2, mission_id := 1, active := true, mode := "public" }],
    boats := [{ id := 1, capacity := 10 }],
    tripBoats := [{ id := 1, trip_id := 1, boat_id := 1, max_capacity := none,
                    use_only_trip_pricing := false },
                  { id := 2, trip_id := 2, boat_id := 1, max_capacity := none,
                    use_only_trip_pricing := false }],
    boatPricings := [{ boat_id := 1, ticket_type := "adult", price := 5000,
                       capacity := 0 }],
    tripBoatPricings := [],
    merch := [{ id := 1, price := 500 }],
    variations := [{ id := 1, merchandise_id := 1, variant_value := "M",
                     quantity_total := 5, quantity_sold := 1,
                     quantity_fulfilled := 0 }],
    tripMerch := [{ id := 1, trip_id := 1, merchandise_id := 1,
                    quantity_available_override := none,
                    price_override := none }],
    discountCodes := [], launches := [{ id := 1, location_id := 1 }],
    jurisdictions := [],
    bookings := [{ id := 1, confirmation_code := "C9",
                   booking_status := .confirmed, payment_status := some .paid,
                   subtotal := 15500, discount_amount := 0, tax_amount := 0,
                   tip_amount := 0, total_amount := 15500,
                   refunded_amount_cents := 0, has_payment_intent := false }],
    items := [{ id := 1, booking_id := 1, trip_id := 1, boat_id := 1,
                trip_merchandise_id := none, merchandise_variation_id := none,
                item_type := "adult", quantity := 3, price_per_unit := 5000,
                status := .active },
              { id := 2, booking_id := 1, trip_id := 1, boat_id := 1,
                trip_merchandise_id := some 1, merchandise_variation_id := some 1,
                item_type := "Tee", quantity := 1, price_per_unit := 500,
                status := .active }] }

/-- **C9** witness: rescheduling the `cw9` booking to trip 2 succeeds, and
the theorem yields that the bookings list (money fields included) is
untouched. -/
theorem C9_reschedule_frame_witness :
    (rescheduleBooking cw9 1 2 none).2 = none ∧
    (rescheduleBooking cw9 1 2 none).1.bookings = cw9.bookings := by
  obtain ⟨b, target, tbt, tbF, h1, h2, h3, h4, h5, h6, h7, h8, h9, h10, h11,
    h12, h13⟩ := C9_reschedule_frame cw9 1 2 none (by decide)
  exact ⟨by decide, h11⟩

/-! ## Claim C10: administrative capacity floor -/

/-- **C10**.  Each administrative capacity mutation enforces the paid-count
floor: creating a trip-boat with a custom capacity succeeds iff the new
capacity is at least the paid ticket count of the (trip, boat) (so shrinking
to exactly the floor is allowed); updating a trip-boat's custom capacity
succeeds iff it is at least the paid count of its (trip, boat); updating a
boat's default capacity succeeds iff every trip-boat of the boat inheriting
the default (max_capacity unset) has paid count at most the new value; each
rejection leaves the state unchanged and is the capacity-floor error; and in
a state where every booking is draft the paid count — the floor — is zero. -/
theorem C10_admin_capacity_floor (w : World) (tid bid0 tbid : Nat) (c : Int)
    (uo : Bool) (p : TripBoatUpdatePayload) (t : Trip) (bt : Boat)
    (tb : TripBoat)
    (ht : w.getTrip tid = some t) (hbt : w.getBoat bid0 = some bt)
    (htb : w.getTripBoat tbid = some tb)
    (hpt : p.trip_id = none) (hpb : p.boat_id = none)
    (hpc : p.max_capacity = some c) (hc1 : 1 ≤ c) :
    ((createTripBoat w tid bid0 (some c) uo).2 = none ↔
      paidCountByBoat w tid bid0 ≤ c) ∧
    ((createTripBoat w tid bid0 (some c) uo).2 ≠ none →
      createTripBoat w tid bid0 (some c) uo =
        (w, some Err.capacityBelowBooked)) ∧
    ((updateTripBoat w tbid p).2 = none ↔
      paidCountByBoat w tb.trip_id tb.boat_id ≤ c) ∧
    ((updateTripBoat w tbid p).2 ≠ none →
      updateTripBoat w tbid p = (w, some Err.capacityBelowBooked)) ∧
    ((updateBoatCapacity w bid0 (some c)).2 = none ↔
      ∀ tb2 ∈ w.tripBoatsByBoat bid0, tb2.max_capacity = none →
        paidCountByBoat w tb2.trip_id bid0 ≤ c) ∧
    ((updateBoatCapacity w bid0 (some c)).2 ≠ none →
      (updateBoatCapacity w bid0 (some c)).1 = w) ∧
    ((∀ bk ∈ w.bookings, bk.booking_status = BookingStatus.draft) →
      paidCountByBoat w tid bid0 = 0) := by
  refine ⟨?_, ?_, ?_, ?_, ?_, ?_, ?_⟩
  · by_cases hlt : c < paidCountByBoat w tid bid0
    · have h1 : createTripBoat w tid bid0 (some c) uo =
          (w, some Err.capacityBelowBooked) := by
        simp [createTripBoat, ht, hbt, hlt]
      rw [h1]
      constructor
      · intro hcontra; exact absurd hcontra (by simp)
      · intro hle; omega
    · have h1 : (createTripBoat w tid bid0 (some c) uo).2 = none := by
        simp [createTripBoat, ht, hbt, hlt]
      rw [h1]
      constructor
      · intro _; omega
      · intro _; rfl
  · by_cases hlt : c < paidCountByBoat w tid bid0
    · intro _
      simp [createTripBoat, ht, hbt, hlt]
    · intro hne
      exfalso
      apply hne
      simp [createTripBoat, ht, hbt, hlt]
  · by_cases hlt : c < paidCountByBoat w tb.trip_id tb.boat_id
    · have h1 : updateTripBoat w tbid p =
          (w, some Err.capacityBelowBooked) := by
        simp [updateTripBoat, htb, hpt, hpb, hpc, hlt]
      rw [h1]
      constructor
      · intro hcontra; exact absurd hcontra (by simp)
      · intro hle; omega
    · have h1 : (updateTripBoat w tbid p).2 = none := by
        simp [updateTripBoat, htb, hpt, hpb, hpc, hlt]
      rw [h1]
      constructor
      · intro _; omega
      · intro _; rfl
  · by_cases hlt : c < paidCountByBoat w tb.trip_id tb.boat_id
    · intro _
      simp [updateTripBoat, htb, hpt, hpb, hpc, hlt]
    · intro hne
      exfalso
      apply hne
      simp [updateTripBoat, htb, hpt, hpb, hpc, hlt]
  · have hiff : (firstErr (w.tripBoatsByBoat bid0) (fun tb2 =>
        match tb2.max_capacity with
        | some _ => none
        | none =>
          if paidCountByBoat w tb2.trip_id bid0 > c then
            some Err.capacityBelowBooked
          else none) = none) ↔
        ∀ tb2 ∈ w.tripBoatsByBoat bid0, tb2.max_capacity = none →
          paidCountByBoat w tb2.trip_id bid0 ≤ c := by
      rw [firstErr_eq_none_iff]
      constructor
      · intro h tb2 htb2 hmax
        have := h tb2 htb2
        rw [hmax] at this
        by_contra hgt
        rw [if_pos (by omega)] at this
        exact absurd this (by simp)
      · intro h tb2 htb2
        cases hmax : tb2.max_capacity with
        | some _ => rfl
        | none =>
          have := h tb2 htb2 hmax
          rw [if_neg (by omega)]
    cases hfs : firstErr (w.tripBoatsByBoat bid0) (fun tb2 =>
        match tb2.max_capacity with
        | some _ => none
        | none =>
          if paidCountByBoat w tb2.trip_id bid0 > c then
            some Err.capacityBelowBooked
          else none) with
    | none =>
      have h1 : (updateBoatCapacity w bid0 (some c)).2 = none := by
        simp only [updateBoatCapacity, hbt]
        rw [if_neg (by omega)]
        rw [hfs]
      rw [h1]
      constructor
      · intro _; exact hiff.mp hfs
      · intro _; rfl
    | some e =>
      have h1 : updateBoatCapacity w bid0 (some c) = (w, some e) := by
        simp only [updateBoatCapacity, hbt]
        rw [if_neg (by omega)]
        rw [hfs]
      rw [h1]
      constructor
      · intro hcontra; exact absurd hcontra (by simp)
      · intro h
        have := hiff.mpr h
        rw [hfs] at this
        exact absurd this (by simp)
  · cases hfs : firstErr (w.tripBoatsByBoat bid0) (fun tb2 =>
        match tb2.max_capacity with
        | some _ => none
        | none =>
          if paidCountByBoat w tb2.trip_id bid0 > c then
            some Err.capacityBelowBooked
          else none) with
    | none =>
      intro hne
      exfalso
      apply hne
      simp only [updateBoatCapacity, hbt]
      rw [if_neg (by omega)]
      rw [hfs]
    | some e =>
      intro _
      have h1 : updateBoatCapacity w bid0 (some c) = (w, some e) := by
        simp only [updateBoatCapacity, hbt]
        rw [if_neg (by omega)]
        rw [hfs]
      rw [h1]
  · intro hall
    unfold paidCountByBoat
    apply sum_map_zero
    intro i hi
    by_cases hk : (i.trip_id == tid && i.boat_id == bid0) = true
    · rw [if_pos hk]
      unfold paidContrib
      cases hf : w.bookings.find? (fun bk => bk.id == i.booking_id) with
      | none => simp [hf]
      | some bk =>
        have hmem := List.mem_of_find?_eq_some hf
        have hdraft := hall bk hmem
        simp [hf, isPaidBooking, hdraft]
    · rw [if_neg hk]

/-- **C10** witness: with the paid count of `cw1a`'s (trip 1, boat 1) equal
to 10, all three mutations are accepted at capacity exactly 10 — the floor
itself. -/
theorem C10_admin_capacity_floor_witness :
    (createTripBoat cw1a 1 1 (some 10) false).2 = none ∧
    (updateTripBoat cw1a 1 { max_capacity := some 10 }).2 = none ∧
    (updateBoatCapacity cw1a 1 (some 10)).2 = none := by
  have h := C10_admin_capacity_floor cw1a 1 1 1 10 false
    { max_capacity := some 10 }
    { id := 1, mission_id := 1, active := true, mode := "public" }
    { id := 1, capacity := 10 }
    { id := 1, trip_id := 1, boat_id := 1, max_capacity := none,
      use_only_trip_pricing := false }
    (by decide) (by decide) (by decide) rfl rfl rfl (by decide)
  refine ⟨h.1.mpr (by decide), h.2.2.1.mpr (by decide), h.2.2.2.2.1.mpr ?_⟩
  intro tb2 htb2 hmax
  have hl : cw1a.tripBoatsByBoat 1 =
      [{ id := 1, trip_id := 1, boat_id := 1, max_capacity := none,
         use_only_trip_pricing := false }] := by decide
  rw [hl] at htb2
  rcases List.mem_singleton.mp htb2 with rfl
  decide

/-! ## Claim C6: ticket price-mismatch rejection at creation -/

/-- Merchandise validation never produces the ticket price-mismatch error. -/
theorem merchItemCheck_ne_priceMismatch (w : World) (it : ItemInput)
    (tmid : Nat) :
    merchItemCheck w it tmid ≠ some Err.ticketPriceMismatch := by
  intro h
  unfold merchItemCheck at h
  repeat first
  | exact absurd h (by decide)
  | split at h
  | simp only [] at h

/-- **C6** (amended).  Per ticket item, acceptance holds iff the resolved
price equals the submitted `price_per_unit` exactly, the no-pricing error is
raised iff the resolution yields nothing, and a resolved price differing from
the submitted one yields the price-mismatch error — but "resolved" follows
Python's falsy `or`: a configured exact-type price that is non-zero is used
directly, while a configured price of 0 (and an absent type) falls through to
the `"_ticket"`-suffix-stripped lookup, so a zero-priced type whose stripped
lookup misses is rejected as unpriced even though pricing is configured.
Within booking creation, the price-mismatch error always traces back to such
a ticket item. -/
theorem C6_price_mismatch_amended (w : World) (it : ItemInput) (q : Int)
    (items : List ItemInput) :
    (ticketPriceCheck w it = none ↔
      resolveTicketPrice w it.trip_id it.boat_id it.item_type =
        some it.price_per_unit) ∧
    (ticketPriceCheck w it = some Err.noPricingForType ↔
      resolveTicketPrice w it.trip_id it.boat_id it.item_type = none) ∧
    (resolveTicketPrice w it.trip_id it.boat_id it.item_type = some q →
      q ≠ it.price_per_unit →
      ticketPriceCheck w it = some Err.ticketPriceMismatch) ∧
    (priceByType w it.trip_id it.boat_id it.item_type = some q → q ≠ 0 →
      resolveTicketPrice w it.trip_id it.boat_id it.item_type = some q) ∧
    (priceByType w it.trip_id it.boat_id it.item_type = some 0 →
      resolveTicketPrice w it.trip_id it.boat_id it.item_type =
        priceByType w it.trip_id it.boat_id (strReplaceTicket it.item_type)) ∧
    (priceByType w it.trip_id it.boat_id it.item_type = none →
      resolveTicketPrice w it.trip_id it.boat_id it.item_type =
        priceByType w it.trip_id it.boat_id (strReplaceTicket it.item_type)) ∧
    (checkPricingAndInventory w items = some Err.ticketPriceMismatch →
      ∃ it2 ∈ items, it2.trip_merchandise_id = none ∧
        ticketPriceCheck w it2 = some Err.ticketPriceMismatch) := by
  refine ⟨?_, ?_, ?_, ?_, ?_, ?_, ?_⟩
  · unfold ticketPriceCheck
    cases hr : resolveTicketPrice w it.trip_id it.boat_id it.item_type with
    | none => simp
    | some p =>
      simp only []
      by_cases hne : (p != it.price_per_unit) = true
      · rw [if_pos hne]
        have : p ≠ it.price_per_unit := by simpa using hne
        simp [this]
      · rw [if_neg hne]
        have : p = it.price_per_unit := by simpa using hne
        simp [this]
  · unfold ticketPriceCheck
    cases hr : resolveTicketPrice w it.trip_id it.boat_id it.item_type with
    | none => simp
    | some p =>
      simp only []
      by_cases hne : (p != it.price_per_unit) = true
      · rw [if_pos hne]; simp
      · rw [if_neg hne]; simp
  · intro hr hnq
    unfold ticketPriceCheck
    rw [hr]
    simp only []
    rw [if_pos (by simpa using hnq)]
  · intro hp hq0
    unfold resolveTicketPrice
    rw [hp]
    simp only []
    rw [if_pos (by simpa using hq0)]
  · intro hp
    unfold resolveTicketPrice
    rw [hp]
    simp
  · intro hp
    unfold resolveTicketPrice
    rw [hp]
  · intro h
    unfold checkPricingAndInventory at h
    obtain ⟨a, ha, hfa⟩ := firstErr_some_exists items _ Err.ticketPriceMismatch h
    cases hm : a.trip_merchandise_id with
    | none =>
      refine ⟨a, ha, hm, ?_⟩
      simpa [hm] using hfa
    | some tmid =>
      exact absurd (by simpa [hm] using hfa)
        (merchItemCheck_ne_priceMismatch w a tmid)

/-- A world whose only pricing row is a zero-priced "adult_ticket" type. -/
def cw6 : World :=
  { missions := [{ id := 1, active := true, launch_id := 1 }],
    trips := [{ id := 1, mission_id := 1, active := true, mode := "public" }],
    boats := [{ id := 1, capacity := 10 }],
    tripBoats := [{ id := 1, trip_id := 1, boat_id := 1, max_capacity := none,
                    use_only_trip_pricing := false }],
    boatPricings := [{ boat_id := 1, ticket_type := "adult_ticket", price := 0,
                       capacity := 0 }],
    tripBoatPricings := [], merch := [], variations := [], tripMerch := [],
    discountCodes := [], launches := [{ id := 1, location_id := 1 }],
    jurisdictions := [], bookings := [], items := [] }

/-- A world where a trip-boat override changes the adult price 5000 → 4500. -/
def cw6b : World :=
  { missions := [{ id := 1, active := true, launch_id := 1 }],
    trips := [{ id := 1, mission_id := 1, active := true, mode := "public" }],
    boats := [{ id := 1, capacity := 10 }],
    tripBoats := [{ id := 1, trip_id := 1, boat_id := 1, max_capacity := none,
                    use_only_trip_pricing := false }],
    boatPricings := [{ boat_id := 1, ticket_type := "adult", price := 5000,
                       capacity := 0 }],
    tripBoatPricings := [{ trip_boat_id := 1, ticket_type := "adult",
                           price := 4500, capacity := none }],
    merch := [], variations := [], tripMerch := [],
    discountCodes := [], launches := [{ id := 1, location_id := 1 }],
    jurisdictions := [], bookings := [], items := [] }

/-- The stale-price submission of the claim's scenario B: the boat-level
adult price, where the trip-boat override applies. -/
def itB : ItemInput :=
  { trip_id := 1, boat_id := 1, trip_merchandise_id := none,
    item_type := "adult", quantity := 1, price_per_unit := 5000,
    variant_option := none }

/-- **C6** counterexample: in `cw6` a price for "adult_ticket" exists (0) and
the client submits exactly 0, so per the claim the item should be accepted —
but Python's falsy `or` discards the zero price, the stripped "adult" lookup
misses, and the item is rejected as having no pricing configured. -/
theorem C6_counterexample :
    priceByType cw6 1 1 "adult_ticket" = some 0 ∧
    ticketPriceCheck cw6
      { trip_id := 1, boat_id := 1, trip_merchandise_id := none,
        item_type := "adult_ticket", quantity := 1, price_per_unit := 0,
        variant_option := none } = some Err.noPricingForType :=
  ⟨by decide, by decide⟩

/-- **C6** witness: the amended theorem applied to scenario B — submitting
the boat-level 5000 where the override resolves 4500 is a price mismatch. -/
theorem C6_price_mismatch_amended_witness :
    ticketPriceCheck cw6b itB = some Err.ticketPriceMismatch :=
  (C6_price_mismatch_amended cw6b itB 4500 []).2.2.1 (by decide) (by decide)

/-! ## Claim C4: refund semantics -/

/-- **C4**.  For a refund request on a booking: a booking outside
confirmed/checked_in/completed is rejected; with nothing left to refund the
request is rejected; an amount exceeding `total_amount -
refunded_amount_cents` is rejected, as is a non-positive amount — each
rejection leaving the state unchanged.  An accepted refund reaching
`total_amount` cancels the booking, marks payment refunded, marks every item
of the booking refunded and folds the inventory release over its items; an
accepted partial refund only updates the booking's refund bookkeeping to
partially_refunded (status, items and inventory untouched).  The release of
one item decrements its variation's `quantity_sold` by the item quantity (and
`quantity_fulfilled` too when the item was fulfilled), leaving other
variations and non-merchandise items alone. -/
theorem C4_refund_semantics (w : World) (code : String) (amt : Option Int)
    (gw : Bool) (b : Booking) (hb : w.bookingByCode code = some b)
    (hgw : (b.has_payment_intent && !gw) = false) :
    (¬(b.booking_status = BookingStatus.confirmed ∨
        b.booking_status = BookingStatus.checked_in ∨
        b.booking_status = BookingStatus.completed) →
      processRefund w code amt gw = (w, some Err.refundBadStatus)) ∧
    ((b.booking_status = BookingStatus.confirmed ∨
        b.booking_status = BookingStatus.checked_in ∨
        b.booking_status = BookingStatus.completed) →
      (b.total_amount - b.refunded_amount_cents ≤ 0 →
        processRefund w code amt gw = (w, some Err.noRemainingRefund)) ∧
      (0 < b.total_amount - b.refunded_amount_cents →
        (b.total_amount - b.refunded_amount_cents <
            amt.getD (b.total_amount - b.refunded_amount_cents) →
          processRefund w code amt gw = (w, some Err.refundTooLarge)) ∧
        (amt.getD (b.total_amount - b.refunded_amount_cents) ≤
            b.total_amount - b.refunded_amount_cents →
          (amt.getD (b.total_amount - b.refunded_amount_cents) ≤ 0 →
            processRefund w code amt gw = (w, some Err.refundNotPositive)) ∧
          (0 < amt.getD (b.total_amount - b.refunded_amount_cents) →
            (b.total_amount ≤ b.refunded_amount_cents +
                amt.getD (b.total_amount - b.refunded_amount_cents) →
              processRefund w code amt gw =
                ({ w with
                    bookings := w.bookings.map (fun x =>
                      if x.id == b.id then
                        { b with
                          refunded_amount_cents := b.refunded_amount_cents +
                            amt.getD
                              (b.total_amount - b.refunded_amount_cents),
                          booking_status := BookingStatus.cancelled,
                          payment_status := some PaymentStatus.refunded }
                      else x),
                    items := w.items.map (fun i =>
                      if i.booking_id == b.id then
                        { i with status := ItemStatus.refunded } else i),
                    variations := (w.itemsOfBooking b.id).foldl
                      releaseItemInventory w.variations }, none)) ∧
            (b.refunded_amount_cents +
                amt.getD (b.total_amount - b.refunded_amount_cents) <
                b.total_amount →
              processRefund w code amt gw =
                ({ w with
                    bookings := w.bookings.map (fun x =>
                      if x.id == b.id then
                        { b with
                          refunded_amount_cents := b.refunded_amount_cents +
                            amt.getD
                              (b.total_amount - b.refunded_amount_cents),
                          payment_status :=
                            some PaymentStatus.partially_refunded }
                      else x) }, none)))))) ∧
    (∀ (vars : List MerchVariation) (i : BookingItem),
      (i.merchandise_variation_id = none →
        releaseItemInventory vars i = vars) ∧
      (∀ vid v, i.merchandise_variation_id = some vid → v ∈ vars →
        (v.id ≠ vid → v ∈ releaseItemInventory vars i) ∧
        (v.id = vid → i.quantity ≤ v.quantity_sold →
          (i.status = ItemStatus.fulfilled →
            i.quantity ≤ v.quantity_fulfilled) →
          { v with
            quantity_sold := v.quantity_sold - i.quantity,
            quantity_fulfilled :=
              if i.status == ItemStatus.fulfilled then
                v.quantity_fulfilled - i.quantity
              else v.quantity_fulfilled } ∈ releaseItemInventory vars i))) := by
  refine ⟨?_, ?_, ?_⟩
  · intro hbad
    have hstb : (b.booking_status == BookingStatus.confirmed
        || b.booking_status == BookingStatus.checked_in
        || b.booking_status == BookingStatus.completed) = false := by
      cases h2 : (b.booking_status == BookingStatus.confirmed
          || b.booking_status == BookingStatus.checked_in
          || b.booking_status == BookingStatus.completed) with
      | true =>
        exfalso
        apply hbad
        simp only [Bool.or_eq_true, beq_iff_eq] at h2
        tauto
      | false => rfl
    simp [processRefund, hb, hstb]
  · intro hgood
    have hstb : (b.booking_status == BookingStatus.confirmed
        || b.booking_status == BookingStatus.checked_in
        || b.booking_status == BookingStatus.completed) = true := by
      simp only [Bool.or_eq_true, beq_iff_eq]
      tauto
    refine ⟨?_, ?_⟩
    · intro hrem
      simp [processRefund, hb, hstb, hrem]
    · intro hrem
      have hr2 : ¬(b.total_amount - b.refunded_amount_cents ≤ 0) := by omega
      refine ⟨?_, ?_⟩
      · intro hbig
        simp [processRefund, hb, hstb, hr2, gt_iff_lt, hbig]
      · intro hnotbig
        have hnb : ¬(b.total_amount - b.refunded_amount_cents <
            amt.getD (b.total_amount - b.refunded_amount_cents)) := by omega
        refine ⟨?_, ?_⟩
        · intro hle0
          simp [processRefund, hb, hstb, hr2, gt_iff_lt, hnb, hle0]
        · intro hpos
          have hp2 : ¬(amt.getD (b.total_amount - b.refunded_amount_cents)
              ≤ 0) := by omega
          refine ⟨?_, ?_⟩
          · intro hfull
            simp [processRefund, hb, hstb, hr2, gt_iff_lt, hnb, hp2, hgw,
              ge_iff_le, hfull]
          · intro hpart
            have hnf : ¬(b.total_amount ≤ b.refunded_amount_cents +
                amt.getD (b.total_amount - b.refunded_amount_cents)) := by
              omega
            simp [processRefund, hb, hstb, hr2, gt_iff_lt, hnb, hp2, hgw,
              ge_iff_le, hnf]
  · intro vars i
    refine ⟨?_, ?_⟩
    · intro hnone
      unfold releaseItemInventory
      rw [hnone]
    · intro vid v hvid hv
      refine ⟨?_, ?_⟩
      · intro hne
        unfold releaseItemInventory
        rw [hvid]
        have hcond : (v.id == vid) = false := by simp [hne]
        have h2 := List.mem_map_of_mem (fun v =>
          if v.id == vid then
            { v with
              quantity_sold := max 0 (v.quantity_sold - i.quantity),
              quantity_fulfilled :=
                if i.status == ItemStatus.fulfilled then
                  max 0 (v.quantity_fulfilled - i.quantity)
                else v.quantity_fulfilled }
          else v) hv
        simp only [hcond, Bool.false_eq_true, if_false] at h2
        exact h2
      · intro hveq hsold hful
        unfold releaseItemInventory
        rw [hvid]
        have hcond : (v.id == vid) = true := by simp [hveq]
        have h2 := List.mem_map_of_mem (fun v =>
          if v.id == vid then
            { v with
              quantity_sold := max 0 (v.quantity_sold - i.quantity),
              quantity_fulfilled :=
                if i.status == ItemStatus.fulfilled then
                  max 0 (v.quantity_fulfilled - i.quantity)
                else v.quantity_fulfilled }
          else v) hv
        simp only [hcond, if_true] at h2
        have h1 : max 0 (v.quantity_sold - i.quantity) =
            v.quantity_sold - i.quantity := by omega
        have h3 : (if (i.status == ItemStatus.fulfilled) = true then
              max 0 (v.quantity_fulfilled - i.quantity)
            else v.quantity_fulfilled) =
            (if (i.status == ItemStatus.fulfilled) = true then
              v.quantity_fulfilled - i.quantity
            else v.quantity_fulfilled) := by
          by_cases hstat : (i.status == ItemStatus.fulfilled) = true
          · rw [if_pos hstat, if_pos hstat]
            have := hful (by simpa using hstat)
            omega
          · rw [if_neg hstat, if_neg hstat]
        rw [h1, h3] at h2
        exact h2

/-- The booking of `cw4`: confirmed, fully unrefunded, 500 cents total. -/
def bk4 : Booking :=
  { id := 1, confirmation_code := "C4",
    booking_status := .confirmed, payment_status := some .paid,
    subtotal := 500, discount_amount := 0, tax_amount := 0,
    tip_amount := 0, total_amount := 500,
    refunded_amount_cents := 0, has_payment_intent := false }

/-- A world with one confirmed booking holding a merchandise item (2 units
sold on variation 1), ready for a full refund. -/
def cw4 : World :=
  { missions := [{ id := 1, active := true, launch_id := 1 }],
    trips := [{ id := 1, mission_id := 1, active := true, mode := "public" }],
    boats := [{ id := 1, capacity := 10 }],
    tripBoats := [{ id := 1, trip_id := 1, boat_id := 1, max_capacity := none,
                    use_only_trip_pricing := false }],
    boatPricings := [], tripBoatPricings := [],
    merch := [{ id := 1, price := 250 }],
    variations := [{ id := 1, merchandise_id := 1, variant_value := "M",
                     quantity_total := 5, quantity_sold := 2,
                     quantity_fulfilled := 0 }],
    tripMerch := [{ id := 1, trip_id := 1, merchandise_id := 1,
                    quantity_available_override := none,
                    price_override := none }],
    discountCodes := [], launches := [{ id := 1, location_id := 1 }],
    jurisdictions := [],
    bookings := [bk4],
    items := [{ id := 1, booking_id := 1, trip_id := 1, boat_id := 1,
                trip_merchandise_id := some 1, merchandise_variation_id := some 1,
                item_type := "Tee", quantity := 2, price_per_unit := 250,
                status := .active }] }

/-- **C4** witness: the default-amount refund on `cw4` is a full refund —
the booking becomes cancelled/refunded, its item refunded, and the variation
release is folded in. -/
theorem C4_refund_semantics_witness :
    processRefund cw4 "C4" none true =
      ({ cw4 with
          bookings := cw4.bookings.map (fun x =>
            if x.id == bk4.id then
              { bk4 with
                refunded_amount_cents := bk4.refunded_amount_cents +
                  (none : Option Int).getD
                    (bk4.total_amount - bk4.refunded_amount_cents),
                booking_status := BookingStatus.cancelled,
                payment_status := some PaymentStatus.refunded }
            else x),
          items := cw4.items.map (fun i =>
            if i.booking_id == bk4.id then
              { i with status := ItemStatus.refunded } else i),
          variations := (cw4.itemsOfBooking bk4.id).foldl
            releaseItemInventory cw4.variations }, none) :=
  (((((C4_refund_semantics cw4 "C4" none true bk4 (by decide)
      (by decide)).2.1 (by decide)).2 (by decide)).2 (by decide)).2
      (by decide)).1 (by decide)

/-! ## Claim C5: the quantity-update sub-operation -/

theorem filterMap_congr_mem {α β : Type} (l : List α) (f g : α → Option β)
    (h : ∀ a ∈ l, f a = g a) : l.filterMap f = l.filterMap g := by
  induction l with
  | nil => rfl
  | cons a t ih =>
    rw [List.filterMap_cons, List.filterMap_cons,
      h a (List.mem_cons_self a t),
      ih (fun x hx => h x (List.mem_cons_of_mem a hx))]

theorem filterMap_over_filter {α β : Type} (l : List α) (p : α → Bool)
    (f : α → Option β) :
    (l.filter p).filterMap f =
      l.filterMap (fun a => if p a then f a else none) := by
  induction l with
  | nil => rfl
  | cons a t ih =>
    by_cases hp : p a = true
    · rw [List.filter_cons_of_pos hp, List.filterMap_cons, List.filterMap_cons,
        if_pos hp, ih]
    · rw [List.filter_cons_of_neg hp, List.filterMap_cons, if_neg hp, ih]

theorem filterMap_over_map {α β γ : Type} (l : List α) (g : α → β)
    (f : β → Option γ) :
    (l.map g).filterMap f = l.filterMap (fun a => f (g a)) := by
  induction l with
  | nil => rfl
  | cons a t ih =>
    rw [List.map_cons, List.filterMap_cons, List.filterMap_cons, ih]

/-- `qty_by_id` sees nothing for an id matched by no update. -/
theorem qtyById_eq_none (us : List QtyUpd) (i : Nat)
    (h : ∀ u ∈ us, ¬u.id = i) : qtyById us i = none := by
  unfold qtyById
  rw [List.find?_eq_none.mpr]
  · rfl
  · intro u hu
    have := h u (List.mem_reverse.mp hu)
    simp [this]

/-- Prepending an update for a different id does not change `qty_by_id`. -/
theorem qtyById_cons_ne (u : QtyUpd) (rest : List QtyUpd) (i : Nat)
    (h : ¬u.id = i) : qtyById (u :: rest) i = qtyById rest i := by
  unfold qtyById
  rw [List.reverse_cons]
  cases hf : rest.reverse.find? (fun x => x.id == i) with
  | some u2 => rw [find?_append_first _ _ _ _ hf]
  | none =>
    rw [find?_append_none _ _ _ hf]
    have hb : (u.id == i) = false := by simp [h]
    simp [List.find?, hb]

/-- With no update of the same id behind it, a prepended update wins. -/
theorem qtyById_cons_self (u : QtyUpd) (rest : List QtyUpd)
    (h : ∀ u2 ∈ rest, ¬u2.id = u.id) :
    qtyById (u :: rest) u.id = some u.quantity := by
  unfold qtyById
  rw [List.reverse_cons]
  rw [find?_append_none]
  · simp [List.find?]
  · rw [List.find?_eq_none.mpr]
    intro u2 hu2
    have := h u2 (List.mem_reverse.mp hu2)
    simp [this]

/-- The item list denoted by a list of quantity updates: every item carries
its proposed (or unchanged) quantity, and items proposed at 0 are gone. -/
def proposedItems (us : List QtyUpd) (its : List BookingItem) :
    List BookingItem :=
  its.filterMap fun i =>
    if ((qtyById us i.id).getD i.quantity) == 0 then none
    else some { i with quantity := (qtyById us i.id).getD i.quantity }

theorem proposedItems_nil (its : List BookingItem)
    (hnz : ∀ i ∈ its, ¬i.quantity = 0) : proposedItems [] its = its := by
  induction its with
  | nil => rfl
  | cons i rest ih =>
    have hz : (((qtyById [] i.id).getD i.quantity) == 0) = false := by
      have := hnz i (List.mem_cons_self i rest)
      simp [qtyById, this]
    unfold proposedItems
    rw [List.filterMap_cons]
    simp only [hz, Bool.false_eq_true, if_false]
    have htail := ih (fun x hx => hnz x (List.mem_cons_of_mem i hx))
    unfold proposedItems at htail
    rw [htail]
    rfl

theorem proposedItems_cons_skip (u : QtyUpd) (rest : List QtyUpd)
    (its : List BookingItem)
    (hnotin : ∀ u2 ∈ rest, ¬u2.id = u.id)
    (hvals : ∀ i ∈ its, i.id = u.id →
      (qtyById (u :: rest) i.id).getD i.quantity =
        (qtyById rest i.id).getD i.quantity) :
    proposedItems (u :: rest) its = proposedItems rest its := by
  unfold proposedItems
  apply filterMap_congr_mem
  intro i hi
  by_cases hid : i.id = u.id
  · rw [hvals i hi hid]
  · rw [qtyById_cons_ne u rest i.id (fun hcon => hid hcon.symm)]

theorem proposedItems_cons_delete (u : QtyUpd) (rest : List QtyUpd)
    (its : List BookingItem)
    (hnotin : ∀ u2 ∈ rest, ¬u2.id = u.id)
    (hz : u.quantity = 0) :
    proposedItems (u :: rest) its =
      proposedItems rest (its.filter (fun i => i.id != u.id)) := by
  unfold proposedItems
  rw [filterMap_over_filter]
  apply filterMap_congr_mem
  intro i hi
  by_cases hid : i.id = u.id
  · have hq : qtyById (u :: rest) i.id = some u.quantity := by
      rw [hid]; exact qtyById_cons_self u rest hnotin
    have hcond : (i.id != u.id) = false := by simp [hid]
    simp [hq, hcond, hz]
  · have hcond : (i.id != u.id) = true := by simp [hid]
    rw [qtyById_cons_ne u rest i.id (fun hcon => hid hcon.symm)]
    simp [hcond]

theorem proposedItems_cons_update (u : QtyUpd) (rest : List QtyUpd)
    (its : List BookingItem)
    (hnotin : ∀ u2 ∈ rest, ¬u2.id = u.id)
    (hnz : ¬u.quantity = 0) :
    proposedItems (u :: rest) its =
      proposedItems rest (its.map (fun i =>
        if i.id == u.id then { i with quantity := u.quantity } else i)) := by
  unfold proposedItems
  rw [filterMap_over_map]
  apply filterMap_congr_mem
  intro i hi
  by_cases hid : i.id = u.id
  · have hq : qtyById (u :: rest) i.id = some u.quantity := by
      rw [hid]; exact qtyById_cons_self u rest hnotin
    have hif : (i.id == u.id) = true := by simp [hid]
    have hq2 : qtyById rest i.id = none := by
      apply qtyById_eq_none
      intro u2 hu2
      rw [hid]
      exact hnotin u2 hu2
    simp [hq, hif, hq2, hnz]
  · have hif : (i.id == u.id) = false := by simp [hid]
    rw [qtyById_cons_ne u rest i.id (fun hcon => hid hcon.symm)]
    simp [hif]

/-- The item-list effect of the whole quantity-update loop: with no duplicate
update ids, no duplicate item ids and no zero-quantity items, a successful
application produces exactly the proposed item list (proposed quantities in
place, proposed-zero items deleted). -/
theorem applyQtyUpdates_items (us : List QtyUpd) (its : List BookingItem)
    (vars : List MerchVariation) (its2 : List BookingItem)
    (vars2 : List MerchVariation)
    (hnodupU : (us.map (fun u => u.id)).Nodup)
    (hnodupI : (its.map (fun i => i.id)).Nodup)
    (hnz : ∀ i ∈ its, ¬i.quantity = 0)
    (h : applyQtyUpdates us (its, vars) = .ok (its2, vars2)) :
    its2 = proposedItems us its := by
  induction us generalizing its vars with
  | nil =>
    have h0 : applyQtyUpdates [] (its, vars) = .ok (its, vars) := rfl
    rw [h0] at h
    have h1 : its = its2 := congrArg Prod.fst (Except.ok.inj h)
    rw [← h1, proposedItems_nil its hnz]
  | cons u rest ih =>
    have hnotin : ∀ u2 ∈ rest, ¬u2.id = u.id := by
      intro u2 hu2 hcon
      apply (List.nodup_cons.mp hnodupU).1
      have hmm : u.id ∈ List.map (fun x => x.id) rest := by
        rw [← hcon]
        exact List.mem_map_of_mem (fun x => x.id) hu2
      exact hmm
    have hrestU : (rest.map (fun u => u.id)).Nodup :=
      (List.nodup_cons.mp hnodupU).2
    have hcons : applyQtyUpdates (u :: rest) (its, vars) =
        applyOneQtyUpdate (its, vars) u >>= fun st1 =>
          applyQtyUpdates rest st1 := by
      rfl
    rw [hcons] at h
    cases hstep : applyOneQtyUpdate (its, vars) u with
    | error e =>
      rw [hstep] at h
      exact absurd h (by simp [Bind.bind, Except.bind])
    | ok st1 =>
      rw [hstep] at h
      obtain ⟨its1, vars1⟩ := st1
      have h2 : applyQtyUpdates rest (its1, vars1) = .ok (its2, vars2) := h
      simp only [applyOneQtyUpdate] at hstep
      cases hfind : its.find? (fun i => i.id == u.id) with
      | none =>
        simp only [hfind] at hstep
        have hits1 : its1 = its := by
          have := Except.ok.inj hstep
          exact (congrArg Prod.fst this).symm
        have hvars1 : vars1 = vars := by
          have := Except.ok.inj hstep
          exact (congrArg Prod.snd this).symm
        rw [hits1, hvars1] at h2
        rw [ih its vars hrestU hnodupI hnz h2]
        symm
        apply proposedItems_cons_skip u rest its hnotin
        intro i hi hid
        exfalso
        have := List.find?_eq_none.mp hfind i hi
        simp [hid] at this
      | some item =>
        simp only [hfind] at hstep
        have hitem_mem := List.mem_of_find?_eq_some hfind
        have hitem_id : item.id = u.id := by
          have := List.find?_some hfind
          simpa using this
        by_cases hsame : (u.quantity == item.quantity) = true
        · rw [if_pos hsame] at hstep
          have hits1 : its1 = its := by
            have := Except.ok.inj hstep
            exact (congrArg Prod.fst this).symm
          have hvars1 : vars1 = vars := by
            have := Except.ok.inj hstep
            exact (congrArg Prod.snd this).symm
          rw [hits1, hvars1] at h2
          rw [ih its vars hrestU hnodupI hnz h2]
          symm
          apply proposedItems_cons_skip u rest its hnotin
          intro i hi hid
          have hieq : i = item := by
            apply mem_nodup_id_unique its (fun x => x.id) hnodupI i item hi
              hitem_mem
            rw [hid, hitem_id]
          have hq : qtyById (u :: rest) i.id = some u.quantity := by
            rw [hid]; exact qtyById_cons_self u rest hnotin
          have hq2 : qtyById rest i.id = none := by
            apply qtyById_eq_none
            intro u2 hu2
            rw [hid]
            exact hnotin u2 hu2
          rw [hq, hq2]
          have : u.quantity = item.quantity := by simpa using hsame
          rw [hieq, this]
          rfl
        · rw [if_neg hsame] at hstep
          cases hv : qtyUpdateVarsStep vars item u.quantity with
          | error e =>
            rw [hv] at hstep
            exact absurd hstep (by simp [Bind.bind, Except.bind])
          | ok varsN =>
            rw [hv] at hstep
            simp only [Bind.bind, Except.bind] at hstep
            by_cases hz : (u.quantity == 0) = true
            · rw [if_pos hz] at hstep
              have hzq : u.quantity = 0 := by simpa using hz
              have hits1 : its1 = its.filter (fun i => i.id != u.id) := by
                have h3 : (Except.ok (its.filter (fun i => i.id != u.id),
                    varsN) : Except Err _) = .ok (its1, vars1) := hstep
                exact (congrArg Prod.fst (Except.ok.inj h3)).symm
              rw [hits1] at h2
              have hnodupI2 : ((its.filter (fun i => i.id != u.id)).map
                  (fun i => i.id)).Nodup := by
                apply List.Nodup.sublist _ hnodupI
                exact List.Sublist.map _ (List.filter_sublist its)
              have hnz2 : ∀ i ∈ its.filter (fun i => i.id != u.id),
                  ¬i.quantity = 0 := by
                intro i hi
                exact hnz i (List.mem_of_mem_filter hi)
              rw [ih (its.filter (fun i => i.id != u.id)) vars1 hrestU
                hnodupI2 hnz2 h2]
              exact (proposedItems_cons_delete u rest its hnotin hzq).symm
            · rw [if_neg hz] at hstep
              have hzq : ¬u.quantity = 0 := by simpa using hz
              have hits1 : its1 = its.map (fun i =>
                  if i.id == u.id then { i with quantity := u.quantity }
                  else i) := by
                have h3 : (Except.ok (its.map (fun i =>
                    if i.id == u.id then { i with quantity := u.quantity }
                    else i), varsN) : Except Err _) = .ok (its1, vars1) :=
                  hstep
                exact (congrArg Prod.fst (Except.ok.inj h3)).symm
              rw [hits1] at h2
              have hids : (its.map (fun i =>
                  if i.id == u.id then { i with quantity := u.quantity }
                  else i)).map (fun i => i.id) = its.map (fun i => i.id) := by
                rw [List.map_map]
                apply List.map_congr_left
                intro i hi
                by_cases hid : (i.id == u.id) = true
                · simp [Function.comp, hid]
                · simp [Function.comp, hid]
              have hnodupI2 : ((its.map (fun i =>
                  if i.id == u.id then { i with quantity := u.quantity }
                  else i)).map (fun i => i.id)).Nodup := by
                rw [hids]; exact hnodupI
              have hnz2 : ∀ j ∈ its.map (fun i =>
                  if i.id == u.id then { i with quantity := u.quantity }
                  else i), ¬j.quantity = 0 := by
                intro j hj
                obtain ⟨i, hi, hji⟩ := List.mem_map.mp hj
                by_cases hid : (i.id == u.id) = true
                · rw [if_pos hid] at hji
                  rw [← hji]
                  exact hzq
                · rw [if_neg hid] at hji
                  rw [← hji]
                  exact hnz i hi
              rw [ih (its.map (fun i =>
                if i.id == u.id then { i with quantity := u.quantity }
                else i)) vars1 hrestU hnodupI2 hnz2 h2]
              exact (proposedItems_cons_update u rest its hnotin hzq).symm

/-- The recomputed subtotal is exactly the quantity-times-price sum over the
surviving (proposed) items. -/
theorem newSubtotalOf_eq_surviving (its : List BookingItem)
    (us : List QtyUpd) :
    newSubtotalOf its us =
      ((proposedItems us its).map
        (fun i => i.quantity * i.price_per_unit)).sum := by
  induction its with
  | nil => rfl
  | cons i rest ih =>
    unfold newSubtotalOf proposedItems at ih ⊢
    rw [List.map_cons, List.sum_cons, List.filterMap_cons]
    by_cases hz : (((qtyById us i.id).getD i.quantity) == 0) = true
    · have hz2 : ((qtyById us i.id).getD i.quantity) = 0 := by simpa using hz
      simp only [hz, if_true]
      rw [hz2, ih]
      simp
    · simp only [hz, Bool.false_eq_true, if_false]
      rw [List.map_cons, List.sum_cons, ih]

/-- The claim's reading of the self-exclusion: the booking's own current
ticket contribution in the exact `(trip, boat, type)` bucket.  Stated from
the claim's words for comparison — the code's `currentThisBooking` instead
keys by `(boat, type)` only, summing across all the booking's trips. -/
def ownContribPerTrip (bookingItems : List BookingItem)
    (k : Nat × Nat × String) : Int :=
  (bookingItems.map (fun i =>
    if i.trip_merchandise_id == none && i.trip_id == k.1 && i.boat_id == k.2.1
        && i.item_type == k.2.2 then i.quantity else 0)).sum

/-- **C5** (amended).  A successful quantity-only update commits the applied
item list and variation counters, rewrites the booking with the recomputed
subtotal (tip, status and payment untouched; tax/total re-derived when the
jurisdiction rate walk yields an outcome, kept otherwise); the capacity check
it passed bounds, per touched bucket, the paid count minus the booking's own
contribution keyed by `(boat, type)` — not by `(trip, boat, type)` as
claimed — plus the proposed total; the applied item list is exactly the
proposed one (updates in place, proposed-zero items deleted); the recomputed
subtotal is the quantity-times-price sum over the surviving items and the
tax/total outcome is `(0, 0)` when nothing survives; and a zero-quantity
update on a merchandise item deletes the item and releases its
`quantity_sold`. -/
theorem C5_quantity_update_amended (w : World) (bid : Nat) (us : List QtyUpd)
    (b : Booking) (its2 : List BookingItem) (vars2 : List MerchVariation)
    (hb : w.getBooking bid = some b)
    (hnci : b.booking_status ≠ BookingStatus.checked_in)
    (hvalid : us.all (fun u => 0 ≤ u.quantity) = true)
    (hmem : (us.any (fun u => match w.getItem u.id with
        | none => true
        | some i => i.booking_id != b.id)) = false)
    (hcap : checkQtyUpdateCapacity w (w.itemsOfBooking b.id) us = none)
    (happly : applyQtyUpdates us (w.items, w.variations) = .ok (its2, vars2)) :
    (updateBooking w bid { item_quantity_updates := some us } =
      ({ w with
          bookings := w.bookings.map (fun x =>
            if x.id == b.id then
              { b with
                subtotal := newSubtotalOf (w.itemsOfBooking b.id) us,
                tax_amount := ((qtyUpdateTaxTotal w b (w.itemsOfBooking b.id)
                  us (newSubtotalOf (w.itemsOfBooking b.id) us)).map
                    Prod.fst).getD b.tax_amount,
                total_amount := ((qtyUpdateTaxTotal w b (w.itemsOfBooking b.id)
                  us (newSubtotalOf (w.itemsOfBooking b.id) us)).map
                    Prod.snd).getD b.total_amount }
            else x),
          items := its2, variations := vars2 }, none)) ∧
    (∀ k cap2, k ∈ dedupKeys (((w.itemsOfBooking b.id).filter
        (fun i => i.trip_merchandise_id == none)).map
          (fun i => (i.trip_id, i.boat_id, i.item_type))) →
      effCapEntry w k.1 k.2.1 k.2.2 = some (some cap2) →
      paidCountByBoatType w k.1 k.2.1 k.2.2
        - currentThisBooking (w.itemsOfBooking b.id) k.2.1 k.2.2
        + proposedQtyByType (w.itemsOfBooking b.id) us k ≤ cap2) ∧
    ((us.map (fun u => u.id)).Nodup → (w.items.map (fun i => i.id)).Nodup →
      (∀ i ∈ w.items, ¬i.quantity = 0) →
      its2 = proposedItems us w.items) ∧
    (newSubtotalOf (w.itemsOfBooking b.id) us =
      ((proposedItems us (w.itemsOfBooking b.id)).map
        (fun i => i.quantity * i.price_per_unit)).sum) ∧
    ((w.itemsOfBooking b.id).all
        (fun i => (qtyById us i.id).getD i.quantity ≤ 0) = true →
      qtyUpdateTaxTotal w b (w.itemsOfBooking b.id) us
        (newSubtotalOf (w.itemsOfBooking b.id) us) = some (0, 0)) ∧
    (∀ (its : List BookingItem) (vars : List MerchVariation)
        (item : BookingItem) (u : QtyUpd) (vid : Nat) (v : MerchVariation),
      its.find? (fun i => i.id == u.id) = some item →
      u.quantity = 0 → 0 < item.quantity →
      item.merchandise_variation_id = some vid →
      vars.find? (fun x => x.id == vid) = some v →
      applyOneQtyUpdate (its, vars) u =
        .ok (its.filter (fun i => i.id != u.id),
          vars.map (fun x =>
            if x.id == vid then
              { x with quantity_sold := max 0 (x.quantity_sold - item.quantity) }
            else x))) := by
  have hci2 : (b.booking_status == BookingStatus.checked_in) = false := by
    simp [hnci]
  refine ⟨?_, ?_, ?_, ?_, ?_, ?_⟩
  · cases htt : qtyUpdateTaxTotal w b (w.itemsOfBooking b.id) us
        (newSubtotalOf (w.itemsOfBooking b.id) us) with
    | none =>
      simp [updateBooking, UpdatePayload.isEmpty, hb, hci2, hvalid, hmem,
        hcap, happly, htt]
    | some tt2 =>
      simp [updateBooking, UpdatePayload.isEmpty, hb, hci2, hvalid, hmem,
        hcap, happly, htt]
  · intro k cap2 hk hce
    simp only [checkQtyUpdateCapacity] at hcap
    rw [firstErr_eq_none_iff] at hcap
    have hfk := hcap k hk
    simp only [hce] at hfk
    by_contra hgt
    rw [if_pos (by omega : paidCountByBoatType w k.1 k.2.1 k.2.2
        - currentThisBooking (w.itemsOfBooking b.id) k.2.1 k.2.2
        + proposedQtyByType (w.itemsOfBooking b.id) us k > cap2)] at hfk
    exact absurd hfk (by simp)
  · intro hU hI hz
    exact applyQtyUpdates_items us w.items w.variations its2 vars2 hU hI hz
      happly
  · exact newSubtotalOf_eq_surviving (w.itemsOfBooking b.id) us
  · intro hall
    have hnone : (w.itemsOfBooking b.id).find?
        (fun i => (qtyById us i.id).getD i.quantity > 0) = none := by
      rw [List.find?_eq_none]
      intro i hi
      have h1 := List.all_eq_true.mp hall i hi
      simp only [decide_eq_true_eq] at h1 ⊢
      omega
    simp only [qtyUpdateTaxTotal, hnone]
  · intro its vars item u vid v hfind hz hq hvid hvfind
    have hne : (u.quantity == item.quantity) = false := by
      have h1 : ¬u.quantity = item.quantity := by omega
      simp [h1]
    have hd : ¬(u.quantity - item.quantity > 0) := by omega
    have hz2 : (u.quantity == 0) = true := by simp [hz]
    simp only [applyOneQtyUpdate, hfind, hne, Bool.false_eq_true, if_false,
      qtyUpdateVarsStep, hvid, hvfind]
    rw [if_neg hd]
    simp only [Bind.bind, Except.bind, hz2, if_true, hz]
    simp only [sub_zero]
    rfl

/-- **C5** counterexample: in `cw1b` (per-type capacity 6, one booking with
5 adult tickets on each of two trips sharing the boat) raising item 1 to 11
passes the code's check — it subtracts the `(boat, type)`-keyed own
contribution 10 — although the claim's `(trip, boat, type)`-keyed exclusion
computes 5 − 5 + 11 = 11 > 6 and would reject; the accepted update leaves
11 paid adult seats against the per-type capacity 6. -/
theorem C5_counterexample :
    (updateBooking cw1b 1 (qtyPayload 11)).2 = none ∧
    effCapEntry cw1b 1 1 "adult" = some (some 6) ∧
    currentThisBooking (cw1b.itemsOfBooking 1) 1 "adult" = 10 ∧
    ownContribPerTrip (cw1b.itemsOfBooking 1) (1, 1, "adult") = 5 ∧
    paidCountByBoatType cw1b 1 1 "adult"
      - ownContribPerTrip (cw1b.itemsOfBooking 1) (1, 1, "adult")
      + proposedQtyByType (cw1b.itemsOfBooking 1)
          [{ id := 1, quantity := 11 }] (1, 1, "adult") = 11 ∧
    paidCountByBoatType (updateBooking cw1b 1 (qtyPayload 11)).1 1 1 "adult"
      = 11 :=
  ⟨by decide, by decide, by decide, by decide, by decide, by decide⟩

/-- **C5** witness: shrinking the `cw1a` booking's single item from 10 to 4
through the amended theorem — the subtotal is recomputed to 4 × 5000 with
the tip held at 0. -/
theorem C5_quantity_update_amended_witness :
    (updateBooking cw1a 1 { item_quantity_updates := some [{ id := 1, quantity := 4 }] }).2 = none ∧
    (updateBooking cw1a 1 { item_quantity_updates := some [{ id := 1, quantity := 4 }] }).1.items.map
      (fun i => i.quantity) = [4] ∧
    (updateBooking cw1a 1 { item_quantity_updates := some [{ id := 1, quantity := 4 }] }).1.bookings.map
      (fun x => (x.subtotal, x.tip_amount)) = [(20000, 0)] := by
  have h := C5_quantity_update_amended cw1a 1 [{ id := 1, quantity := 4 }]
    bk1a
    [{ id := 1, booking_id := 1, trip_id := 1, boat_id := 1,
       trip_merchandise_id := none, merchandise_variation_id := none,
       item_type := "adult", quantity := 4, price_per_unit := 5000,
       status := .active }]
    []
    (by decide) (by decide) (by decide) (by decide) (by decide) (by rfl)
  rw [h.1]
  exact ⟨rfl, by decide, by decide⟩

end Quartermaster
